import Mathlib

/-!
# reminder-bot: a shallow embedding and its verified properties

The Go sources embedded here are `utils/utils.go`, `models/models.go`,
`db/database.go`, `bot/bot.go`, `handlers/handlers.go` and the scheduler closure
of `main.go`.

Conventions of the embedding
* Go `int` and `int64` are `Int`; where the range matters (`strconv.Atoi`,
  `Duration`) the 64-bit bounds are written out.
* Go `string` is `String`; the functions below work on its list of characters.
* `time.Now()` is an explicit argument `now`.  The process zone is UTC, the zone
  in which the source builds its dates.
* `float64` values are exact fractions rounded to 53 significant bits after each
  operation (round to nearest, ties to even).
* Library calls (strings, strconv, fmt, time, the Telegram client) are modelled
  from their documented behaviour, next to the place they are used.
-/

deriving instance DecidableEq for Except

namespace ReminderBot

/-! ## Go library: strings, strconv, fmt -/

/-- Pieces of `cs` between occurrences of `sep`; the empty input gives one empty piece. -/
def splitOnChar (sep : Char) : List Char → List (List Char)
  | [] => [[]]
  | c :: cs =>
    if c = sep then [] :: splitOnChar sep cs
    else
      match splitOnChar sep cs with
      | [] => [[c]]
      | p :: ps => (c :: p) :: ps

/-- Model of `strings.Split(s, sep)` for a one-character separator. -/
def stringsSplit (s : String) (sep : Char) : List String :=
  (splitOnChar sep s.data).map String.mk

/-- Model of `strings.HasPrefix`. -/
def hasPrefixOf (s p : String) : Bool :=
  p.data.isPrefixOf s.data

/-- Model of `strings.TrimPrefix`. -/
def trimPrefixOf (s p : String) : String :=
  if hasPrefixOf s p then String.mk (s.data.drop p.data.length) else s

/-- Value of a decimal digit character. -/
def digitVal (c : Char) : Option Nat :=
  if 48 ≤ c.toNat ∧ c.toNat ≤ 57 then some (c.toNat - 48) else none

/-- Decimal value of a run of digits, continuing from `acc`. -/
def parseDigits : List Char → Nat → Option Nat
  | [], acc => some acc
  | c :: cs, acc =>
    match digitVal c with
    | none => none
    | some v => parseDigits cs (acc * 10 + v)

/-- Model of `strconv.ParseInt(s, 10, 64)`: an optional sign, at least one decimal
digit, nothing else, and a value in the signed 64-bit range. -/
def ParseInt64 (s : String) : Except String Int :=
  let body : Bool × List Char :=
    match s.data with
    | c :: rest => if c = '-' then (true, rest) else if c = '+' then (false, rest) else (false, c :: rest)
    | [] => (false, [])
  if body.2 = [] then .error "invalid syntax"
  else
    match parseDigits body.2 0 with
    | none => .error "invalid syntax"
    | some n =>
      let v : Int := if body.1 then -(n : Int) else (n : Int)
      if v < -9223372036854775808 ∨ 9223372036854775807 < v then .error "value out of range"
      else .ok v

/-- Model of `strconv.Atoi` on a platform whose `int` has 64 bits. -/
def Atoi (s : String) : Except String Int :=
  ParseInt64 s

/-- Model of the verb `%0wd` of `fmt.Sprintf`: sign, then zeros up to `width`, then digits. -/
def fmtPadInt (width : Nat) (n : Int) : String :=
  let ds := Nat.toDigits 10 n.natAbs
  let sign : List Char := if n < 0 then ['-'] else []
  String.mk (sign ++ List.replicate (width - ds.length - sign.length) '0' ++ ds)

/-- Model of the verb `%d` of `fmt.Sprintf`. -/
def fmtInt (n : Int) : String :=
  fmtPadInt 0 n

/-! ## Go library: float64 -/

/-- Floor of the binary logarithm, by halving; `fuel` bounds the number of halvings. -/
def log2Fuel : Nat → Nat → Nat
  | 0, _ => 0
  | fuel + 1, n => if 2 ≤ n then log2Fuel fuel (n / 2) + 1 else 0

/-- Floor of the binary logarithm of `n` (0 for `n ≤ 1`). -/
def natLog2 (n : Nat) : Nat :=
  log2Fuel n n

/-- The exponent `e` with `2^e ≤ n/d < 2^(e+1)`, for positive `n` and `d`. -/
def fracLog2 (n d : Nat) : Int :=
  if d ≤ n then (natLog2 (n / d) : Int) else -((natLog2 ((d - 1) / n) + 1 : Nat) : Int)

/-- Integer nearest to `n/d`, ties to the even one. -/
def roundHalfEven (n d : Nat) : Nat :=
  let q := n / d
  let r := n % d
  if 2 * r < d then q else if d < 2 * r then q + 1 else if q % 2 = 0 then q else q + 1

/-- The float64 nearest to the fraction `n/d` (ties to even), returned as a fraction
`(numerator, denominator)`.  Normal range only: overflow and subnormals do not occur
for the magnitudes of this program. -/
def roundF64 (n d : Nat) : Nat × Nat :=
  if n = 0 ∨ d = 0 then (0, 1)
  else
    let e := fracLog2 n d
    if e ≤ 52 then
      let k := (52 - e).toNat
      (roundHalfEven (n * 2 ^ k) d, 2 ^ k)
    else
      let k := (e - 52).toNat
      (roundHalfEven n (d * 2 ^ k) * 2 ^ k, 1)

/-- A float64 value: sign and magnitude `num/den`. -/
structure F64 where
  neg : Bool
  num : Nat
  den : Nat
deriving DecidableEq, Repr

namespace F64

/-- Conversion `float64(i)` of an integer. -/
def ofInt (i : Int) : F64 :=
  let r := roundF64 i.natAbs 1
  { neg := decide (i < 0), num := r.1, den := r.2 }

/-- Float addition `x + y`. -/
def add (x y : F64) : F64 :=
  if x.neg = y.neg then
    let r := roundF64 (x.num * y.den + y.num * x.den) (x.den * y.den)
    { neg := x.neg, num := r.1, den := r.2 }
  else if y.num * x.den ≤ x.num * y.den then
    let r := roundF64 (x.num * y.den - y.num * x.den) (x.den * y.den)
    { neg := x.neg, num := r.1, den := r.2 }
  else
    let r := roundF64 (y.num * x.den - x.num * y.den) (x.den * y.den)
    { neg := y.neg, num := r.1, den := r.2 }

/-- Float division `x / y` for `y` not zero. -/
def div (x y : F64) : F64 :=
  let r := roundF64 (x.num * y.den) (x.den * y.num)
  { neg := xor x.neg y.neg, num := r.1, den := r.2 }

/-- Conversion `int(x)`: truncation toward zero. -/
def toInt (x : F64) : Int :=
  if x.neg then -((x.num / x.den : Nat) : Int) else ((x.num / x.den : Nat) : Int)

end F64

/-! ## Go library: time -/

/-- Leap years of the proleptic Gregorian calendar. -/
def isLeap (year : Int) : Bool :=
  decide (year % 4 = 0 ∧ (year % 100 ≠ 0 ∨ year % 400 = 0))

/-- Number of days of `month` (1 to 12) in `year`. -/
def daysIn (month year : Int) : Int :=
  if month = 2 then (if isLeap year then 29 else 28)
  else if month = 4 ∨ month = 6 ∨ month = 9 ∨ month = 11 then 30
  else 31

/-- Days of a non-leap year before the first of `month` (1 to 12). -/
def daysBefore (month : Int) : Int :=
  if month ≤ 1 then 0
  else if month = 2 then 31
  else if month = 3 then 59
  else if month = 4 then 90
  else if month = 5 then 120
  else if month = 6 then 151
  else if month = 7 then 181
  else if month = 8 then 212
  else if month = 9 then 243
  else if month = 10 then 273
  else if month = 11 then 304
  else 334

/-- Days from 1 January of year 1 to 1 January of `year`. -/
def daysSinceEpoch (year : Int) : Int :=
  365 * (year - 1) + (year - 1) / 4 - (year - 1) / 100 + (year - 1) / 400

/-- Day number of `year-month-day`, as `time.Date` computes it before normalising:
days before the year, days before the month, one more from March of a leap year,
then the day of the month. -/
def absDays (year month day : Int) : Int :=
  daysSinceEpoch year + daysBefore month + (if isLeap year ∧ 3 ≤ month then 1 else 0) + (day - 1)

/-- A `time.Time` in UTC, held by its calendar and clock fields. -/
structure Time where
  year : Int
  month : Int
  day : Int
  hour : Int
  min : Int
  sec : Int
  nsec : Int
deriving DecidableEq, Repr

namespace Time

/-- The fields denote a real instant: a calendar date and a time of day. -/
def Valid (t : Time) : Prop :=
  1 ≤ t.month ∧ t.month ≤ 12 ∧ 1 ≤ t.day ∧ t.day ≤ daysIn t.month t.year ∧
  0 ≤ t.hour ∧ t.hour ≤ 23 ∧ 0 ≤ t.min ∧ t.min ≤ 59 ∧ 0 ≤ t.sec ∧ t.sec ≤ 59 ∧
  0 ≤ t.nsec ∧ t.nsec ≤ 999999999

instance (t : Time) : Decidable t.Valid := by
  unfold Valid
  infer_instance

/-- Nanoseconds from the start of year 1 to `t`. -/
def abs (t : Time) : Int :=
  ((absDays t.year t.month t.day * 86400 + t.hour * 3600 + t.min * 60 + t.sec) * 1000000000) + t.nsec

/-- Model of `t.Before(u)`. -/
def Before (t u : Time) : Bool :=
  decide (t.abs < u.abs)

/-- Model of `t.Sub(u)`: the duration in nanoseconds, saturated to the int64 range. -/
def Sub (t u : Time) : Int :=
  let d := t.abs - u.abs
  if d < -9223372036854775808 then -9223372036854775808
  else if 9223372036854775807 < d then 9223372036854775807
  else d

/-- Model of `t.Format("15:04")`. -/
def formatHHMM (t : Time) : String :=
  fmtPadInt 2 t.hour ++ ":" ++ fmtPadInt 2 t.min

/-- Model of `t.Format("02.01.2006")`. -/
def formatDisplay (t : Time) : String :=
  fmtPadInt 2 t.day ++ "." ++ fmtPadInt 2 t.month ++ "." ++ fmtPadInt 4 t.year

end Time

/-- Carry days beyond the end of the month into the following months. -/
def normalizeDay : Nat → Int → Int → Int → Int × Int × Int
  | 0, year, month, day => (year, month, day)
  | fuel + 1, year, month, day =>
    if daysIn month year < day then
      (if month = 12 then normalizeDay fuel (year + 1) 1 (day - daysIn month year)
       else normalizeDay fuel year (month + 1) (day - daysIn month year))
    else (year, month, day)

/-- Model of `time.Date(year, month, day, 0, 0, 0, 0, time.UTC)` for `month` in 1..12
and `day ≥ 1`, the arguments the source passes: a day past the end of the month is
normalised into the following month (October 32 becomes November 1). -/
def timeDate (year month day : Int) : Time :=
  let n := normalizeDay day.toNat year month day
  { year := n.1, month := n.2.1, day := n.2.2, hour := 0, min := 0, sec := 0, nsec := 0 }

/-- Model of `time.Parse("2006-01-02", value)`: four digits, a dash, two digits, a dash,
two digits and nothing more; the month in 1..12 and the day within the month. -/
def timeParseDate (value : String) : Except String Time :=
  match value.data with
  | [y1, y2, y3, y4, s1, m1, m2, s2, d1, d2] =>
    match digitVal y1, digitVal y2, digitVal y3, digitVal y4,
          digitVal m1, digitVal m2, digitVal d1, digitVal d2 with
    | some a, some b, some c, some d, some e, some f, some g, some h =>
      let year : Int := ((a * 1000 + b * 100 + c * 10 + d : Nat) : Int)
      let month : Int := ((e * 10 + f : Nat) : Int)
      let day : Int := ((g * 10 + h : Nat) : Int)
      if s1 ≠ '-' ∨ s2 ≠ '-' then .error "parsing time: cannot parse"
      else if month < 1 ∨ 12 < month then .error "parsing time: month out of range"
      else if day < 1 ∨ daysIn month year < day then .error "parsing time: day out of range"
      else .ok { year := year, month := month, day := day, hour := 0, min := 0, sec := 0, nsec := 0 }
    | _, _, _, _, _, _, _, _ => .error "parsing time: cannot parse"
  | _ => .error "parsing time: cannot parse"

/-- Model of `d.Hours()` for a duration `d` in nanoseconds:
`float64(d / Hour) + float64(d % Hour) / (60*60*1e9)`, with Go integer division
(truncated toward zero). -/
def durationHours (d : Int) : F64 :=
  let hour := Int.tdiv d 3600000000000
  let nsec := Int.tmod d 3600000000000
  F64.add (F64.ofInt hour) (F64.div (F64.ofInt nsec) (F64.ofInt 3600000000000))

/-- Source: the expression `int(d.Hours() / 24)` of `DaysUntilEvent`, for a duration
`d` in nanoseconds: a float division by 24 and a truncation toward zero. -/
def wholeDays (d : Int) : Int :=
  F64.toInt (F64.div (durationHours d) (F64.ofInt 24))

/-! ## utils/utils.go -/

/-- Source: `utils.FormatDate`. -/
def FormatDate (dateStr : String) : Except String String :=
  match stringsSplit dateStr '.' with
  | [p0, p1, p2] =>
    match Atoi p0 with
    | .error _ => .error "неверный день"
    | .ok day =>
      if day < 1 ∨ day > 31 then .error "неверный день"
      else
        match Atoi p1 with
        | .error _ => .error "неверный месяц"
        | .ok month =>
          if month < 1 ∨ month > 12 then .error "неверный месяц"
          else
            match Atoi p2 with
            | .error _ => .error "неверный год"
            | .ok year =>
              if year < 1900 ∨ year > 2100 then .error "неверный год"
              else
                let date := timeDate year month day
                if date.day ≠ day ∨ date.month ≠ month ∨ date.year ≠ year then
                  .error "несуществующая дата"
                else
                  .ok (fmtPadInt 4 year ++ "-" ++ fmtPadInt 2 month ++ "-" ++ fmtPadInt 2 day)
  | _ => .error "неверный формат даты, используйте ДД.ММ.ГГГГ"

/-- Source: `utils.FormatDisplayDate`. -/
def FormatDisplayDate (dbDate : String) : String :=
  if dbDate = "" then ""
  else
    match timeParseDate dbDate with
    | .error _ => dbDate
    | .ok date => date.formatDisplay

/-- Source: `utils.ValidateTime`. -/
def ValidateTime (timeStr : String) : Except String String :=
  match stringsSplit timeStr ':' with
  | [p0, p1] =>
    match Atoi p0 with
    | .error _ => .error "неверный час (0-23)"
    | .ok hour =>
      if hour < 0 ∨ hour > 23 then .error "неверный час (0-23)"
      else
        match Atoi p1 with
        | .error _ => .error "неверная минута (0-59)"
        | .ok minute =>
          if minute < 0 ∨ minute > 59 then .error "неверная минута (0-59)"
          else .ok (fmtPadInt 2 hour ++ ":" ++ fmtPadInt 2 minute)
  | _ => .error "неверный формат времени, используйте ЧЧ:ММ"

/-- Source: `utils.DaysUntilEvent`, with `time.Now()` passed as `now`. -/
def DaysUntilEvent (eventDate : String) (now : Time) : Except String Int :=
  match timeParseDate eventDate with
  | .error e => .error e
  | .ok date =>
    let eventThisYear := timeDate now.year date.month date.day
    let eventThisYear :=
      if eventThisYear.Before now then timeDate (now.year + 1) date.month date.day
      else eventThisYear
    .ok (wholeDays (eventThisYear.Sub now))

/-! ## models/models.go -/

/-- Source: `models.User` (the field `CreatedAt` is never read and is left out). -/
structure User where
  ID : Int
  TelegramID : Int
  Username : String
  FirstName : String
  LastName : String
  NotificationTime : String
deriving DecidableEq, Repr

/-- Source: `models.Event`; the Go field `Type` is `EventType` here (the field
`CreatedAt` is never read and is left out). -/
structure Event where
  ID : Int
  UserID : Int
  Title : String
  EventType : String
  EventDate : String
  NotifyDays : Int
  Description : String
deriving DecidableEq, Repr

/-- Source: `models.EventTypes`. -/
def EventTypes : List String :=
  ["День рождения", "Встреча", "Праздник", "Годовщина", "Другое"]

/-- A value of Go type `interface` as stored in the scratch map: the dynamic types
the handlers store are `string`, `int` and `int64`. -/
inductive Value where
  | str (s : String)
  | int (n : Int)
  | int64 (n : Int)
deriving DecidableEq, Repr

/-- Source: `models.UserState`; the Go map `CurrentData` is an association list. -/
structure UserState where
  State : String
  CurrentData : List (String × Value)
deriving DecidableEq, Repr

/-- Source: `models.StateDefault`. -/
def StateDefault : String := "default"

/-- Source: `models.StateAddEventTitle`. -/
def StateAddEventTitle : String := "add_event_title"

/-- Source: `models.StateAddEventType`. -/
def StateAddEventType : String := "add_event_type"

/-- Source: `models.StateAddEventDate`. -/
def StateAddEventDate : String := "add_event_date"

/-- Source: `models.StateAddEventNotify`. -/
def StateAddEventNotify : String := "add_event_notify"

/-- Source: `models.StateAddEventDesc`. -/
def StateAddEventDesc : String := "add_event_desc"

/-- Source: `models.StateEditEventField`. -/
def StateEditEventField : String := "edit_event_field"

/-- Source: `models.StateEditEventValue`. -/
def StateEditEventValue : String := "edit_event_value"

/-- Source: `models.StateSetNotifyTime`. -/
def StateSetNotifyTime : String := "set_notify_time"

/-! ## db/database.go -/

/-- The answers of the store to the calls made while one update or one scheduler run
is handled.  Each field is a method of `db.DB`; `.error` is a non-nil Go error and
`.ok none` is the pair `(nil, nil)`.  `GetUpcomingEvents` reads the clock, passed as
its argument. -/
structure DB where
  CreateUser : Int → String → String → String → Except String Int
  GetUserByTelegramID : Int → Except String (Option User)
  SetUserNotificationTime : Int → String → Except String Unit
  CreateEvent : Event → Except String Int
  GetEventsByUserID : Int → Except String (List Event)
  GetEventByID : Int → Except String (Option Event)
  UpdateEvent : Event → Except String Unit
  DeleteEvent : Int → Except String Unit
  GetUpcomingEvents : Time → Except String (List Event)
  GetUsersForNotification : String → Except String (List User)

/-- The rows of the two tables of the schema of `InitSchema`. -/
structure Tables where
  users : List User
  events : List Event

/-- SQLite `CAST(strftime('%m', event_date) AS INTEGER)` and the same for `'%d'`, for a
text of ten characters.  SQLite reads `YYYY-MM-DD` as four digits, a month in 1..12 and
a day in 1..31, whatever the length of the month, and formats the date it denotes: a
day beyond the end of the month is carried into the next month, so that `2023-02-30`
gives month 3 and day 2 (SQLite 3.46 and later; earlier versions give the month and
the day as written, which is the same for every real date).  Any other text of ten
characters gives NULL.  The longer and shorter forms SQLite also reads (a date
followed by a time of day, a time of day alone, a Julian day number, `now`) are not
modelled and give NULL here: the dates this program writes are results of
`FormatDate`, the ten-character text of a real date. -/
def sqlMonthDay (eventDate : String) : Option (Int × Int) :=
  match eventDate.data with
  | [y1, y2, y3, y4, s1, m1, m2, s2, d1, d2] =>
    match digitVal y1, digitVal y2, digitVal y3, digitVal y4,
          digitVal m1, digitVal m2, digitVal d1, digitVal d2 with
    | some a, some b, some c, some d, some e, some f, some g, some h =>
      let year : Int := ((a * 1000 + b * 100 + c * 10 + d : Nat) : Int)
      let month : Int := ((e * 10 + f : Nat) : Int)
      let day : Int := ((g * 10 + h : Nat) : Int)
      if s1 ≠ '-' ∨ s2 ≠ '-' then none
      else if month < 1 ∨ 12 < month then none
      else if day < 1 ∨ 31 < day then none
      else
        let date := timeDate year month day
        some (date.month, date.day)
    | _, _, _, _, _, _, _, _ => none
  | _ => none

/-- The `WHERE` clause of the query of `GetUpcomingEvents`. -/
def upcomingFilter (e : Event) (currentMonth currentDay : Int) : Bool :=
  match sqlMonthDay e.EventDate with
  | none => false
  | some md =>
    (decide (md.1 = currentMonth) && decide (md.2 - e.NotifyDays = currentDay)) ||
    (decide (md.1 = currentMonth) && decide (md.2 = currentDay))

/-- The result set of the query of `GetUpcomingEvents`: events joined with their
owner (`e.user_id = u.id`) and filtered by the `WHERE` clause. -/
def upcomingRows (t : Tables) (now : Time) : List (Event × User) :=
  t.events.flatMap (fun e =>
    (t.users.filter (fun u => decide (e.UserID = u.ID))).filterMap (fun u =>
      if upcomingFilter e now.month now.day then some (e, u) else none))

namespace Tables

/-- Source: `(*DB).GetUserByTelegramID`, on a store that answers without I/O errors. -/
def GetUserByTelegramID (t : Tables) (telegramID : Int) : Except String (Option User) :=
  .ok (t.users.find? (fun u => decide (u.TelegramID = telegramID)))

/-- Source: `(*DB).GetEventsByUserID` (`ORDER BY event_date`). -/
def GetEventsByUserID (t : Tables) (userID : Int) : Except String (List Event) :=
  .ok ((t.events.filter (fun e => decide (e.UserID = userID))).insertionSort
    (fun a b => ¬ b.EventDate < a.EventDate))

/-- Source: `(*DB).GetEventByID`. -/
def GetEventByID (t : Tables) (eventID : Int) : Except String (Option Event) :=
  .ok (t.events.find? (fun e => decide (e.ID = eventID)))

/-- Source: `(*DB).GetUpcomingEvents`.  The last destination of `rows.Scan` is the
variable `notificationTime` itself, not its address, so `Scan` returns the error
"destination not a pointer" on the first row and the function returns that error;
only an empty result set is returned without error. -/
def GetUpcomingEvents (t : Tables) (now : Time) : Except String (List Event) :=
  match upcomingRows t now with
  | [] => .ok []
  | _ :: _ => .error "ошибка при сканировании данных предстоящего события"

/-- Source: `(*DB).GetUsersForNotification`. -/
def GetUsersForNotification (t : Tables) (notificationTime : String) : Except String (List User) :=
  .ok (t.users.filter (fun u => decide (u.NotificationTime = notificationTime)))

/-- The store answering from the rows `t`; writes are accepted. -/
def toDB (t : Tables) : DB :=
  { CreateUser := fun telegramID _ _ _ =>
      match t.users.find? (fun u => decide (u.TelegramID = telegramID)) with
      | some u => .ok u.ID
      | none => .ok ((t.users.map (fun u => u.ID)).foldl max 0 + 1)
    GetUserByTelegramID := t.GetUserByTelegramID
    SetUserNotificationTime := fun _ _ => .ok ()
    CreateEvent := fun _ => .ok ((t.events.map (fun e => e.ID)).foldl max 0 + 1)
    GetEventsByUserID := t.GetEventsByUserID
    GetEventByID := t.GetEventByID
    UpdateEvent := fun _ => .ok ()
    DeleteEvent := fun _ => .ok ()
    GetUpcomingEvents := t.GetUpcomingEvents
    GetUsersForNotification := t.GetUsersForNotification }

end Tables

/-! ## The scheduler: bot/bot.go and the cron closure of main.go -/

/-- One call `SendNotification(user, event, daysLeft)`. -/
structure Notification where
  user : User
  event : Event
  daysLeft : Int
deriving DecidableEq, Repr

/-- Source: the text built by `(*Bot).SendNotification`. -/
def notificationText (n : Notification) : String :=
  if n.daysLeft = 0 then
    "🎉 Сегодня: " ++ n.event.Title ++ " (" ++ n.event.EventType ++ ")\n" ++ n.event.Description
  else
    "🔔 Через " ++ fmtInt n.daysLeft ++ " дней: " ++ n.event.Title ++ " (" ++ n.event.EventType ++ ")\n" ++
      n.event.Description

/-- Source: body of the inner loop of the cron closure in `main.go` (one event of one
matched user): the calls to `SendNotification` it makes. -/
def tickEvent (now : Time) (user : User) (event : Event) : List Notification :=
  match DaysUntilEvent event.EventDate now with
  | .error _ => []
  | .ok daysLeft =>
    if daysLeft = event.NotifyDays ∨ daysLeft = 0 then
      [{ user := user, event := event, daysLeft := daysLeft }]
    else []

/-- Source: the closure registered with `scheduler.AddFunc("* * * * *", ...)` in
`main.go`, run at the instant `now`: the calls to `SendNotification` it makes, in order. -/
def cronTick (db : DB) (now : Time) : List Notification :=
  let currentTime := now.formatHHMM
  match db.GetUsersForNotification currentTime with
  | .error _ => []
  | .ok users =>
    users.flatMap (fun user =>
      match db.GetEventsByUserID user.ID with
      | .error _ => []
      | .ok events => events.flatMap (fun event => tickEvent now user event))

/-- Source: body of the loop of `(*Bot).CheckAndSendNotifications` (one event). -/
def checkEvent (db : DB) (now : Time) (event : Event) : List Notification :=
  match db.GetUserByTelegramID event.UserID with
  | .error _ => []
  | .ok none => []
  | .ok (some user) =>
    match DaysUntilEvent event.EventDate now with
    | .error _ => []
    | .ok daysLeft =>
      if daysLeft = event.NotifyDays ∨ daysLeft = 0 then
        [{ user := user, event := event, daysLeft := daysLeft }]
      else []

/-- Source: `(*Bot).CheckAndSendNotifications`, run at the instant `now`: the error it
returns, or the calls to `SendNotification` it makes. -/
def CheckAndSendNotifications (db : DB) (now : Time) : Except String (List Notification) :=
  match db.GetUpcomingEvents now with
  | .error e => .error ("ошибка при получении предстоящих событий: " ++ e)
  | .ok events => .ok (events.flatMap (fun event => checkEvent db now event))

/-- A scheduler run: a firing of the cron closure or a call of `CheckAndSendNotifications`. -/
inductive SchedulerRun where
  | tick
  | check
deriving DecidableEq, Repr

/-- The calls to `SendNotification` made by one scheduler run. -/
def runScheduler (db : DB) (now : Time) : SchedulerRun → List Notification
  | .tick => cronTick db now
  | .check =>
    match CheckAndSendNotifications db now with
    | .error _ => []
    | .ok ns => ns

/-- The calls to `SendNotification` made by a sequence of runs, each with its own
instant and store answers. -/
def runSchedulerAll : List (DB × Time × SchedulerRun) → List Notification
  | [] => []
  | (db, now, r) :: rest => runScheduler db now r ++ runSchedulerAll rest

/-! ## bot/bot.go: the conversation state table -/

/-- A call that leaves the process: a request to the Telegram API or a write to the store. -/
inductive Effect where
  | send (chatID : Int) (text : String) (keyboard : List (List (String × String)))
  | answerCallback (callbackID : String)
  | createUser (telegramID : Int) (username firstName lastName : String)
  | setUserNotificationTime (userID : Int) (notificationTime : String)
  | createEvent (event : Event)
  | updateEvent (event : Event)
  | deleteEvent (eventID : Int)
deriving DecidableEq, Repr

/-- Source: `bot.Bot`: the state table `UserStates` (a Go map, here an association
list) and `calls`, the calls made through `b.API` and the writes made through `b.DB`,
oldest first. -/
structure Bot where
  UserStates : List (Int × UserState)
  calls : List Effect
deriving DecidableEq, Repr

/-- Entry of `userID` in the state table. -/
def statesGet : List (Int × UserState) → Int → Option UserState
  | [], _ => none
  | (k, v) :: rest, userID => if k = userID then some v else statesGet rest userID

/-- Store `s` as the entry of `userID` (`b.UserStates[userID] = s`). -/
def statesSet : List (Int × UserState) → Int → UserState → List (Int × UserState)
  | [], userID, s => [(userID, s)]
  | (k, v) :: rest, userID, s =>
    if k = userID then (k, s) :: rest else (k, v) :: statesSet rest userID s

/-- Value of `key` in a scratch map (`m[key]`, `none` for the nil interface). -/
def dataGet : List (String × Value) → String → Option Value
  | [], _ => none
  | (k, v) :: rest, key => if k = key then some v else dataGet rest key

/-- Assignment `m[key] = value` in a scratch map. -/
def dataSet : List (String × Value) → String → Value → List (String × Value)
  | [], key, value => [(key, value)]
  | (k, v) :: rest, key, value =>
    if k = key then (k, value) :: rest else (k, v) :: dataSet rest key value

/-- Type assertion `x.(string)`; `none` is the run-time panic. -/
def asString : Option Value → Option String
  | some (.str s) => some s
  | _ => none

/-- Type assertion `x.(int)`; `none` is the run-time panic. -/
def asInt : Option Value → Option Int
  | some (.int n) => some n
  | _ => none

/-- Type assertion `x.(int64)`; `none` is the run-time panic. -/
def asInt64 : Option Value → Option Int
  | some (.int64 n) => some n
  | _ => none

namespace Bot

/-- The state record a pointer obtained from `GetUserState` refers to, read now. -/
def stateOf (b : Bot) (userID : Int) : UserState :=
  match statesGet b.UserStates userID with
  | some s => s
  | none => ⟨StateDefault, []⟩

/-- Source: `(*Bot).GetUserState`; a missing entry is created. -/
def GetUserState (b : Bot) (userID : Int) : UserState × Bot :=
  match statesGet b.UserStates userID with
  | some s => (s, b)
  | none =>
    (⟨StateDefault, []⟩,
     { b with UserStates := statesSet b.UserStates userID ⟨StateDefault, []⟩ })

/-- Source: `(*Bot).SetUserState`. -/
def SetUserState (b : Bot) (userID : Int) (state : String) : Bot :=
  match statesGet b.UserStates userID with
  | none => { b with UserStates := statesSet b.UserStates userID ⟨state, []⟩ }
  | some s => { b with UserStates := statesSet b.UserStates userID ⟨state, s.CurrentData⟩ }

/-- Source: `(*Bot).ResetUserState`. -/
def ResetUserState (b : Bot) (userID : Int) : Bot :=
  { b with UserStates := statesSet b.UserStates userID ⟨StateDefault, []⟩ }

/-- Source: `(*Bot).SaveUserData`. -/
def SaveUserData (b : Bot) (userID : Int) (key : String) (value : Value) : Bot :=
  match statesGet b.UserStates userID with
  | none =>
    { b with UserStates := statesSet b.UserStates userID ⟨StateDefault, dataSet [] key value⟩ }
  | some s =>
    { b with UserStates := statesSet b.UserStates userID ⟨s.State, dataSet s.CurrentData key value⟩ }

/-- Record one call. -/
def call (b : Bot) (e : Effect) : Bot :=
  { b with calls := b.calls ++ [e] }

/-- Source: `b.API.Send(msg)` for a message built by `tgbotapi.NewMessage` (the result
of `Send` is discarded by every caller). -/
def Send (b : Bot) (chatID : Int) (text : String) (keyboard : List (List (String × String))) : Bot :=
  b.call (.send chatID text keyboard)

/-- Source: `(*Bot).SendMainMenu`. -/
def SendMainMenu (b : Bot) (chatID : Int) : Bot :=
  b.Send chatID "Что вы хотите сделать?"
    [[("Добавить событие", "add_event"), ("Мои события", "list_events")],
     [("Настройки", "settings"), ("Помощь", "help")]]

end Bot

/-! ## handlers/handlers.go -/

/-- Source: `tgbotapi.MessageEntity`. -/
structure MessageEntity where
  EntityType : String
  Offset : Nat
  Length : Nat
deriving DecidableEq, Repr

/-- Source: the fields of `tgbotapi.Message` the handlers read. -/
structure Message where
  MessageID : Int
  FromID : Int
  UserName : String
  FirstName : String
  LastName : String
  ChatID : Int
  Text : String
  Entities : List MessageEntity
deriving DecidableEq, Repr

namespace Message

/-- Source: `(*Message).IsCommand`: the first entity is a bot command at offset 0. -/
def IsCommand (m : Message) : Bool :=
  match m.Entities with
  | [] => false
  | e :: _ => decide (e.Offset = 0) && decide (e.EntityType = "bot_command")

/-- Source: `(*Message).Command`: the text of the command entity without the
slash and without a bot name after `@`. -/
def Command (m : Message) : String :=
  if m.IsCommand then
    match m.Entities with
    | [] => ""
    | e :: _ => String.mk ((((m.Text.data.take e.Length).drop 1)).takeWhile (fun c => c != '@'))
  else ""

end Message

/-- Source: the fields of `tgbotapi.CallbackQuery` the handler reads. -/
structure CallbackQuery where
  ID : String
  FromID : Int
  ChatID : Int
  Data : String
deriving DecidableEq, Repr

/-- Result of handling one update: the handler returned, or a run-time panic occurred
(a nil pointer was dereferenced or a type assertion failed) in the state given. -/
inductive Outcome where
  | done (b : Bot)
  | crash (b : Bot)
deriving DecidableEq, Repr

/-- The state reached, whether or not the handler returned. -/
def Outcome.bot : Outcome → Bot
  | .done b => b
  | .crash b => b

/-- Text of the messages "event added" and "event updated". -/
def eventSummary (header : String) (event : Event) : String :=
  let displayDate := FormatDisplayDate event.EventDate
  let successMsg :=
    header ++ "\n\n" ++
    "🔤 Название: " ++ event.Title ++ "\n" ++
    "🏷 Тип: " ++ event.EventType ++ "\n" ++
    "📅 Дата: " ++ displayDate ++ "\n" ++
    "🔔 Напоминание: за " ++ fmtInt event.NotifyDays ++ " дней\n"
  if event.Description ≠ "" then successMsg ++ "📝 Описание: " ++ event.Description ++ "\n"
  else successMsg

/-- Text of the help message. -/
def helpMsg : String :=
  "🤖 *Справка по командам:*\n\n" ++
  "/start - запустить бота и показать главное меню\n" ++
  "/help - показать справку по командам\n" ++
  "/add - добавить новое событие\n" ++
  "/list - показать список ваших событий\n" ++
  "/settings - настройки уведомлений\n\n" ++
  "Вы также можете использовать кнопки меню для более удобной навигации."

/-- Source: `sendEventsList`. -/
def sendEventsList (db : DB) (now : Time) (b : Bot) (chatID userID : Int) : Outcome :=
  match db.GetUserByTelegramID userID with
  | .error _ => .done (b.Send chatID "❌ Произошла ошибка при получении списка событий." [])
  | .ok none => .crash b
  | .ok (some user) =>
    match db.GetEventsByUserID user.ID with
    | .error _ => .done (b.Send chatID "❌ Произошла ошибка при получении списка событий." [])
    | .ok events =>
      if events.length = 0 then
        .done (b.Send chatID "У вас пока нет добавленных событий. Добавьте первое событие!"
          [[("➕ Добавить событие", "add_event"), ("🏠 Главное меню", "back_to_menu")]])
      else
        let rows := events.map (fun event =>
          let displayDate := FormatDisplayDate event.EventDate
          let daysInfo :=
            match DaysUntilEvent event.EventDate now with
            | .error _ => ""
            | .ok daysLeft =>
              if daysLeft = 0 then " (сегодня!)" else " (через " ++ fmtInt daysLeft ++ " дн.)"
          [(event.Title ++ " - " ++ displayDate ++ daysInfo, "event:" ++ fmtInt event.ID)])
        .done (b.Send chatID "🗓 Ваши события:"
          (rows ++ [[("➕ Добавить событие", "add_event"), ("🏠 Главное меню", "back_to_menu")]]))

/-- Source: `showSettings`. -/
def showSettings (db : DB) (b : Bot) (chatID userID : Int) : Outcome :=
  match db.GetUserByTelegramID userID with
  | .error _ => .done (b.Send chatID "❌ Произошла ошибка при получении настроек." [])
  | .ok none => .crash b
  | .ok (some user) =>
    .done (b.Send chatID
      ("⚙️ *Настройки:*\n\n" ++ "⏰ Время уведомлений: *" ++ user.NotificationTime ++ "*\n\n" ++
        "Выберите настройку, которую хотите изменить:")
      [[("⏰ Изменить время уведомлений", "set_notify_time")], [("🏠 Главное меню", "back_to_menu")]])

/-- Source: the common tail of the `StateEditEventValue` case of `handleMessage`
(from `err = b.DB.UpdateEvent(event)` on) and of the `set_type:` case of
`handleCallbackQuery`, which repeats it: write the event, report, reset. -/
def saveEdited (db : DB) (b : Bot) (userID chatID : Int) (event : Event) : Outcome :=
  let b := b.call (.updateEvent event)
  match db.UpdateEvent event with
  | .error _ =>
    .done ((b.Send chatID "❌ Произошла ошибка при сохранении изменений." []).ResetUserState userID)
  | .ok _ =>
    let b := b.Send chatID (eventSummary "✅ Событие успешно обновлено!" event) []
    let b := b.ResetUserState userID
    .done (b.SendMainMenu chatID)

/-- Source: `handleMessage` from the line `userID := message.From.ID` on, that is,
for a message that is not a command.  Reads through the pointer `userState` made
after `SaveUserData` see the saved value, because the pointer and the table entry
are the same record. -/
def handleText (db : DB) (b : Bot) (message : Message) : Outcome :=
  let userID := message.FromID
  let chatID := message.ChatID
  let userState := (b.GetUserState userID).1
  let b := (b.GetUserState userID).2
  if userState.State = StateAddEventTitle then
    let b := b.SaveUserData userID "title" (.str message.Text)
    let b := b.SetUserState userID StateAddEventType
    .done (b.Send chatID "Выберите тип события:"
      (EventTypes.map (fun eventType => [(eventType, "type:" ++ eventType)])))
  else if userState.State = StateAddEventDate then
    match FormatDate message.Text with
    | .error err =>
      .done (b.Send chatID ("❌ " ++ err ++ ". Пожалуйста, введите дату в формате ДД.ММ.ГГГГ:") [])
    | .ok formattedDate =>
      let b := b.SaveUserData userID "event_date" (.str formattedDate)
      let b := b.SetUserState userID StateAddEventNotify
      .done (b.Send chatID
        "За сколько дней до события отправить напоминание? (введите число от 1 до 30):" [])
  else if userState.State = StateAddEventNotify then
    match Atoi message.Text with
    | .error _ => .done (b.Send chatID "❌ Пожалуйста, введите число от 1 до 30:" [])
    | .ok days =>
      if days < 1 ∨ days > 30 then
        .done (b.Send chatID "❌ Пожалуйста, введите число от 1 до 30:" [])
      else
        let b := b.SaveUserData userID "notify_days" (.int days)
        let b := b.SetUserState userID StateAddEventDesc
        .done (b.Send chatID
          "Введите описание события (или отправьте /skip, чтобы пропустить):" [])
  else if userState.State = StateAddEventDesc then
    let description := if message.Text = "/skip" then "" else message.Text
    let b := b.SaveUserData userID "description" (.str description)
    let userData := (b.stateOf userID).CurrentData
    match db.GetUserByTelegramID userID with
    | .error _ =>
      .done ((b.Send chatID "❌ Произошла ошибка при создании события." []).ResetUserState userID)
    | .ok none => .crash b
    | .ok (some user) =>
      match asString (dataGet userData "title"), asString (dataGet userData "type"),
            asString (dataGet userData "event_date"), asInt (dataGet userData "notify_days") with
      | some title, some eventType, some eventDate, some notifyDays =>
        let event : Event :=
          { ID := 0, UserID := user.ID, Title := title, EventType := eventType,
            EventDate := eventDate, NotifyDays := notifyDays, Description := description }
        let b := b.call (.createEvent event)
        match db.CreateEvent event with
        | .error _ =>
          .done ((b.Send chatID "❌ Произошла ошибка при сохранении события." []).ResetUserState userID)
        | .ok _ =>
          let b := b.Send chatID (eventSummary "✅ Событие успешно добавлено!" event) []
          let b := b.ResetUserState userID
          .done (b.SendMainMenu chatID)
      | _, _, _, _ => .crash b
  else if userState.State = StateSetNotifyTime then
    match ValidateTime message.Text with
    | .error err =>
      .done (b.Send chatID ("❌ " ++ err ++ ". Пожалуйста, введите время в формате ЧЧ:ММ:") [])
    | .ok formattedTime =>
      match db.GetUserByTelegramID userID with
      | .error _ =>
        .done ((b.Send chatID "❌ Произошла ошибка при обновлении настроек." []).ResetUserState userID)
      | .ok none => .crash b
      | .ok (some user) =>
        let b := b.call (.setUserNotificationTime user.ID formattedTime)
        match db.SetUserNotificationTime user.ID formattedTime with
        | .error _ =>
          .done ((b.Send chatID "❌ Произошла ошибка при сохранении настроек." []).ResetUserState userID)
        | .ok _ =>
          let b := b.Send chatID ("✅ Время уведомлений установлено на " ++ formattedTime) []
          let b := b.ResetUserState userID
          .done (b.SendMainMenu chatID)
  else if userState.State = StateEditEventValue then
    match asString (dataGet userState.CurrentData "field"),
          asInt64 (dataGet userState.CurrentData "event_id") with
    | some field, some eventID =>
      match db.GetEventByID eventID with
      | .error _ =>
        .done ((b.Send chatID "❌ Произошла ошибка при редактировании события." []).ResetUserState userID)
      | .ok eventPtr =>
        -- `eventPtr = none` is the nil `*Event`; assigning to a field of it, or passing
        -- it to `UpdateEvent`, which reads its fields, panics
        if field = "title" then
          match eventPtr with
          | none => .crash b
          | some event => saveEdited db b userID chatID { event with Title := message.Text }
        else if field = "date" then
          match FormatDate message.Text with
          | .error err =>
            .done (b.Send chatID ("❌ " ++ err ++ ". Пожалуйста, введите дату в формате ДД.ММ.ГГГГ:") [])
          | .ok formattedDate =>
            match eventPtr with
            | none => .crash b
            | some event => saveEdited db b userID chatID { event with EventDate := formattedDate }
        else if field = "notify_days" then
          match Atoi message.Text with
          | .error _ => .done (b.Send chatID "❌ Пожалуйста, введите число от 1 до 30:" [])
          | .ok days =>
            if days < 1 ∨ days > 30 then
              .done (b.Send chatID "❌ Пожалуйста, введите число от 1 до 30:" [])
            else
              match eventPtr with
              | none => .crash b
              | some event => saveEdited db b userID chatID { event with NotifyDays := days }
        else if field = "description" then
          match eventPtr with
          | none => .crash b
          | some event => saveEdited db b userID chatID { event with Description := message.Text }
        else
          match eventPtr with
          | none => .crash b
          | some event => saveEdited db b userID chatID event
    | _, _ => .crash b
  else
    let b := b.ResetUserState userID
    .done (b.SendMainMenu chatID)

/-- Source: `handleCommand`.  In the case `skip` the source calls `handleMessage` on a
fresh message with empty text and no entities, which is not a command, so the call
continues as `handleText`. -/
def handleCommand (db : DB) (now : Time) (b : Bot) (message : Message) : Outcome :=
  let userID := message.FromID
  let chatID := message.ChatID
  let command := message.Command
  if command = "start" then
    let b := b.call (.createUser userID message.UserName message.FirstName message.LastName)
    let b := b.Send chatID
      ("👋 Привет, " ++ message.FirstName ++ "!\n\n" ++
        "Я бот для напоминания о днях рождения и важных событиях. " ++
        "С моей помощью вы не забудете поздравить друзей и близких с праздниками.\n\n" ++
        "Используйте меню для управления вашими событиями и напоминаниями:") []
    let b := b.ResetUserState userID
    .done (b.SendMainMenu chatID)
  else if command = "help" then
    .done (b.Send chatID helpMsg [])
  else if command = "add" then
    let b := b.SetUserState userID StateAddEventTitle
    .done (b.Send chatID "Введите название события:" [])
  else if command = "list" then
    sendEventsList db now b chatID userID
  else if command = "settings" then
    showSettings db b chatID userID
  else if command = "skip" then
    let userState := (b.GetUserState userID).1
    let b := (b.GetUserState userID).2
    if userState.State = StateAddEventDesc then
      handleText db b
        { MessageID := message.MessageID, FromID := message.FromID, UserName := message.UserName,
          FirstName := message.FirstName, LastName := message.LastName, ChatID := message.ChatID,
          Text := "", Entities := [] }
    else .done b
  else
    .done (b.Send chatID "Неизвестная команда. Используйте /help для списка доступных команд." [])

/-- Source: `handleMessage`. -/
def handleMessage (db : DB) (now : Time) (b : Bot) (message : Message) : Outcome :=
  if message.IsCommand then handleCommand db now b message
  else handleText db b message

/-- Source: `handleCallbackQuery`. -/
def handleCallbackQuery (db : DB) (now : Time) (b : Bot) (callback : CallbackQuery) : Outcome :=
  let userID := callback.FromID
  let chatID := callback.ChatID
  let data := callback.Data
  let userState := (b.GetUserState userID).1
  let b := (b.GetUserState userID).2
  let b := b.call (.answerCallback callback.ID)
  if data = "add_event" then
    let b := b.SetUserState userID StateAddEventTitle
    .done (b.Send chatID "Введите название события:" [])
  else if data = "list_events" then
    sendEventsList db now b chatID userID
  else if data = "settings" then
    showSettings db b chatID userID
  else if data = "help" then
    .done (b.Send chatID helpMsg [])
  else if data = "back_to_menu" then
    let b := b.ResetUserState userID
    .done (b.SendMainMenu chatID)
  else if data = "set_notify_time" then
    let b := b.SetUserState userID StateSetNotifyTime
    .done (b.Send chatID
      "Введите время для получения уведомлений в формате ЧЧ:ММ (например, 09:00):" [])
  else if hasPrefixOf data "type:" then
    if userState.State = StateAddEventType then
      let eventType := trimPrefixOf data "type:"
      let b := b.SaveUserData userID "type" (.str eventType)
      let b := b.SetUserState userID StateAddEventDate
      .done (b.Send chatID "Введите дату события в формате ДД.ММ.ГГГГ:" [])
    else .done b
  else if hasPrefixOf data "event:" then
    match ParseInt64 (trimPrefixOf data "event:") with
    | .error _ => .done b
    | .ok eventID =>
      match db.GetEventByID eventID with
      | .error _ => .done (b.Send chatID "❌ Событие не найдено." [])
      | .ok none => .done (b.Send chatID "❌ Событие не найдено." [])
      | .ok (some event) =>
        let displayDate := FormatDisplayDate event.EventDate
        let eventMsg :=
          "🗓 *" ++ event.Title ++ "*\n\n" ++
          "🏷 Тип: " ++ event.EventType ++ "\n" ++
          "📅 Дата: " ++ displayDate ++ "\n" ++
          "🔔 Напоминание: за " ++ fmtInt event.NotifyDays ++ " дней\n"
        let eventMsg :=
          if event.Description ≠ "" then eventMsg ++ "📝 Описание: " ++ event.Description ++ "\n"
          else eventMsg
        .done (b.Send chatID eventMsg
          [[("✏️ Редактировать", "edit:" ++ fmtInt event.ID), ("❌ Удалить", "delete:" ++ fmtInt event.ID)],
           [("⬅️ Назад к списку", "list_events"), ("🏠 Главное меню", "back_to_menu")]])
  else if hasPrefixOf data "edit:" then
    match ParseInt64 (trimPrefixOf data "edit:") with
    | .error _ => .done b
    | .ok eventID =>
      match db.GetEventByID eventID with
      | .error _ => .done (b.Send chatID "❌ Событие не найдено." [])
      | .ok none => .done (b.Send chatID "❌ Событие не найдено." [])
      | .ok (some _) =>
        let b := b.SaveUserData userID "event_id" (.int64 eventID)
        let b := b.SetUserState userID StateEditEventField
        .done (b.Send chatID "Что вы хотите изменить?"
          [[("🔤 Название", "edit_field:title"), ("🏷 Тип", "edit_field:type")],
           [("📅 Дата", "edit_field:date"), ("🔔 Дни напоминания", "edit_field:notify_days")],
           [("📝 Описание", "edit_field:description"), ("⬅️ Назад", "event:" ++ fmtInt eventID)]])
  else if hasPrefixOf data "edit_field:" then
    let field := trimPrefixOf data "edit_field:"
    let b := b.SaveUserData userID "field" (.str field)
    let b := b.SetUserState userID StateEditEventValue
    if field = "title" then
      .done (b.Send chatID "Введите новое название события:" [])
    else if field = "type" then
      .done (b.Send chatID "Выберите новый тип события:"
        (EventTypes.map (fun eventType => [(eventType, "set_type:" ++ eventType)])))
    else if field = "date" then
      .done (b.Send chatID "Введите новую дату события в формате ДД.ММ.ГГГГ:" [])
    else if field = "notify_days" then
      .done (b.Send chatID
        "За сколько дней до события отправлять напоминание? (введите число от 1 до 30):" [])
    else if field = "description" then
      .done (b.Send chatID "Введите новое описание события:" [])
    else
      .done (b.Send chatID "Выберите поле для редактирования:" [])
  else if hasPrefixOf data "set_type:" then
    if userState.State = StateEditEventValue ∧
        dataGet userState.CurrentData "field" = some (.str "type") then
      let newType := trimPrefixOf data "set_type:"
      match asInt64 (dataGet userState.CurrentData "event_id") with
      | none => .crash b
      | some eventID =>
        match db.GetEventByID eventID with
        | .error _ =>
          .done ((b.Send chatID "❌ Произошла ошибка при редактировании события." []).ResetUserState userID)
        | .ok none => .crash b
        | .ok (some event) => saveEdited db b userID chatID { event with EventType := newType }
    else .done b
  else if hasPrefixOf data "delete:" then
    match ParseInt64 (trimPrefixOf data "delete:") with
    | .error _ => .done b
    | .ok eventID =>
      let b := b.SaveUserData userID "delete_event_id" (.int64 eventID)
      .done (b.Send chatID
        "❓ Вы уверены, что хотите удалить это событие? Это действие нельзя отменить."
        [[("✅ Да, удалить", "confirm_delete:" ++ fmtInt eventID),
          ("❌ Нет, отменить", "event:" ++ fmtInt eventID)]])
  else if hasPrefixOf data "confirm_delete:" then
    match ParseInt64 (trimPrefixOf data "confirm_delete:") with
    | .error _ => .done b
    | .ok eventID =>
      let b := b.call (.deleteEvent eventID)
      match db.DeleteEvent eventID with
      | .error _ => .done (b.Send chatID "❌ Произошла ошибка при удалении события." [])
      | .ok _ =>
        let b := b.Send chatID "✅ Событие успешно удалено!" []
        sendEventsList db now b chatID userID
  else .done b

/-- Source: `tgbotapi.Update` as dispatched by `(*Bot).Start`: a message or a callback query. -/
inductive Update where
  | message (m : Message)
  | callback (q : CallbackQuery)
deriving DecidableEq, Repr

/-- Source: the body of the loop of `(*Bot).Start`, for one update handled to its end
before the next one starts. -/
def handleUpdate (db : DB) (now : Time) (b : Bot) : Update → Outcome
  | .message m => handleMessage db now b m
  | .callback q => handleCallbackQuery db now b q

/-- The updates of `inputs` handled one after another from `b`, each with the store
answers and the clock of its moment; a panic ends the process.  The result lists the
state after each update handled. -/
def runUpdates (b : Bot) : List (DB × Time × Update) → List Outcome
  | [] => []
  | (db, now, u) :: rest =>
    match handleUpdate db now b u with
    | .done b1 => .done b1 :: runUpdates b1 rest
    | .crash b1 => [.crash b1]

/-- Source: `NewBot`: the empty state table (and no call made yet). -/
def NewBot : Bot :=
  { UserStates := [], calls := [] }

/-! ## Inputs of the scenarios -/

/-- A plain text message as Telegram delivers it: no entities. -/
def textMessage (fromID chatID : Int) (text : String) : Message :=
  { MessageID := 0, FromID := fromID, UserName := "", FirstName := "", LastName := "",
    ChatID := chatID, Text := text, Entities := [] }

/-- A message that consists of one bot command, as Telegram delivers it: the text with
one `bot_command` entity covering all of it. -/
def commandMessage (fromID chatID : Int) (text : String) : Message :=
  { MessageID := 0, FromID := fromID, UserName := "", FirstName := "", LastName := "",
    ChatID := chatID, Text := text, Entities := [⟨"bot_command", 0, text.length⟩] }

/-- The call is a `CreateEvent`. -/
def isCreateEvent : Effect → Bool
  | .createEvent _ => true
  | _ => false

/-- The six updates of the add flow: `/add`, the title, the type button, the date, the
lead time, `/skip`; update `i` is handled with the store answers `dbAt i` at `nowAt i`. -/
def addFlowInputs (dbAt : Nat → DB) (nowAt : Nat → Time) (userID chatID : Int)
    (callbackID eventType : String) : List (DB × Time × Update) :=
  [(dbAt 0, nowAt 0, .message (commandMessage userID chatID "/add")),
   (dbAt 1, nowAt 1, .message (textMessage userID chatID "Mom's Birthday")),
   (dbAt 2, nowAt 2, .callback ⟨callbackID, userID, chatID, "type:" ++ eventType⟩),
   (dbAt 3, nowAt 3, .message (textMessage userID chatID "15.03.1970")),
   (dbAt 4, nowAt 4, .message (textMessage userID chatID "3")),
   (dbAt 5, nowAt 5, .message (commandMessage userID chatID "/skip"))]

/-- The event rows one scheduler run iterates over: for a tick, the events of every
user whose notification time is the current `HH:MM`; for `CheckAndSendNotifications`,
the result of `GetUpcomingEvents`. -/
def rowsSeen (db : DB) (now : Time) : SchedulerRun → List Event
  | .tick =>
    match db.GetUsersForNotification now.formatHHMM with
    | .error _ => []
    | .ok users =>
      users.flatMap (fun user =>
        match db.GetEventsByUserID user.ID with
        | .error _ => []
        | .ok events => events)
  | .check =>
    match db.GetUpcomingEvents now with
    | .error _ => []
    | .ok events => events

/-- Number of calls to `SendNotification` for the event `eventID` among `ns`. -/
def callsFor (eventID : Int) (ns : List Notification) : Nat :=
  (ns.filter (fun n => decide (n.event.ID = eventID))).length

/-- Number of rows of the event `eventID` among `es`. -/
def rowsFor (eventID : Int) (es : List Event) : Nat :=
  (es.filter (fun e => decide (e.ID = eventID))).length

/-- One user (id 1, Telegram id 1, notified at 00:00) owning one event (id 10). -/
def oneEventTables (eventDate : String) (notifyDays : Int) : Tables :=
  { users := [⟨1, 1, "u", "U", "", "00:00"⟩],
    events := [⟨10, 1, "title", "День рождения", eventDate, notifyDays, ""⟩] }

/-! ## Date texts of the specification -/

/-- The text `YYYY-MM-DD`: the year in four digits, the month and the day in two. -/
def isoDateText (year month day : Nat) : String :=
  String.mk [Nat.digitChar (year / 1000), Nat.digitChar (year / 100 % 10),
    Nat.digitChar (year / 10 % 10), Nat.digitChar (year % 10), '-',
    Nat.digitChar (month / 10), Nat.digitChar (month % 10), '-',
    Nat.digitChar (day / 10), Nat.digitChar (day % 10)]

/-- The text `DD.MM.YYYY`: the day and the month in two digits, the year in four. -/
def entryDateText (day month year : Nat) : String :=
  String.mk [Nat.digitChar (day / 10), Nat.digitChar (day % 10), '.',
    Nat.digitChar (month / 10), Nat.digitChar (month % 10), '.',
    Nat.digitChar (year / 1000), Nat.digitChar (year / 100 % 10),
    Nat.digitChar (year / 10 % 10), Nat.digitChar (year % 10)]

/-! ## The next occurrence of a month and day, as the specification words it -/

/-- The calendar day after `year, month, day`. -/
def nextDay (c : Int × Int × Int) : Int × Int × Int :=
  if c.2.2 < daysIn c.2.1 c.1 then (c.1, c.2.1, c.2.2 + 1)
  else if c.2.1 < 12 then (c.1, c.2.1 + 1, 1)
  else (c.1 + 1, 1, 1)

/-- The date `c` has the stored month and day. -/
def sameMonthDay (month day : Int) (c : Int × Int × Int) : Bool :=
  decide (c.2.1 = month ∧ c.2.2 = day)

/-- The stored month and day fall on the date `c`: `c` has that month and day, or the
stored date is 29 February and `c` is 1 March of a year that is not a leap year. -/
def occursOn (month day : Int) (c : Int × Int × Int) : Bool :=
  sameMonthDay month day c ||
    decide (month = 2 ∧ day = 29 ∧ isLeap c.1 = false ∧ c.2.1 = 3 ∧ c.2.2 = 1)

/-- Number of calendar days from the date `c` to the first date on or after `c` that
satisfies `p`, looking at `fuel` dates. -/
def daysUntilFirst (p : Int × Int × Int → Bool) : Nat → Int × Int × Int → Option Int
  | 0, _ => none
  | fuel + 1, c =>
    if p c then some 0
    else
      match daysUntilFirst p fuel (nextDay c) with
      | none => none
      | some k => some (k + 1)

/-! ## Clock texts of the specification -/

/-- The text `HH:MM`: the hour and the minute in two digits each. -/
def clockText (hour minute : Nat) : String :=
  String.mk [Nat.digitChar (hour / 10), Nat.digitChar (hour % 10), ':',
    Nat.digitChar (minute / 10), Nat.digitChar (minute % 10)]

/-! ## One update, seen from the record of one user -/

/-- What the handling of one update may do to the state record of one user, the sender
or anyone else: each constructor is one assignment pattern of the handlers (`same`: the
record is left as it is; `reset`: `ResetUserState`; the others: a `SaveUserData` and a
`SetUserState` of one `case`, with the guard under which the source performs them). -/
inductive Trans : UserState → UserState → Prop
  | same (s : UserState) : Trans s s
  | reset (s : UserState) : Trans s ⟨StateDefault, []⟩
  | addStart (s : UserState) : Trans s ⟨StateAddEventTitle, s.CurrentData⟩
  | timeStart (s : UserState) : Trans s ⟨StateSetNotifyTime, s.CurrentData⟩
  | title (s : UserState) (text : String) (h : s.State = StateAddEventTitle) :
    Trans s ⟨StateAddEventType, dataSet s.CurrentData "title" (.str text)⟩
  | type (s : UserState) (eventType : String) (h : s.State = StateAddEventType) :
    Trans s ⟨StateAddEventDate, dataSet s.CurrentData "type" (.str eventType)⟩
  | date (s : UserState) (text formattedDate : String) (h : s.State = StateAddEventDate)
    (hd : FormatDate text = .ok formattedDate) :
    Trans s ⟨StateAddEventNotify, dataSet s.CurrentData "event_date" (.str formattedDate)⟩
  | notify (s : UserState) (days : Int) (h : s.State = StateAddEventNotify)
    (h1 : 1 ≤ days) (h2 : days ≤ 30) :
    Trans s ⟨StateAddEventDesc, dataSet s.CurrentData "notify_days" (.int days)⟩
  | desc (s : UserState) (description : String) (h : s.State = StateAddEventDesc) :
    Trans s ⟨s.State, dataSet s.CurrentData "description" (.str description)⟩
  | edit (s : UserState) (eventID : Int) :
    Trans s ⟨StateEditEventField, dataSet s.CurrentData "event_id" (.int64 eventID)⟩
  | field (s : UserState) (field : String) :
    Trans s ⟨StateEditEventValue, dataSet s.CurrentData "field" (.str field)⟩
  | delete (s : UserState) (eventID : Int) :
    Trans s ⟨s.State, dataSet s.CurrentData "delete_event_id" (.int64 eventID)⟩

/-! ## Stores of the scenarios -/

/-- A store in which every call fails with an error. -/
def failingStore : DB :=
  { CreateUser := fun _ _ _ _ => .error "store error"
    GetUserByTelegramID := fun _ => .error "store error"
    SetUserNotificationTime := fun _ _ => .error "store error"
    CreateEvent := fun _ => .error "store error"
    GetEventsByUserID := fun _ => .error "store error"
    GetEventByID := fun _ => .error "store error"
    UpdateEvent := fun _ => .error "store error"
    DeleteEvent := fun _ => .error "store error"
    GetUpcomingEvents := fun _ => .error "store error"
    GetUsersForNotification := fun _ => .error "store error" }

/-- The store answering reads from the rows `t` and failing every write. -/
def readOnlyStore (t : Tables) : DB :=
  { CreateUser := fun _ _ _ _ => .error "store error"
    GetUserByTelegramID := t.GetUserByTelegramID
    SetUserNotificationTime := fun _ _ => .error "store error"
    CreateEvent := fun _ => .error "store error"
    GetEventsByUserID := t.GetEventsByUserID
    GetEventByID := t.GetEventByID
    UpdateEvent := fun _ => .error "store error"
    DeleteEvent := fun _ => .error "store error"
    GetUpcomingEvents := t.GetUpcomingEvents
    GetUsersForNotification := t.GetUsersForNotification }

/-! ## Events that keep the invariant of the data model -/

/-- The text is `YYYY-MM-DD` for a real calendar date: a year below 10000 in four
digits, a month in 1..12 and a day within the length of that month in that year, in
two digits each. -/
def RealDate (s : String) : Prop :=
  ∃ year : Nat, year < 10000 ∧ ∃ month : Nat, month < 13 ∧ ∃ day : Nat, day < 32 ∧
    (1 ≤ month ∧ 1 ≤ day ∧ (day : Int) ≤ daysIn month year ∧ s = isoDateText year month day)

instance (s : String) : Decidable (RealDate s) := by
  unfold RealDate
  infer_instance

/-- The invariant of the data model on an event: a lead time in 1..30 and an event date
that is a real calendar date in the form `YYYY-MM-DD`. -/
def GoodEvent (e : Event) : Prop :=
  1 ≤ e.NotifyDays ∧ e.NotifyDays ≤ 30 ∧ RealDate e.EventDate

instance (e : Event) : Decidable (GoodEvent e) := by
  unfold GoodEvent
  infer_instance

/-- The call, when it is a `CreateEvent` or an `UpdateEvent`, passes an event that keeps
the invariant. -/
def GoodCall : Effect → Prop
  | .createEvent event => GoodEvent event
  | .updateEvent event => GoodEvent event
  | _ => True

/-- The scratch data can only yield a real calendar date as `event_date` and a lead
time in 1..30 as `notify_days`. -/
def GoodScratch (d : List (String × Value)) : Prop :=
  (∀ s, asString (dataGet d "event_date") = some s → RealDate s) ∧
  (∀ n, asInt (dataGet d "notify_days") = some n → 1 ≤ n ∧ n ≤ 30)

/-- Every call made so far passes an event that keeps the invariant. -/
def GoodCalls (b : Bot) : Prop :=
  ∀ e ∈ b.calls, GoodCall e

/-! ## The scratch data the add flow has collected -/

/-- The type assertion `data[key].(string)` succeeds. -/
def holdsString (d : List (String × Value)) (key : String) : Bool :=
  (asString (dataGet d key)).isSome

/-- The type assertion `data[key].(int)` succeeds. -/
def holdsInt (d : List (String × Value)) (key : String) : Bool :=
  (asInt (dataGet d key)).isSome

/-- What the scratch data of a user holds at each state of the add flow: the title in
`StateAddEventType`, also the type in `StateAddEventDate`, also the event date in
`StateAddEventNotify`, and all four entries of the new event in `StateAddEventDesc`. -/
def AddFlowTyped (s : UserState) : Prop :=
  (s.State = StateAddEventType → holdsString s.CurrentData "title" = true) ∧
  (s.State = StateAddEventDate →
    holdsString s.CurrentData "title" = true ∧ holdsString s.CurrentData "type" = true) ∧
  (s.State = StateAddEventNotify →
    holdsString s.CurrentData "title" = true ∧ holdsString s.CurrentData "type" = true ∧
    holdsString s.CurrentData "event_date" = true) ∧
  (s.State = StateAddEventDesc →
    holdsString s.CurrentData "title" = true ∧ holdsString s.CurrentData "type" = true ∧
    holdsString s.CurrentData "event_date" = true ∧ holdsInt s.CurrentData "notify_days" = true)

/-! # Theorems -/

/-! ## The state table -/

theorem statesGet_self (u : Int) (s : UserState) (rest : List (Int × UserState)) :
    statesGet ((u, s) :: rest) u = some s := by
  simp [statesGet]

theorem statesSet_self (u : Int) (s s1 : UserState) (rest : List (Int × UserState)) :
    statesSet ((u, s) :: rest) u s1 = (u, s1) :: rest := by
  simp [statesSet]

/-! ## C1: the add flow, end to end -/

theorem addFlow_step1 (db : DB) (now : Time) (u c : Int) :
    handleUpdate db now NewBot (.message (commandMessage u c "/add")) =
      .done ⟨[(u, ⟨StateAddEventTitle, []⟩)], [.send c "Введите название события:" []]⟩ := by
  rfl

theorem addFlow_step2 (db : DB) (now : Time) (u c : Int) (calls : List Effect) :
    handleUpdate db now ⟨[(u, ⟨StateAddEventTitle, []⟩)], calls⟩
        (.message (textMessage u c "Mom's Birthday")) =
      .done ⟨[(u, ⟨StateAddEventType, [("title", .str "Mom's Birthday")]⟩)],
        calls ++ [.send c "Выберите тип события:"
          (EventTypes.map (fun eventType => [(eventType, "type:" ++ eventType)]))]⟩ := by
  simp only [handleUpdate, handleMessage, handleText, textMessage, Message.IsCommand,
    Bool.false_eq_true, if_false, Bot.GetUserState, Bot.SaveUserData, Bot.SetUserState,
    statesGet_self, statesSet_self, Bot.Send, Bot.call]
  rfl

theorem addFlow_step3 (db : DB) (now : Time) (u c : Int) (calls : List Effect) (id : String)
    (eventType : String) (hty : eventType ∈ EventTypes) :
    handleUpdate db now ⟨[(u, ⟨StateAddEventType, [("title", .str "Mom's Birthday")]⟩)], calls⟩
        (.callback ⟨id, u, c, "type:" ++ eventType⟩) =
      .done ⟨[(u, ⟨StateAddEventDate,
          [("title", .str "Mom's Birthday"), ("type", .str eventType)]⟩)],
        calls ++ [.answerCallback id] ++ [.send c "Введите дату события в формате ДД.ММ.ГГГГ:" []]⟩ := by
  simp only [handleUpdate, handleCallbackQuery, Bot.GetUserState, Bot.SaveUserData,
    Bot.SetUserState, statesGet_self, statesSet_self, Bot.Send, Bot.call]
  simp only [EventTypes, List.mem_cons, List.mem_singleton, List.not_mem_nil, or_false] at hty
  rcases hty with h | h | h | h | h <;> subst h <;> rfl

theorem addFlow_step4 (db : DB) (now : Time) (u c : Int) (calls : List Effect)
    (eventType : String) :
    handleUpdate db now
        ⟨[(u, ⟨StateAddEventDate, [("title", .str "Mom's Birthday"), ("type", .str eventType)]⟩)], calls⟩
        (.message (textMessage u c "15.03.1970")) =
      .done ⟨[(u, ⟨StateAddEventNotify,
          [("title", .str "Mom's Birthday"), ("type", .str eventType),
           ("event_date", .str "1970-03-15")]⟩)],
        calls ++ [.send c
          "За сколько дней до события отправить напоминание? (введите число от 1 до 30):" []]⟩ := by
  simp only [handleUpdate, handleMessage, handleText, textMessage, Message.IsCommand,
    Bool.false_eq_true, if_false, Bot.GetUserState, Bot.SaveUserData, Bot.SetUserState,
    statesGet_self, statesSet_self, Bot.Send, Bot.call]
  rfl

theorem addFlow_step5 (db : DB) (now : Time) (u c : Int) (calls : List Effect)
    (eventType : String) :
    handleUpdate db now
        ⟨[(u, ⟨StateAddEventNotify,
          [("title", .str "Mom's Birthday"), ("type", .str eventType),
           ("event_date", .str "1970-03-15")]⟩)], calls⟩
        (.message (textMessage u c "3")) =
      .done ⟨[(u, ⟨StateAddEventDesc,
          [("title", .str "Mom's Birthday"), ("type", .str eventType),
           ("event_date", .str "1970-03-15"), ("notify_days", .int 3)]⟩)],
        calls ++ [.send c "Введите описание события (или отправьте /skip, чтобы пропустить):" []]⟩ := by
  simp only [handleUpdate, handleMessage, handleText, textMessage, Message.IsCommand,
    Bool.false_eq_true, if_false, Bot.GetUserState, Bot.SaveUserData, Bot.SetUserState,
    statesGet_self, statesSet_self, Bot.Send, Bot.call]
  rfl

/-- The event the add flow of the scenario builds for the store user `user`. -/
theorem addFlow_step6 (db : DB) (now : Time) (u c : Int) (calls : List Effect)
    (eventType : String) (user : User)
    (hknown : db.GetUserByTelegramID u = .ok (some user)) :
    ∃ tail : List Effect,
      handleUpdate db now
        ⟨[(u, ⟨StateAddEventDesc,
          [("title", .str "Mom's Birthday"), ("type", .str eventType),
           ("event_date", .str "1970-03-15"), ("notify_days", .int 3)]⟩)], calls⟩
        (.message (commandMessage u c "/skip")) =
      .done ⟨[(u, ⟨StateDefault, []⟩)],
        calls ++ [.createEvent
          { ID := 0, UserID := user.ID, Title := "Mom's Birthday", EventType := eventType,
            EventDate := "1970-03-15", NotifyDays := 3, Description := "" }] ++ tail⟩ ∧
      tail.filter isCreateEvent = [] := by
  have hcmd : (commandMessage u c "/skip").Command = "skip" := rfl
  have hisc : (commandMessage u c "/skip").IsCommand = true := rfl
  rcases hc : db.CreateEvent
      { ID := 0, UserID := user.ID, Title := "Mom's Birthday", EventType := eventType,
        EventDate := "1970-03-15", NotifyDays := 3, Description := "" } with e | id
  · refine ⟨[.send c "❌ Произошла ошибка при сохранении события." []], ?_, rfl⟩
    simp only [handleUpdate, handleMessage, hisc, if_true, handleCommand, hcmd]
    simp only [commandMessage, handleText, Bot.GetUserState, Bot.SaveUserData, Bot.SetUserState,
      Bot.ResetUserState, Bot.stateOf, statesGet_self, statesSet_self, Bot.Send, Bot.call,
      Bot.SendMainMenu, hknown]
    simp +decide only [StateAddEventDesc, StateAddEventTitle, StateAddEventDate,
      StateAddEventNotify, StateDefault, if_true, if_false, dataSet, dataGet, asString, asInt, hc]
  · refine ⟨[.send c (eventSummary "✅ Событие успешно добавлено!"
        { ID := 0, UserID := user.ID, Title := "Mom's Birthday", EventType := eventType,
          EventDate := "1970-03-15", NotifyDays := 3, Description := "" }) [],
      .send c "Что вы хотите сделать?"
        [[("Добавить событие", "add_event"), ("Мои события", "list_events")],
         [("Настройки", "settings"), ("Помощь", "help")]]], ?_, rfl⟩
    simp only [handleUpdate, handleMessage, hisc, if_true, handleCommand, hcmd]
    simp only [commandMessage, handleText, Bot.GetUserState, Bot.SaveUserData, Bot.SetUserState,
      Bot.ResetUserState, Bot.stateOf, statesGet_self, statesSet_self, Bot.Send, Bot.call,
      Bot.SendMainMenu, hknown]
    simp +decide only [StateAddEventDesc, StateAddEventTitle, StateAddEventDate,
      StateAddEventNotify, StateDefault, if_true, if_false, dataSet, dataGet, asString, asInt, hc,
      List.append_assoc, List.cons_append, List.nil_append]

/-- C1. From the empty state table, for a user the store knows, the updates `/add`,
"Mom's Birthday", a type button, "15.03.1970", "3", `/skip` are all handled without a
panic; the state tag of the user after each of them is AddTitle, AddType, AddDate,
AddNotify, AddDesc and Default; the scratch data hold event_date "1970-03-15" after
the date step; the calls made contain exactly one CreateEvent, for the event with the
entered title, the selected type, EventDate "1970-03-15", NotifyDays 3 and an empty
description; the scratch data are empty at the end. -/
theorem add_flow_end_to_end (dbAt : Nat → DB) (nowAt : Nat → Time) (userID chatID : Int)
    (callbackID eventType : String) (user : User)
    (hty : eventType ∈ EventTypes)
    (hknown : (dbAt 5).GetUserByTelegramID userID = .ok (some user)) :
    ∃ b1 b2 b3 b4 b5 b6 : Bot,
      runUpdates NewBot (addFlowInputs dbAt nowAt userID chatID callbackID eventType) =
        [.done b1, .done b2, .done b3, .done b4, .done b5, .done b6] ∧
      (b1.stateOf userID).State = StateAddEventTitle ∧
      (b2.stateOf userID).State = StateAddEventType ∧
      (b3.stateOf userID).State = StateAddEventDate ∧
      (b4.stateOf userID).State = StateAddEventNotify ∧
      (b5.stateOf userID).State = StateAddEventDesc ∧
      (b6.stateOf userID).State = StateDefault ∧
      dataGet (b4.stateOf userID).CurrentData "event_date" = some (.str "1970-03-15") ∧
      b6.calls.filter isCreateEvent =
        [.createEvent
          { ID := 0, UserID := user.ID, Title := "Mom's Birthday", EventType := eventType,
            EventDate := "1970-03-15", NotifyDays := 3, Description := "" }] ∧
      (b6.stateOf userID).CurrentData = [] := by
  obtain ⟨tail, h6, htail⟩ := addFlow_step6 (dbAt 5) (nowAt 5) userID chatID
    ([.send chatID "Введите название события:" []] ++
      [.send chatID "Выберите тип события:"
        (EventTypes.map (fun eventType => [(eventType, "type:" ++ eventType)]))] ++
      [.answerCallback callbackID] ++
      [.send chatID "Введите дату события в формате ДД.ММ.ГГГГ:" []] ++
      [.send chatID
        "За сколько дней до события отправить напоминание? (введите число от 1 до 30):" []] ++
      [.send chatID "Введите описание события (или отправьте /skip, чтобы пропустить):" []])
    eventType user hknown
  have hrun : runUpdates NewBot (addFlowInputs dbAt nowAt userID chatID callbackID eventType) =
      runUpdates NewBot (addFlowInputs dbAt nowAt userID chatID callbackID eventType) := rfl
  conv at hrun =>
    rhs
    simp only [addFlowInputs, runUpdates, addFlow_step1, addFlow_step2,
      addFlow_step3 _ _ _ _ _ _ _ hty, addFlow_step4, addFlow_step5, h6]
  refine ⟨_, _, _, _, _, _, hrun, ?_, ?_, ?_, ?_, ?_, ?_, ?_, ?_, ?_⟩
  all_goals simp [Bot.stateOf, statesGet, dataGet, isCreateEvent, htail, List.filter]

/-- C1 at a concrete store: user 1 with Telegram id 77 picks the type "День рождения". -/
theorem add_flow_end_to_end_witness :
    ("День рождения" ∈ EventTypes ∧
      (Tables.mk [⟨1, 77, "mom", "A", "B", "09:00"⟩] []).toDB.GetUserByTelegramID 77 =
        .ok (some ⟨1, 77, "mom", "A", "B", "09:00"⟩)) ∧
    ∃ b1 b2 b3 b4 b5 b6 : Bot,
      runUpdates NewBot (addFlowInputs
          (fun _ => (Tables.mk [⟨1, 77, "mom", "A", "B", "09:00"⟩] []).toDB)
          (fun _ => ⟨2024, 3, 10, 9, 0, 0, 0⟩) 77 77 "cb" "День рождения") =
        [.done b1, .done b2, .done b3, .done b4, .done b5, .done b6] ∧
      (b1.stateOf 77).State = StateAddEventTitle ∧
      (b2.stateOf 77).State = StateAddEventType ∧
      (b3.stateOf 77).State = StateAddEventDate ∧
      (b4.stateOf 77).State = StateAddEventNotify ∧
      (b5.stateOf 77).State = StateAddEventDesc ∧
      (b6.stateOf 77).State = StateDefault ∧
      dataGet (b4.stateOf 77).CurrentData "event_date" = some (.str "1970-03-15") ∧
      b6.calls.filter isCreateEvent =
        [.createEvent
          { ID := 0, UserID := 1, Title := "Mom's Birthday", EventType := "День рождения",
            EventDate := "1970-03-15", NotifyDays := 3, Description := "" }] ∧
      (b6.stateOf 77).CurrentData = [] :=
  ⟨⟨by decide, by decide⟩,
    add_flow_end_to_end (fun _ => (Tables.mk [⟨1, 77, "mom", "A", "B", "09:00"⟩] []).toDB)
      (fun _ => ⟨2024, 3, 10, 9, 0, 0, 0⟩) 77 77 "cb" "День рождения"
      ⟨1, 77, "mom", "A", "B", "09:00"⟩ (by decide) (by decide)⟩

/-! ## C4: the due test of the two trigger paths -/

/-- C4. For an event whose days-left value was computed (in `CheckAndSendNotifications`
that is after the owner was found), each path calls `SendNotification` once, with that
value, if `daysLeft = 0` or `daysLeft = event.NotifyDays`, and not at all otherwise;
the two tests agree; with `NotifyDays = 5` the event is due at 5 and at 0 and not due
at 4 or 6; at `daysLeft = 0` it is due for every `NotifyDays`. -/
theorem due_test_both_paths (db : DB) (now : Time) (user owner : User) (event : Event)
    (daysLeft : Int)
    (hdays : DaysUntilEvent event.EventDate now = .ok daysLeft)
    (howner : db.GetUserByTelegramID event.UserID = .ok (some owner)) :
    tickEvent now user event =
        (if daysLeft = 0 ∨ daysLeft = event.NotifyDays then [⟨user, event, daysLeft⟩] else []) ∧
    checkEvent db now event =
        (if daysLeft = 0 ∨ daysLeft = event.NotifyDays then [⟨owner, event, daysLeft⟩] else []) ∧
    (tickEvent now user event ≠ [] ↔ (daysLeft = 0 ∨ daysLeft = event.NotifyDays)) ∧
    (checkEvent db now event ≠ [] ↔ (daysLeft = 0 ∨ daysLeft = event.NotifyDays)) ∧
    (tickEvent now user event ≠ [] ↔ checkEvent db now event ≠ []) ∧
    (event.NotifyDays = 5 → (daysLeft = 5 ∨ daysLeft = 0) →
      tickEvent now user event ≠ [] ∧ checkEvent db now event ≠ []) ∧
    (event.NotifyDays = 5 → (daysLeft = 4 ∨ daysLeft = 6) →
      tickEvent now user event = [] ∧ checkEvent db now event = []) ∧
    (daysLeft = 0 → tickEvent now user event ≠ [] ∧ checkEvent db now event ≠ []) := by
  have ht : tickEvent now user event =
      (if daysLeft = 0 ∨ daysLeft = event.NotifyDays then [⟨user, event, daysLeft⟩] else []) := by
    simp only [tickEvent, hdays]
    by_cases h : daysLeft = event.NotifyDays ∨ daysLeft = 0
    · rw [if_pos h, if_pos h.symm]
    · rw [if_neg h, if_neg (fun h2 => h h2.symm)]
  have hc : checkEvent db now event =
      (if daysLeft = 0 ∨ daysLeft = event.NotifyDays then [⟨owner, event, daysLeft⟩] else []) := by
    simp only [checkEvent, howner, hdays]
    by_cases h : daysLeft = event.NotifyDays ∨ daysLeft = 0
    · rw [if_pos h, if_pos h.symm]
    · rw [if_neg h, if_neg (fun h2 => h h2.symm)]
  refine ⟨ht, hc, ?_, ?_, ?_, ?_, ?_, ?_⟩
  · rw [ht]; by_cases h : daysLeft = 0 ∨ daysLeft = event.NotifyDays <;> simp [h]
  · rw [hc]; by_cases h : daysLeft = 0 ∨ daysLeft = event.NotifyDays <;> simp [h]
  · rw [ht, hc]; by_cases h : daysLeft = 0 ∨ daysLeft = event.NotifyDays <;> simp [h]
  · intro h5 hd
    have h : daysLeft = 0 ∨ daysLeft = event.NotifyDays := by omega
    rw [ht, hc]; simp [h]
  · intro h5 hd
    have h : ¬ (daysLeft = 0 ∨ daysLeft = event.NotifyDays) := by omega
    rw [ht, hc]; simp [h]
  · intro h0
    rw [ht, hc]; simp [h0]

/-- C4 at a concrete input: the event of 15 March with a lead time of 5 days, at
00:00 on 10 March 2024, where the days-left value is 5. -/
theorem due_test_both_paths_witness :
    (DaysUntilEvent "1970-03-15" ⟨2024, 3, 10, 0, 0, 0, 0⟩ = .ok 5 ∧
      (oneEventTables "1970-03-15" 5).toDB.GetUserByTelegramID 1 =
        .ok (some ⟨1, 1, "u", "U", "", "00:00"⟩)) ∧
    tickEvent ⟨2024, 3, 10, 0, 0, 0, 0⟩ ⟨1, 1, "u", "U", "", "00:00"⟩
        ⟨10, 1, "title", "День рождения", "1970-03-15", 5, ""⟩ ≠ [] ∧
    checkEvent (oneEventTables "1970-03-15" 5).toDB ⟨2024, 3, 10, 0, 0, 0, 0⟩
        ⟨10, 1, "title", "День рождения", "1970-03-15", 5, ""⟩ ≠ [] :=
  ⟨⟨by decide, by decide⟩,
    (due_test_both_paths (oneEventTables "1970-03-15" 5).toDB ⟨2024, 3, 10, 0, 0, 0, 0⟩
      ⟨1, 1, "u", "U", "", "00:00"⟩ ⟨1, 1, "u", "U", "", "00:00"⟩
      ⟨10, 1, "title", "День рождения", "1970-03-15", 5, ""⟩ 5 (by decide) (by decide)).2.2.2.2.2.1
      rfl (Or.inl rfl)⟩

/-! ## C5: calls to SendNotification per event and day -/

theorem callsFor_append (eventID : Int) (a b : List Notification) :
    callsFor eventID (a ++ b) = callsFor eventID a + callsFor eventID b := by
  simp [callsFor, List.filter_append]

theorem rowsFor_append (eventID : Int) (a b : List Event) :
    rowsFor eventID (a ++ b) = rowsFor eventID a + rowsFor eventID b := by
  simp [rowsFor, List.filter_append]

theorem rowsFor_cons (eventID : Int) (e : Event) (es : List Event) :
    rowsFor eventID (e :: es) = rowsFor eventID [e] + rowsFor eventID es :=
  rowsFor_append eventID [e] es

theorem callsFor_tickEvent_le (eventID : Int) (now : Time) (user : User) (event : Event) :
    callsFor eventID (tickEvent now user event) ≤ rowsFor eventID [event] := by
  unfold tickEvent
  cases DaysUntilEvent event.EventDate now with
  | error e => simp [callsFor]
  | ok daysLeft =>
    by_cases h : daysLeft = event.NotifyDays ∨ daysLeft = 0
    · simp only [if_pos h]
      by_cases hid : event.ID = eventID <;> simp [callsFor, rowsFor, List.filter, hid]
    · simp only [if_neg h]
      simp [callsFor]

theorem callsFor_checkEvent_le (eventID : Int) (db : DB) (now : Time) (event : Event) :
    callsFor eventID (checkEvent db now event) ≤ rowsFor eventID [event] := by
  unfold checkEvent
  cases db.GetUserByTelegramID event.UserID with
  | error e => simp [callsFor]
  | ok ou =>
    cases ou with
    | none => simp [callsFor]
    | some owner =>
      cases DaysUntilEvent event.EventDate now with
      | error e => simp [callsFor]
      | ok daysLeft =>
        by_cases h : daysLeft = event.NotifyDays ∨ daysLeft = 0
        · simp only [if_pos h]
          by_cases hid : event.ID = eventID <;> simp [callsFor, rowsFor, List.filter, hid]
        · simp only [if_neg h]
          simp [callsFor]

theorem callsFor_events_le (eventID : Int) (f : Event → List Notification)
    (hf : ∀ e, callsFor eventID (f e) ≤ rowsFor eventID [e]) (events : List Event) :
    callsFor eventID (events.flatMap f) ≤ rowsFor eventID events := by
  induction events with
  | nil => simp [callsFor, rowsFor]
  | cons e rest ih =>
    rw [List.flatMap_cons, callsFor_append, rowsFor_cons]
    exact Nat.add_le_add (hf e) ih

/-- One scheduler run calls `SendNotification` for an event at most as often as the
store lists the event in that run. -/
theorem callsFor_run_le_rows (eventID : Int) (db : DB) (now : Time) (r : SchedulerRun) :
    callsFor eventID (runScheduler db now r) ≤ rowsFor eventID (rowsSeen db now r) := by
  cases r with
  | tick =>
    simp only [runScheduler, cronTick, rowsSeen]
    cases db.GetUsersForNotification now.formatHHMM with
    | error e => simp [callsFor]
    | ok users =>
      simp only []
      induction users with
      | nil => simp [callsFor, rowsFor]
      | cons u rest ih =>
        rw [List.flatMap_cons, List.flatMap_cons, callsFor_append, rowsFor_append]
        refine Nat.add_le_add ?_ ih
        cases db.GetEventsByUserID u.ID with
        | error e => simp [callsFor]
        | ok events =>
          exact callsFor_events_le eventID _ (fun e => callsFor_tickEvent_le eventID now u e) events
  | check =>
    simp only [runScheduler, CheckAndSendNotifications, rowsSeen]
    cases db.GetUpcomingEvents now with
    | error e => simp [callsFor]
    | ok events =>
      exact callsFor_events_le eventID _ (fun e => callsFor_checkEvent_le eventID db now e) events

/-- C5 as stated fails: two firings of the cron closure in the same minute of
10 March 2024, 00:00, each call `SendNotification` for event 10, so the event is
notified twice on that day. -/
theorem same_day_duplicate_send :
    ¬ callsFor 10 (runSchedulerAll
        [((oneEventTables "1970-03-15" 5).toDB, ⟨2024, 3, 10, 0, 0, 0, 0⟩, .tick),
         ((oneEventTables "1970-03-15" 5).toDB, ⟨2024, 3, 10, 0, 0, 0, 0⟩, .tick)]) ≤ 1 := by
  decide

/-- C5, amended. Over any sequence of scheduler runs (ticks and runs of
`CheckAndSendNotifications`), if the store lists the event at most once in each run,
then `SendNotification` is called for that event at most once per run, hence at most
as many times as there are runs; nothing is remembered from one run to the next. -/
theorem calls_at_most_once_per_run (eventID : Int) (runs : List (DB × Time × SchedulerRun))
    (hrows : ∀ r ∈ runs, rowsFor eventID (rowsSeen r.1 r.2.1 r.2.2) ≤ 1) :
    callsFor eventID (runSchedulerAll runs) ≤ runs.length ∧
    ∀ r ∈ runs, callsFor eventID (runScheduler r.1 r.2.1 r.2.2) ≤ 1 := by
  constructor
  · induction runs with
    | nil => simp [runSchedulerAll, callsFor]
    | cons r rest ih =>
      obtain ⟨db, now, k⟩ := r
      rw [runSchedulerAll, callsFor_append, List.length_cons]
      have h1 : callsFor eventID (runScheduler db now k) ≤ 1 :=
        Nat.le_trans (callsFor_run_le_rows eventID db now k)
          (hrows (db, now, k) (List.mem_cons_self _ _))
      have h2 := ih (fun r hr => hrows r (List.mem_cons_of_mem _ hr))
      omega
  · intro r hr
    exact Nat.le_trans (callsFor_run_le_rows eventID r.1 r.2.1 r.2.2) (hrows r hr)

/-- C5 amended, at two firings of the cron closure in the same minute: at most two calls. -/
theorem calls_at_most_once_per_run_witness :
    (∀ r ∈ [((oneEventTables "1970-03-15" 5).toDB, (⟨2024, 3, 10, 0, 0, 0, 0⟩ : Time), SchedulerRun.tick),
            ((oneEventTables "1970-03-15" 5).toDB, ⟨2024, 3, 10, 0, 0, 0, 0⟩, .tick)],
        rowsFor 10 (rowsSeen r.1 r.2.1 r.2.2) ≤ 1) ∧
    callsFor 10 (runSchedulerAll
        [((oneEventTables "1970-03-15" 5).toDB, ⟨2024, 3, 10, 0, 0, 0, 0⟩, .tick),
         ((oneEventTables "1970-03-15" 5).toDB, ⟨2024, 3, 10, 0, 0, 0, 0⟩, .tick)]) ≤ 2 :=
  ⟨by
      intro r hr
      simp only [List.mem_cons, List.mem_singleton, List.not_mem_nil, or_false, or_self] at hr
      subst hr
      decide,
    (calls_at_most_once_per_run 10
      [((oneEventTables "1970-03-15" 5).toDB, ⟨2024, 3, 10, 0, 0, 0, 0⟩, .tick),
       ((oneEventTables "1970-03-15" 5).toDB, ⟨2024, 3, 10, 0, 0, 0, 0⟩, .tick)]
      (by
        intro r hr
        simp only [List.mem_cons, List.mem_singleton, List.not_mem_nil, or_false, or_self] at hr
        subst hr
        decide)).1⟩

/-! ## C6: the two trigger paths on the same event -/

/-- C6 fails on the code. The event of 3 March 2024 with a lead time of 5 days, owned
by a user notified at 00:00, at 00:00 on 27 February 2024: the cron closure computes
5 days left and calls `SendNotification`; the query of `GetUpcomingEvents` compares
the month of the event (3) with the current month (2), returns no row, and
`CheckAndSendNotifications` sends nothing. -/
theorem paths_disagree_across_months :
    cronTick (oneEventTables "2024-03-03" 5).toDB ⟨2024, 2, 27, 0, 0, 0, 0⟩ =
      [⟨⟨1, 1, "u", "U", "", "00:00"⟩,
        ⟨10, 1, "title", "День рождения", "2024-03-03", 5, ""⟩, 5⟩] ∧
    upcomingRows (oneEventTables "2024-03-03" 5) ⟨2024, 2, 27, 0, 0, 0, 0⟩ = [] ∧
    CheckAndSendNotifications (oneEventTables "2024-03-03" 5).toDB ⟨2024, 2, 27, 0, 0, 0, 0⟩ =
      .ok [] := by
  decide

/-- The month and the day the query reads from a stored text: those of a real date as
written, those of the normalised date for a day beyond the end of the month, NULL for a
month or a day out of range. -/
theorem sqlMonthDay_values :
    sqlMonthDay "2024-03-03" = some (3, 3) ∧ sqlMonthDay "2024-02-29" = some (2, 29) ∧
    sqlMonthDay "2023-02-30" = some (3, 2) ∧ sqlMonthDay "2023-02-31" = some (3, 3) ∧
    sqlMonthDay "2023-04-31" = some (5, 1) ∧ sqlMonthDay "2023-13-01" = none ∧
    sqlMonthDay "2023-01-32" = none ∧ sqlMonthDay "2023-01-00" = none ∧
    sqlMonthDay "2023-1-05" = none := by
  decide

/-! ## Digits and padding -/

theorem digitVal_digitChar : ∀ k : Nat, k < 10 → digitVal (Nat.digitChar k) = some k := by
  decide

theorem digitChar_ne_sep : ∀ k : Nat, k < 10 →
    (Nat.digitChar k ≠ '.' ∧ Nat.digitChar k ≠ '-' ∧ Nat.digitChar k ≠ '+') := by
  decide

set_option maxRecDepth 100000 in
theorem fmtPad2_eq : ∀ k : Nat, k < 100 →
    fmtPadInt 2 (k : Int) = String.mk [Nat.digitChar (k / 10), Nat.digitChar (k % 10)] := by
  decide

set_option maxRecDepth 100000 in
theorem fmtPad4_eq : ∀ k : Nat, k < 201 →
    fmtPadInt 4 ((k + 1900 : Nat) : Int) =
      String.mk [Nat.digitChar ((k + 1900) / 1000), Nat.digitChar ((k + 1900) / 100 % 10),
        Nat.digitChar ((k + 1900) / 10 % 10), Nat.digitChar ((k + 1900) % 10)] := by
  decide

theorem fmtPad2_int (n : Int) (h0 : 0 ≤ n) (h1 : n < 100) :
    fmtPadInt 2 n = String.mk [Nat.digitChar (n.toNat / 10), Nat.digitChar (n.toNat % 10)] := by
  have h := fmtPad2_eq n.toNat (by omega)
  rwa [Int.toNat_of_nonneg h0] at h

theorem fmtPad4_int (n : Int) (h0 : 1900 ≤ n) (h1 : n ≤ 2100) :
    fmtPadInt 4 n =
      String.mk [Nat.digitChar (n.toNat / 1000), Nat.digitChar (n.toNat / 100 % 10),
        Nat.digitChar (n.toNat / 10 % 10), Nat.digitChar (n.toNat % 10)] := by
  have h := fmtPad4_eq (n.toNat - 1900) (by omega)
  have e : n.toNat - 1900 + 1900 = n.toNat := by omega
  rw [e, Int.toNat_of_nonneg (by omega)] at h
  exact h

/-- The stored text built by `FormatDate` is the text `YYYY-MM-DD`. -/
theorem storedText_eq (y m d : Int) (hy0 : 1900 ≤ y) (hy1 : y ≤ 2100) (hm0 : 0 ≤ m)
    (hm1 : m < 100) (hd0 : 0 ≤ d) (hd1 : d < 100) :
    fmtPadInt 4 y ++ "-" ++ fmtPadInt 2 m ++ "-" ++ fmtPadInt 2 d =
      isoDateText y.toNat m.toNat d.toNat := by
  rw [fmtPad4_int y hy0 hy1, fmtPad2_int m hm0 hm1, fmtPad2_int d hd0 hd1]
  rfl

/-! ## Normalisation of dates -/

theorem daysIn_ge (m y : Int) : 28 ≤ daysIn m y := by
  unfold daysIn
  split_ifs <;> omega

theorem daysIn_le (m y : Int) : daysIn m y ≤ 31 := by
  unfold daysIn
  split_ifs <;> omega

theorem normalizeDay_of_le (fuel : Nat) (y m d : Int) (h : d ≤ daysIn m y) :
    normalizeDay fuel y m d = (y, m, d) := by
  cases fuel with
  | zero => rfl
  | succ n => simp [normalizeDay, not_lt.mpr h]

theorem normalizeDay_day_le (fuel : Nat) (y m d : Int) :
    (normalizeDay fuel y m d).2.2 ≤ d := by
  induction fuel generalizing y m d with
  | zero => simp [normalizeDay]
  | succ n ih =>
    unfold normalizeDay
    have hge := daysIn_ge m y
    split_ifs with h1 h2
    · have := ih (y + 1) 1 (d - daysIn m y)
      omega
    · have := ih y (m + 1) (d - daysIn m y)
      omega
    · simp

/-- The date built by `time.Date` has the components it was given exactly when the day
exists in the month. -/
theorem timeDate_same_iff (y m d : Int) (hd : 1 ≤ d) :
    ((timeDate y m d).day = d ∧ (timeDate y m d).month = m ∧ (timeDate y m d).year = y) ↔
      d ≤ daysIn m y := by
  constructor
  · intro h
    by_contra hlt
    have hlt2 : daysIn m y < d := by omega
    obtain ⟨n, hn⟩ : ∃ n, d.toNat = n + 1 := ⟨d.toNat - 1, by omega⟩
    have hday : (timeDate y m d).day < d := by
      have hge := daysIn_ge m y
      simp only [timeDate, hn, normalizeDay, if_pos hlt2]
      split_ifs
      · have := normalizeDay_day_le n (y + 1) 1 (d - daysIn m y)
        omega
      · have := normalizeDay_day_le n y (m + 1) (d - daysIn m y)
        omega
    omega
  · intro h
    simp [timeDate, normalizeDay_of_le _ y m d h]

/-! ## C9, C10, C8: FormatDate -/

/-- What `FormatDate` returns, by the checks in their order. -/
theorem FormatDate_of_parts (s p0 p1 p2 : String) (hs : stringsSplit s '.' = [p0, p1, p2]) :
    FormatDate s =
      match Atoi p0 with
      | .error _ => .error "неверный день"
      | .ok day =>
        if day < 1 ∨ day > 31 then .error "неверный день"
        else
          match Atoi p1 with
          | .error _ => .error "неверный месяц"
          | .ok month =>
            if month < 1 ∨ month > 12 then .error "неверный месяц"
            else
              match Atoi p2 with
              | .error _ => .error "неверный год"
              | .ok year =>
                if year < 1900 ∨ year > 2100 then .error "неверный год"
                else if daysIn month year < day then .error "несуществующая дата"
                else .ok (isoDateText year.toNat month.toNat day.toNat) := by
  unfold FormatDate
  rw [hs]
  simp only []
  cases h0 : Atoi p0 with
  | error e => rfl
  | ok day =>
    simp only []
    by_cases hd : day < 1 ∨ day > 31
    · simp only [if_pos hd]
    · simp only [if_neg hd]
      cases h1 : Atoi p1 with
      | error e => rfl
      | ok month =>
        simp only []
        by_cases hm : month < 1 ∨ month > 12
        · simp only [if_pos hm]
        · simp only [if_neg hm]
          cases h2 : Atoi p2 with
          | error e => rfl
          | ok year =>
            simp only []
            by_cases hy : year < 1900 ∨ year > 2100
            · simp only [if_pos hy]
            · simp only [if_neg hy]
              have hiff := timeDate_same_iff year month day (by omega)
              by_cases hex : daysIn month year < day
              · have hne : (timeDate year month day).day ≠ day ∨
                    (timeDate year month day).month ≠ month ∨
                    (timeDate year month day).year ≠ year := by
                  by_contra hcon
                  push_neg at hcon
                  have := hiff.mp hcon
                  omega
                simp only [if_pos hne, if_pos hex]
              · have hsame := hiff.mpr (by omega)
                have hne : ¬ ((timeDate year month day).day ≠ day ∨
                    (timeDate year month day).month ≠ month ∨
                    (timeDate year month day).year ≠ year) := by
                  push_neg
                  exact hsame
                simp only [if_neg hne, if_neg hex]
                rw [storedText_eq year month day (by omega) (by omega) (by omega) (by omega)
                  (by omega) (by omega)]

theorem FormatDate_of_not_three (s : String) (hs : (stringsSplit s '.').length ≠ 3) :
    FormatDate s = .error "неверный формат даты, используйте ДД.ММ.ГГГГ" := by
  unfold FormatDate
  rcases h : stringsSplit s '.' with _ | ⟨p0, _ | ⟨p1, _ | ⟨p2, _ | ⟨p3, rest⟩⟩⟩⟩
  · rfl
  · rfl
  · rfl
  · rw [h] at hs
    exact absurd rfl hs
  · rfl

/-- C9. `FormatDate` succeeds with result `r` exactly when the input splits on '.' into
three parts that `Atoi` reads as integers `d`, `m`, `y` with `d` in 1..31, `m` in
1..12, `y` in 1900..2100 and `d` at most the length of month `m` in year `y`; the
result is then the 10-character text `YYYY-MM-DD` of `y`, `m`, `d`, the year in four
digits and the month and the day in two. -/
theorem FormatDate_ok_iff (s r : String) :
    FormatDate s = .ok r ↔
      ∃ p0 p1 p2 : String, ∃ d m y : Int,
        stringsSplit s '.' = [p0, p1, p2] ∧
        Atoi p0 = .ok d ∧ Atoi p1 = .ok m ∧ Atoi p2 = .ok y ∧
        1 ≤ d ∧ d ≤ 31 ∧ 1 ≤ m ∧ m ≤ 12 ∧ 1900 ≤ y ∧ y ≤ 2100 ∧ d ≤ daysIn m y ∧
        r = isoDateText y.toNat m.toNat d.toNat ∧ r.length = 10 := by
  constructor
  · intro h
    by_cases h3 : (stringsSplit s '.').length = 3
    · rcases hs : stringsSplit s '.' with _ | ⟨p0, _ | ⟨p1, _ | ⟨p2, _ | ⟨p3, rest⟩⟩⟩⟩
      · rw [hs] at h3; simp at h3
      · rw [hs] at h3; simp at h3
      · rw [hs] at h3; simp at h3
      · rw [FormatDate_of_parts s p0 p1 p2 hs] at h
        cases h0 : Atoi p0 with
        | error e => rw [h0] at h; simp at h
        | ok d =>
          rw [h0] at h
          simp only [] at h
          by_cases hd : d < 1 ∨ d > 31
          · rw [if_pos hd] at h; simp at h
          · rw [if_neg hd] at h
            cases h1 : Atoi p1 with
            | error e => rw [h1] at h; simp at h
            | ok m =>
              rw [h1] at h
              simp only [] at h
              by_cases hm : m < 1 ∨ m > 12
              · rw [if_pos hm] at h; simp at h
              · rw [if_neg hm] at h
                cases h2 : Atoi p2 with
                | error e => rw [h2] at h; simp at h
                | ok y =>
                  rw [h2] at h
                  simp only [] at h
                  by_cases hy : y < 1900 ∨ y > 2100
                  · rw [if_pos hy] at h; simp at h
                  · rw [if_neg hy] at h
                    by_cases hex : daysIn m y < d
                    · rw [if_pos hex] at h; simp at h
                    · rw [if_neg hex] at h
                      have hr : r = isoDateText y.toNat m.toNat d.toNat := by
                        injection h with h
                        exact h.symm
                      refine ⟨p0, p1, p2, d, m, y, rfl, h0, h1, h2, by omega, by omega,
                        by omega, by omega, by omega, by omega, by omega, hr, ?_⟩
                      rw [hr]
                      rfl
      · rw [hs] at h3; simp at h3
    · rw [FormatDate_of_not_three s h3] at h
      simp at h
  · rintro ⟨p0, p1, p2, d, m, y, hs, h0, h1, h2, hd0, hd1, hm0, hm1, hy0, hy1, hex, hr, _⟩
    rw [FormatDate_of_parts s p0 p1 p2 hs, h0, h1, h2]
    simp only []
    rw [if_neg (by omega), if_neg (by omega), if_neg (by omega), if_neg (by omega), hr]

/-- C10. `FormatDate` reports the first failing check, in the order format, day, month,
year, existence: an input that does not split into three parts fails with the format
error; with three parts, a day that is not an integer in 1..31 gives the day error;
with a day in range, a month that is not an integer in 1..12 gives the month error (as
for "31.13.2024"); with day and month in range, a year that is not an integer in
1900..2100 gives the year error; with all three in range, a day beyond the length of
the month gives the nonexistent-date error (as for "31.02.2024"). -/
theorem FormatDate_first_failing_check (s : String) :
    ((stringsSplit s '.').length ≠ 3 →
      FormatDate s = .error "неверный формат даты, используйте ДД.ММ.ГГГГ") ∧
    (∀ p0 p1 p2 : String, stringsSplit s '.' = [p0, p1, p2] →
      ((∀ d, Atoi p0 = .ok d → d < 1 ∨ 31 < d) → FormatDate s = .error "неверный день") ∧
      (∀ d, Atoi p0 = .ok d → 1 ≤ d → d ≤ 31 →
        ((∀ m, Atoi p1 = .ok m → m < 1 ∨ 12 < m) → FormatDate s = .error "неверный месяц") ∧
        (∀ m, Atoi p1 = .ok m → 1 ≤ m → m ≤ 12 →
          ((∀ y, Atoi p2 = .ok y → y < 1900 ∨ 2100 < y) →
            FormatDate s = .error "неверный год") ∧
          (∀ y, Atoi p2 = .ok y → 1900 ≤ y → y ≤ 2100 → daysIn m y < d →
            FormatDate s = .error "несуществующая дата")))) ∧
    FormatDate "31.13.2024" = .error "неверный месяц" ∧
    FormatDate "31.02.2024" = .error "несуществующая дата" := by
  refine ⟨FormatDate_of_not_three s, ?_, by decide, by decide⟩
  intro p0 p1 p2 hs
  rw [FormatDate_of_parts s p0 p1 p2 hs]
  constructor
  · intro hbad
    cases h0 : Atoi p0 with
    | error e => rfl
    | ok d =>
      simp only []
      rw [if_pos (by have := hbad d h0; omega)]
  · intro d h0 hd0 hd1
    rw [h0]
    simp only []
    rw [if_neg (by omega)]
    constructor
    · intro hbad
      cases h1 : Atoi p1 with
      | error e => rfl
      | ok m =>
        simp only []
        rw [if_pos (by have := hbad m h1; omega)]
    · intro m h1 hm0 hm1
      rw [h1]
      simp only []
      rw [if_neg (by omega)]
      constructor
      · intro hbad
        cases h2 : Atoi p2 with
        | error e => rfl
        | ok y =>
          simp only []
          rw [if_pos (by have := hbad y h2; omega)]
      · intro y h2 hy0 hy1 hex
        rw [h2]
        simp only []
        rw [if_neg (by omega), if_pos hex]

/-- C10 at "31.13.2024": three parts, day 31 in range, month 13 out of range. -/
theorem FormatDate_first_failing_check_witness :
    (stringsSplit "31.13.2024" '.' = ["31", "13", "2024"] ∧ Atoi "31" = .ok 31 ∧
      ∀ m, Atoi "13" = .ok m → m < 1 ∨ 12 < m) ∧
    FormatDate "31.13.2024" = .error "неверный месяц" :=
  ⟨⟨by decide, by decide, by
      intro m hm
      have h13 : Atoi "13" = .ok 13 := by decide
      rw [h13] at hm
      injection hm with hm
      omega⟩,
    (((FormatDate_first_failing_check "31.13.2024").2.1 "31" "13" "2024" (by decide)).2 31
      (by decide) (by decide) (by decide)).1 (by
        intro m hm
        have h13 : Atoi "13" = .ok 13 := by decide
        rw [h13] at hm
        injection hm with hm
        omega)⟩

set_option maxRecDepth 100000 in
theorem Atoi_two_digits : ∀ k : Nat, k < 100 →
    Atoi (String.mk [Nat.digitChar (k / 10), Nat.digitChar (k % 10)]) = .ok (k : Int) := by
  decide

set_option maxRecDepth 100000 in
theorem Atoi_four_digits : ∀ k : Nat, k < 201 →
    Atoi (String.mk [Nat.digitChar ((k + 1900) / 1000), Nat.digitChar ((k + 1900) / 100 % 10),
      Nat.digitChar ((k + 1900) / 10 % 10), Nat.digitChar ((k + 1900) % 10)]) =
      .ok ((k + 1900 : Nat) : Int) := by
  decide

theorem Atoi_year_digits (y : Nat) (h0 : 1900 ≤ y) (h1 : y ≤ 2100) :
    Atoi (String.mk [Nat.digitChar (y / 1000), Nat.digitChar (y / 100 % 10),
      Nat.digitChar (y / 10 % 10), Nat.digitChar (y % 10)]) = .ok (y : Int) := by
  have h := Atoi_four_digits (y - 1900) (by omega)
  have e : y - 1900 + 1900 = y := by omega
  rw [e] at h
  exact h

theorem split_entryDateText (d m y : Nat) (hd : d < 100) (hm : m < 100) (hy : y < 10000) :
    stringsSplit (entryDateText d m y) '.' =
      [String.mk [Nat.digitChar (d / 10), Nat.digitChar (d % 10)],
       String.mk [Nat.digitChar (m / 10), Nat.digitChar (m % 10)],
       String.mk [Nat.digitChar (y / 1000), Nat.digitChar (y / 100 % 10),
         Nat.digitChar (y / 10 % 10), Nat.digitChar (y % 10)]] := by
  have a1 := (digitChar_ne_sep (d / 10) (by omega)).1
  have a2 := (digitChar_ne_sep (d % 10) (by omega)).1
  have a3 := (digitChar_ne_sep (m / 10) (by omega)).1
  have a4 := (digitChar_ne_sep (m % 10) (by omega)).1
  have a5 := (digitChar_ne_sep (y / 1000) (by omega)).1
  have a6 := (digitChar_ne_sep (y / 100 % 10) (by omega)).1
  have a7 := (digitChar_ne_sep (y / 10 % 10) (by omega)).1
  have a8 := (digitChar_ne_sep (y % 10) (by omega)).1
  simp [stringsSplit, entryDateText, splitOnChar, a1, a2, a3, a4, a5, a6, a7, a8]

theorem timeParseDate_isoDateText (y m d : Nat) (hy : y < 10000) (hm0 : 1 ≤ m) (hm1 : m ≤ 12)
    (hd0 : 1 ≤ d) (hd1 : (d : Int) ≤ daysIn m y) :
    timeParseDate (isoDateText y m d) =
      .ok { year := y, month := m, day := d, hour := 0, min := 0, sec := 0, nsec := 0 } := by
  have hd31 := daysIn_le (m : Int) (y : Int)
  have e1 : y / 1000 * 1000 + y / 100 % 10 * 100 + y / 10 % 10 * 10 + y % 10 = y := by omega
  have e2 : m / 10 * 10 + m % 10 = m := by omega
  have e3 : d / 10 * 10 + d % 10 = d := by omega
  simp only [timeParseDate, isoDateText,
    digitVal_digitChar (y / 1000) (by omega), digitVal_digitChar (y / 100 % 10) (by omega),
    digitVal_digitChar (y / 10 % 10) (by omega), digitVal_digitChar (y % 10) (by omega),
    digitVal_digitChar (m / 10) (by omega), digitVal_digitChar (m % 10) (by omega),
    digitVal_digitChar (d / 10) (by omega), digitVal_digitChar (d % 10) (by omega), e1, e2, e3]
  rw [if_neg (by simp), if_neg (by omega), if_neg (by omega)]

/-- C8. For a day in 1..31, a month in 1..12 and a year in 1900..2100 that form a real
calendar date, `FormatDate` applied to the text `DD.MM.YYYY` of the triple succeeds,
with the text `YYYY-MM-DD`, and `FormatDisplayDate` applied to that result returns the
original text. -/
theorem FormatDate_display_roundtrip (d m y : Nat) (hd0 : 1 ≤ d) (hd1 : d ≤ 31)
    (hm0 : 1 ≤ m) (hm1 : m ≤ 12) (hy0 : 1900 ≤ y) (hy1 : y ≤ 2100)
    (hreal : (d : Int) ≤ daysIn m y) :
    ∃ r, FormatDate (entryDateText d m y) = .ok r ∧ r = isoDateText y m d ∧
      FormatDisplayDate r = entryDateText d m y := by
  refine ⟨isoDateText y m d, ?_, rfl, ?_⟩
  · rw [FormatDate_of_parts _ _ _ _ (split_entryDateText d m y (by omega) (by omega) (by omega)),
      Atoi_two_digits d (by omega), Atoi_two_digits m (by omega), Atoi_year_digits y hy0 hy1]
    simp only []
    rw [if_neg (by omega), if_neg (by omega), if_neg (by omega), if_neg (by omega)]
    simp
  · unfold FormatDisplayDate
    rw [if_neg (by simp [isoDateText, String.ext_iff]),
      timeParseDate_isoDateText y m d (by omega) hm0 hm1 hd0 hreal]
    simp only [Time.formatDisplay]
    rw [fmtPad2_eq d (by omega), fmtPad2_eq m (by omega)]
    have h4 := fmtPad4_eq (y - 1900) (by omega)
    have e : y - 1900 + 1900 = y := by omega
    rw [e] at h4
    rw [h4]
    rfl

/-- C8 at 29 February 2024, the texts "29.02.2024" and "2024-02-29". -/
theorem FormatDate_display_roundtrip_witness :
    (1 ≤ 29 ∧ 29 ≤ 31 ∧ 1 ≤ 2 ∧ 2 ≤ 12 ∧ 1900 ≤ 2024 ∧ 2024 ≤ 2100 ∧
      ((29 : Nat) : Int) ≤ daysIn (2 : Nat) (2024 : Nat)) ∧
    (entryDateText 29 2 2024 = "29.02.2024" ∧ isoDateText 2024 2 29 = "2024-02-29") ∧
    ∃ r, FormatDate (entryDateText 29 2 2024) = .ok r ∧ r = isoDateText 2024 2 29 ∧
      FormatDisplayDate r = entryDateText 29 2 2024 :=
  ⟨by decide, by decide,
    FormatDate_display_roundtrip 29 2 2024 (by decide) (by decide) (by decide) (by decide)
      (by decide) (by decide) (by decide)⟩

/-! ## float64: rounding stays below an integer bound -/

theorem log2Fuel_lt (fuel n k : Nat) (hk : 1 ≤ k) (hn : n < 2 ^ k) : log2Fuel fuel n < k := by
  induction fuel generalizing n k with
  | zero => simp [log2Fuel]; omega
  | succ f ih =>
    unfold log2Fuel
    split_ifs with h2
    · obtain ⟨j, rfl⟩ : ∃ j, k = j + 1 := ⟨k - 1, by omega⟩
      have hj : 1 ≤ j := by
        by_contra hc
        have : j = 0 := by omega
        subst this
        simp at hn
        omega
      have hn2 : n / 2 < 2 ^ j := by
        rw [pow_succ] at hn
        omega
      have := ih (n / 2) j hj hn2
      omega
    · omega

theorem fracLog2_le (n d Y : Nat) (h : n ≤ Y * d) (hY : Y < 2 ^ 53) :
    fracLog2 n d ≤ 52 := by
  unfold fracLog2
  split_ifs with hdn
  · have hq : n / d ≤ Y := Nat.div_le_of_le_mul (by rw [Nat.mul_comm]; exact h)
    have hlt : n / d < 2 ^ 53 := lt_of_le_of_lt hq hY
    have := log2Fuel_lt (n / d) (n / d) 53 (by omega) hlt
    unfold natLog2
    omega
  · omega

theorem roundHalfEven_le (n d Z : Nat) (hd : 0 < d) (h : n ≤ Z * d) : roundHalfEven n d ≤ Z := by
  have hq : n / d ≤ Z := Nat.div_le_of_le_mul (by rw [Nat.mul_comm]; exact h)
  have hdm := Nat.div_add_mod n d
  have hup : 0 < n % d → n / d + 1 ≤ Z := by
    intro hr
    by_contra hc
    have hz : Z = n / d := by omega
    rw [hz] at h
    have : d * (n / d) = n / d * d := Nat.mul_comm _ _
    omega
  unfold roundHalfEven
  simp only []
  split_ifs with h1 h2 h3
  · exact hq
  · exact hup (by omega)
  · exact hq
  · exact hup (by omega)

/-- Rounding to float64 does not pass an integer bound below `2^53`. -/
theorem roundF64_le (n d Y : Nat) (hd : 0 < d) (h : n ≤ Y * d) (hY : Y < 2 ^ 53) :
    (roundF64 n d).1 ≤ Y * (roundF64 n d).2 ∧ 0 < (roundF64 n d).2 := by
  unfold roundF64
  by_cases h0 : n = 0 ∨ d = 0
  · simp [h0]
  · have hle := fracLog2_le n d Y h hY
    simp only [h0, if_false, hle, if_true]
    refine ⟨?_, by positivity⟩
    apply roundHalfEven_le _ _ _ hd
    calc n * 2 ^ (52 - fracLog2 n d).toNat ≤ Y * d * 2 ^ (52 - fracLog2 n d).toNat :=
          Nat.mul_le_mul_right _ h
      _ = Y * 2 ^ (52 - fracLog2 n d).toNat * d := by ring

theorem F64_ofInt_hour : F64.ofInt 3600000000000 = ⟨false, 3600000000000 * 2 ^ 11, 2 ^ 11⟩ := by
  decide

theorem F64_ofInt_24 : F64.ofInt 24 = ⟨false, 24 * 2 ^ 48, 2 ^ 48⟩ := by
  decide

theorem F64_ofInt_natCast (k : Nat) :
    F64.ofInt (k : Int) = ⟨false, (roundF64 k 1).1, (roundF64 k 1).2⟩ := by
  simp [F64.ofInt]

/-- The whole-day count of a duration of less than 366 days is between 0 and 366. -/
theorem wholeDays_bounds (D : Nat) (hD : D < 366 * 86400000000000) :
    0 ≤ wholeDays (D : Int) ∧ wholeDays (D : Int) ≤ 366 := by
  have hdiv : Int.tdiv (D : Int) 3600000000000 = ((D / 3600000000000 : Nat) : Int) := by
    rw [Int.tdiv_eq_ediv (by omega) (by omega)]
    norm_cast
  have hmod : Int.tmod (D : Int) 3600000000000 = ((D % 3600000000000 : Nat) : Int) := by
    rw [Int.tmod_eq_emod (by omega) (by omega)]
    norm_cast
  have hh : D / 3600000000000 ≤ 8783 := by omega
  have hn : D % 3600000000000 < 3600000000000 := Nat.mod_lt _ (by omega)
  have hval : wholeDays (D : Int) = ((
      (roundF64
        ((roundF64
          ((roundF64 (D / 3600000000000) 1).1 *
              (roundF64 ((roundF64 (D % 3600000000000) 1).1 * 2 ^ 11)
                ((roundF64 (D % 3600000000000) 1).2 * (3600000000000 * 2 ^ 11))).2 +
            (roundF64 ((roundF64 (D % 3600000000000) 1).1 * 2 ^ 11)
                ((roundF64 (D % 3600000000000) 1).2 * (3600000000000 * 2 ^ 11))).1 *
              (roundF64 (D / 3600000000000) 1).2)
          ((roundF64 (D / 3600000000000) 1).2 *
            (roundF64 ((roundF64 (D % 3600000000000) 1).1 * 2 ^ 11)
              ((roundF64 (D % 3600000000000) 1).2 * (3600000000000 * 2 ^ 11))).2)).1 * 2 ^ 48)
        ((roundF64
          ((roundF64 (D / 3600000000000) 1).1 *
              (roundF64 ((roundF64 (D % 3600000000000) 1).1 * 2 ^ 11)
                ((roundF64 (D % 3600000000000) 1).2 * (3600000000000 * 2 ^ 11))).2 +
            (roundF64 ((roundF64 (D % 3600000000000) 1).1 * 2 ^ 11)
                ((roundF64 (D % 3600000000000) 1).2 * (3600000000000 * 2 ^ 11))).1 *
              (roundF64 (D / 3600000000000) 1).2)
          ((roundF64 (D / 3600000000000) 1).2 *
            (roundF64 ((roundF64 (D % 3600000000000) 1).1 * 2 ^ 11)
              ((roundF64 (D % 3600000000000) 1).2 * (3600000000000 * 2 ^ 11))).2)).2 *
          (24 * 2 ^ 48))).1 /
      (roundF64
        ((roundF64
          ((roundF64 (D / 3600000000000) 1).1 *
              (roundF64 ((roundF64 (D % 3600000000000) 1).1 * 2 ^ 11)
                ((roundF64 (D % 3600000000000) 1).2 * (3600000000000 * 2 ^ 11))).2 +
            (roundF64 ((roundF64 (D % 3600000000000) 1).1 * 2 ^ 11)
                ((roundF64 (D % 3600000000000) 1).2 * (3600000000000 * 2 ^ 11))).1 *
              (roundF64 (D / 3600000000000) 1).2)
          ((roundF64 (D / 3600000000000) 1).2 *
            (roundF64 ((roundF64 (D % 3600000000000) 1).1 * 2 ^ 11)
              ((roundF64 (D % 3600000000000) 1).2 * (3600000000000 * 2 ^ 11))).2)).1 * 2 ^ 48)
        ((roundF64
          ((roundF64 (D / 3600000000000) 1).1 *
              (roundF64 ((roundF64 (D % 3600000000000) 1).1 * 2 ^ 11)
                ((roundF64 (D % 3600000000000) 1).2 * (3600000000000 * 2 ^ 11))).2 +
            (roundF64 ((roundF64 (D % 3600000000000) 1).1 * 2 ^ 11)
                ((roundF64 (D % 3600000000000) 1).2 * (3600000000000 * 2 ^ 11))).1 *
              (roundF64 (D / 3600000000000) 1).2)
          ((roundF64 (D / 3600000000000) 1).2 *
            (roundF64 ((roundF64 (D % 3600000000000) 1).1 * 2 ^ 11)
              ((roundF64 (D % 3600000000000) 1).2 * (3600000000000 * 2 ^ 11))).2)).2 *
          (24 * 2 ^ 48))).2 : Nat) : Int) := by
    simp only [wholeDays, durationHours, hdiv, hmod, F64_ofInt_hour, F64_ofInt_24,
      F64_ofInt_natCast, F64.div, F64.add, F64.toInt, Bool.xor_false, if_true,
      Bool.false_eq_true, if_false]
  obtain ⟨a, ha⟩ := roundF64_le (D / 3600000000000) 1 (D / 3600000000000) (by omega) (by omega)
    (by omega)
  obtain ⟨b, hb⟩ := roundF64_le (D % 3600000000000) 1 (D % 3600000000000) (by omega) (by omega)
    (by omega)
  generalize (roundF64 (D / 3600000000000) 1).1 = a1 at a hval
  generalize (roundF64 (D / 3600000000000) 1).2 = a2 at a ha hval
  generalize (roundF64 (D % 3600000000000) 1).1 = b1 at b hval
  generalize (roundF64 (D % 3600000000000) 1).2 = b2 at b hb hval
  have hb3 : b1 ≤ 3600000000000 * b2 :=
    Nat.le_trans b (Nat.mul_le_mul_right _ (Nat.le_of_lt hn))
  obtain ⟨hq, hq0⟩ := roundF64_le (b1 * 2 ^ 11) (b2 * (3600000000000 * 2 ^ 11)) 1
    (Nat.mul_pos hb (by norm_num))
    (by
      calc b1 * 2 ^ 11 ≤ 3600000000000 * b2 * 2 ^ 11 := Nat.mul_le_mul_right _ hb3
        _ = 1 * (b2 * (3600000000000 * 2 ^ 11)) := by ring)
    (by norm_num)
  generalize (roundF64 (b1 * 2 ^ 11) (b2 * (3600000000000 * 2 ^ 11))).1 = q1 at hq hval
  generalize (roundF64 (b1 * 2 ^ 11) (b2 * (3600000000000 * 2 ^ 11))).2 = q2 at hq hq0 hval
  obtain ⟨hs, hs0⟩ := roundF64_le (a1 * q2 + q1 * a2) (a2 * q2) 8784 (Nat.mul_pos ha hq0)
    (by
      have e1 : a1 * q2 ≤ 8783 * a2 * q2 :=
        Nat.mul_le_mul_right _ (Nat.le_trans a (Nat.mul_le_mul_right _ hh))
      have e2 : q1 * a2 ≤ 1 * q2 * a2 := Nat.mul_le_mul_right _ hq
      calc a1 * q2 + q1 * a2 ≤ 8783 * a2 * q2 + 1 * q2 * a2 := Nat.add_le_add e1 e2
        _ = 8784 * (a2 * q2) := by ring)
    (by norm_num)
  generalize (roundF64 (a1 * q2 + q1 * a2) (a2 * q2)).1 = s1 at hs hval
  generalize (roundF64 (a1 * q2 + q1 * a2) (a2 * q2)).2 = s2 at hs hs0 hval
  obtain ⟨hr, hr0⟩ := roundF64_le (s1 * 2 ^ 48) (s2 * (24 * 2 ^ 48)) 366
    (Nat.mul_pos hs0 (by norm_num))
    (by
      calc s1 * 2 ^ 48 ≤ 8784 * s2 * 2 ^ 48 := Nat.mul_le_mul_right _ hs
        _ = 366 * (s2 * (24 * 2 ^ 48)) := by ring)
    (by norm_num)
  rw [hval]
  constructor
  · exact Int.natCast_nonneg _
  · have : (roundF64 (s1 * 2 ^ 48) (s2 * (24 * 2 ^ 48))).1 /
        (roundF64 (s1 * 2 ^ 48) (s2 * (24 * 2 ^ 48))).2 ≤ 366 :=
      Nat.div_le_of_le_mul (by omega)
    exact_mod_cast this

/-! ## Calendar arithmetic -/

theorem isLeap_iff (y : Int) :
    isLeap y = true ↔ (y % 4 = 0 ∧ (y % 100 ≠ 0 ∨ y % 400 = 0)) := by
  simp [isLeap]

theorem daysSinceEpoch_succ (y : Int) :
    daysSinceEpoch (y + 1) = daysSinceEpoch y + (if isLeap y then 366 else 365) := by
  unfold daysSinceEpoch
  by_cases h : isLeap y = true
  · rw [if_pos h]
    rw [isLeap_iff] at h
    omega
  · rw [if_neg h]
    rw [isLeap_iff] at h
    omega

/-- Position of a month and day inside any year: a day that exists in some year `y0`
falls, after normalisation, inside the year `y` it is placed in. -/
theorem absDays_in_year (y y0 m d : Int) (hm0 : 1 ≤ m) (hm1 : m ≤ 12) (hd0 : 1 ≤ d)
    (hd1 : d ≤ daysIn m y0) :
    daysSinceEpoch y ≤ absDays y m d ∧ absDays y m d < daysSinceEpoch (y + 1) := by
  rw [daysSinceEpoch_succ]
  unfold absDays
  unfold daysIn at hd1
  have hcases : m = 1 ∨ m = 2 ∨ m = 3 ∨ m = 4 ∨ m = 5 ∨ m = 6 ∨ m = 7 ∨ m = 8 ∨ m = 9 ∨
      m = 10 ∨ m = 11 ∨ m = 12 := by omega
  rcases hcases with h | h | h | h | h | h | h | h | h | h | h | h <;> subst h <;>
    simp [daysBefore] at hd1 ⊢ <;> split_ifs at hd1 ⊢ <;> omega

theorem absDays_year_step (y m d : Int) :
    absDays (y + 1) m d - absDays y m d = 365 ∨ absDays (y + 1) m d - absDays y m d = 366 := by
  unfold absDays
  rw [daysSinceEpoch_succ]
  have h1 : ¬ (isLeap y = true ∧ isLeap (y + 1) = true) := by
    rw [isLeap_iff, isLeap_iff]
    omega
  by_cases ha : isLeap y = true <;> by_cases hb : isLeap (y + 1) = true <;>
    by_cases hc : 3 ≤ m <;> simp [ha, hb, hc] <;> omega

theorem absDays_carry (y m d : Int) (hm0 : 1 ≤ m) (hm1 : m ≤ 12) :
    (if m = 12 then absDays (y + 1) 1 (d - daysIn m y) else absDays y (m + 1) (d - daysIn m y)) =
      absDays y m d := by
  have hcases : m = 1 ∨ m = 2 ∨ m = 3 ∨ m = 4 ∨ m = 5 ∨ m = 6 ∨ m = 7 ∨ m = 8 ∨ m = 9 ∨
      m = 10 ∨ m = 11 ∨ m = 12 := by omega
  rcases hcases with h | h | h | h | h | h | h | h | h | h | h | h <;> subst h <;>
    simp [absDays, daysBefore, daysIn, daysSinceEpoch_succ] <;> (try split_ifs) <;> omega

theorem absDays_normalizeDay (fuel : Nat) (y m d : Int) (hm0 : 1 ≤ m) (hm1 : m ≤ 12) :
    absDays (normalizeDay fuel y m d).1 (normalizeDay fuel y m d).2.1
      (normalizeDay fuel y m d).2.2 = absDays y m d := by
  induction fuel generalizing y m d with
  | zero => simp [normalizeDay]
  | succ n ih =>
    unfold normalizeDay
    have hc := absDays_carry y m d hm0 hm1
    split_ifs with h1 h2
    · rw [if_pos h2] at hc
      rw [ih (y + 1) 1 (d - daysIn m y) (by omega) (by omega)]
      exact hc
    · rw [if_neg h2] at hc
      rw [ih y (m + 1) (d - daysIn m y) (by omega) (by omega)]
      exact hc
    · rfl

theorem timeDate_abs (y m d : Int) (hm0 : 1 ≤ m) (hm1 : m ≤ 12) :
    (timeDate y m d).abs = absDays y m d * 86400000000000 := by
  simp only [timeDate, Time.abs]
  rw [absDays_normalizeDay _ y m d hm0 hm1]
  ring

/-- A stored date that parses is a calendar date at midnight. -/
theorem timeParseDate_ok (s : String) (t : Time) (h : timeParseDate s = .ok t) :
    1 ≤ t.month ∧ t.month ≤ 12 ∧ 1 ≤ t.day ∧ t.day ≤ daysIn t.month t.year := by
  unfold timeParseDate at h
  split at h
  · split at h
    · simp only [] at h
      split_ifs at h with h1 h2 h3
      injection h with h
      subst h
      simp only []
      omega
    · simp at h
  · simp at h

/-! ## DaysUntilEvent: the duration it measures -/

/-- The value of `DaysUntilEvent` for a stored date that parses, at a valid instant
`now`: the whole-day count of the duration from `now` to midnight of the stored month
and day placed in the year of `now`, or in the next year when that midnight is before
`now`; the duration is at least 0 and less than 366 days. -/
theorem DaysUntilEvent_duration (s : String) (date : Time) (hp : timeParseDate s = .ok date)
    (now : Time) (hv : now.Valid) :
    ∃ D : Nat, DaysUntilEvent s now = .ok (wholeDays (D : Int)) ∧
      D < 366 * 86400000000000 ∧
      (D : Int) =
        (if absDays now.year date.month date.day * 86400000000000 < now.abs then
          absDays (now.year + 1) date.month date.day * 86400000000000 - now.abs
        else absDays now.year date.month date.day * 86400000000000 - now.abs) := by
  obtain ⟨hm0, hm1, hd0, hd1⟩ := timeParseDate_ok s date hp
  obtain ⟨vm0, vm1, vd0, vd1, vh0, vh1, vi0, vi1, vs0, vs1, vn0, vn1⟩ := hv
  have hE := absDays_in_year now.year date.year date.month date.day hm0 hm1 hd0 hd1
  have hE' := absDays_in_year (now.year + 1) date.year date.month date.day hm0 hm1 hd0 hd1
  have hN := absDays_in_year now.year now.year now.month now.day vm0 vm1 vd0 vd1
  have hstep := absDays_year_step now.year date.month date.day
  have hY := daysSinceEpoch_succ now.year
  have hleap : (if isLeap now.year = true then (366 : Int) else 365) ≤ 366 := by
    split_ifs <;> omega
  have habs : now.abs = ((absDays now.year now.month now.day * 86400 + now.hour * 3600 +
      now.min * 60 + now.sec) * 1000000000) + now.nsec := rfl
  have hcode : DaysUntilEvent s now = .ok (wholeDays
      (if (if absDays now.year date.month date.day * 86400000000000 < now.abs then
            absDays (now.year + 1) date.month date.day * 86400000000000
          else absDays now.year date.month date.day * 86400000000000) - now.abs <
            -9223372036854775808 then -9223372036854775808
        else if 9223372036854775807 <
          (if absDays now.year date.month date.day * 86400000000000 < now.abs then
            absDays (now.year + 1) date.month date.day * 86400000000000
          else absDays now.year date.month date.day * 86400000000000) - now.abs then
          9223372036854775807
        else (if absDays now.year date.month date.day * 86400000000000 < now.abs then
            absDays (now.year + 1) date.month date.day * 86400000000000
          else absDays now.year date.month date.day * 86400000000000) - now.abs)) := by
    simp only [DaysUntilEvent, hp, Time.Before, Time.Sub, timeDate_abs _ _ _ hm0 hm1,
      decide_eq_true_eq]
    by_cases hb : absDays now.year date.month date.day * 86400000000000 < now.abs
    · simp only [if_pos hb, timeDate_abs _ _ _ hm0 hm1]
    · simp only [if_neg hb, timeDate_abs _ _ _ hm0 hm1]
  rw [hcode]
  generalize absDays now.year date.month date.day = E at *
  generalize absDays (now.year + 1) date.month date.day = E' at *
  generalize absDays now.year now.month now.day = N at *
  generalize daysSinceEpoch now.year = S at *
  generalize daysSinceEpoch (now.year + 1) = S' at *
  generalize (if isLeap now.year = true then (366 : Int) else 365) = L at *
  generalize now.abs = A at *
  by_cases hb : E * 86400000000000 < A
  · refine ⟨(E' * 86400000000000 - A).toNat, ?_, ?_, ?_⟩
    · simp only [if_pos hb]
      rw [if_neg (by omega), if_neg (by omega), Int.toNat_of_nonneg (by omega)]
    · omega
    · rw [if_pos hb]
      omega
  · refine ⟨(E * 86400000000000 - A).toNat, ?_, ?_, ?_⟩
    · simp only [if_neg hb]
      rw [if_neg (by omega), if_neg (by omega), Int.toNat_of_nonneg (by omega)]
    · omega
    · rw [if_neg hb]
      omega

/-! ## Calendar dates and their day numbers -/

theorem daysSinceEpoch_mono (y y' : Int) (h : y ≤ y') : daysSinceEpoch y ≤ daysSinceEpoch y' := by
  unfold daysSinceEpoch
  omega

/-- Stepping to the next day keeps a calendar date a calendar date and adds one to its
day number. -/
theorem nextDay_spec (y m d : Int) (hm0 : 1 ≤ m) (hm1 : m ≤ 12) (hd0 : 1 ≤ d)
    (hd1 : d ≤ daysIn m y) :
    1 ≤ (nextDay (y, m, d)).2.1 ∧ (nextDay (y, m, d)).2.1 ≤ 12 ∧
    1 ≤ (nextDay (y, m, d)).2.2 ∧
    (nextDay (y, m, d)).2.2 ≤ daysIn (nextDay (y, m, d)).2.1 (nextDay (y, m, d)).1 ∧
    absDays (nextDay (y, m, d)).1 (nextDay (y, m, d)).2.1 (nextDay (y, m, d)).2.2 =
      absDays y m d + 1 := by
  have hge := daysIn_ge
  unfold nextDay
  simp only []
  by_cases h1 : d < daysIn m y
  · simp only [if_pos h1]
    refine ⟨hm0, hm1, by omega, by omega, ?_⟩
    unfold absDays
    omega
  · simp only [if_neg h1]
    have hd : d = daysIn m y := by omega
    have hc := absDays_carry y m (d + 1) hm0 hm1
    by_cases h2 : m < 12
    · simp only [if_pos h2]
      rw [if_neg (by omega)] at hc
      refine ⟨by omega, by omega, by omega, by have := hge (m + 1) y; omega, ?_⟩
      have e : d + 1 - daysIn m y = 1 := by omega
      rw [e] at hc
      rw [hc]
      unfold absDays
      omega
    · simp only [if_neg h2]
      have hm : m = 12 := by omega
      rw [if_pos hm] at hc
      refine ⟨by omega, by omega, by omega, by have := hge 1 (y + 1); omega, ?_⟩
      have e : d + 1 - daysIn m y = 1 := by omega
      rw [e] at hc
      rw [hc]
      unfold absDays
      omega

/-- Days before the first of a month within the year `y`. -/
theorem monthStart_step (y m : Int) (hm0 : 1 ≤ m) (hm1 : m ≤ 11) :
    daysBefore (m + 1) + (if isLeap y ∧ 3 ≤ m + 1 then 1 else 0) =
      daysBefore m + (if isLeap y ∧ 3 ≤ m then 1 else 0) + daysIn m y := by
  have hcases : m = 1 ∨ m = 2 ∨ m = 3 ∨ m = 4 ∨ m = 5 ∨ m = 6 ∨ m = 7 ∨ m = 8 ∨ m = 9 ∨
      m = 10 ∨ m = 11 := by omega
  rcases hcases with h | h | h | h | h | h | h | h | h | h | h <;> subst h <;>
    simp [daysBefore, daysIn] <;> (try split_ifs) <;> omega

theorem monthStart_mono (y m m' : Int) (hm0 : 1 ≤ m) (hlt : m < m') (hm1 : m' ≤ 12) :
    daysBefore m + (if isLeap y ∧ 3 ≤ m then 1 else 0) + daysIn m y ≤
      daysBefore m' + (if isLeap y ∧ 3 ≤ m' then 1 else 0) := by
  obtain ⟨n, hn⟩ : ∃ n : Nat, m' = m + 1 + n := ⟨(m' - m - 1).toNat, by omega⟩
  subst hn
  induction n with
  | zero =>
    have := monthStart_step y m hm0 (by omega)
    simp only [Nat.cast_zero, add_zero]
    omega
  | succ k ih =>
    have h1 := ih (by omega) (by omega)
    have h2 := monthStart_step y (m + 1 + k) (by omega) (by push_cast at hm1; omega)
    have hge := daysIn_ge (m + 1 + k) y
    have e : m + 1 + ((k + 1 : Nat) : Int) = m + 1 + k + 1 := by push_cast; ring
    rw [e]
    omega

/-- Two calendar dates with the same day number are the same date. -/
theorem absDays_injective (y m d y' m' d' : Int) (hm0 : 1 ≤ m) (hm1 : m ≤ 12) (hd0 : 1 ≤ d)
    (hd1 : d ≤ daysIn m y) (hm0' : 1 ≤ m') (hm1' : m' ≤ 12) (hd0' : 1 ≤ d')
    (hd1' : d' ≤ daysIn m' y') (h : absDays y m d = absDays y' m' d') :
    y = y' ∧ m = m' ∧ d = d' := by
  have b1 := absDays_in_year y y m d hm0 hm1 hd0 hd1
  have b2 := absDays_in_year y' y' m' d' hm0' hm1' hd0' hd1'
  have hy : y = y' := by
    by_contra hne
    rcases lt_or_gt_of_ne hne with hlt | hgt
    · have := daysSinceEpoch_mono (y + 1) y' (by omega)
      omega
    · have := daysSinceEpoch_mono (y' + 1) y (by omega)
      omega
  subst hy
  have hm : m = m' := by
    by_contra hne
    unfold absDays at h
    rcases lt_or_gt_of_ne hne with hlt | hgt
    · have := monthStart_mono y m m' hm0 hlt hm1'
      omega
    · have := monthStart_mono y m' m hm0' hgt hm1
      omega
  subst hm
  refine ⟨rfl, rfl, ?_⟩
  unfold absDays at h
  omega

/-- The date reached after `j` steps from a calendar date is a calendar date, `j` days later. -/
theorem iterate_nextDay_spec (j : Nat) (c : Int × Int × Int) (hm0 : 1 ≤ c.2.1)
    (hm1 : c.2.1 ≤ 12) (hd0 : 1 ≤ c.2.2) (hd1 : c.2.2 ≤ daysIn c.2.1 c.1) :
    1 ≤ (nextDay^[j] c).2.1 ∧ (nextDay^[j] c).2.1 ≤ 12 ∧ 1 ≤ (nextDay^[j] c).2.2 ∧
    (nextDay^[j] c).2.2 ≤ daysIn (nextDay^[j] c).2.1 (nextDay^[j] c).1 ∧
    absDays (nextDay^[j] c).1 (nextDay^[j] c).2.1 (nextDay^[j] c).2.2 =
      absDays c.1 c.2.1 c.2.2 + j := by
  induction j generalizing c with
  | zero => simp [hm0, hm1, hd0, hd1]
  | succ n ih =>
    obtain ⟨y, m, d⟩ := c
    obtain ⟨a1, a2, a3, a4, a5⟩ := nextDay_spec y m d hm0 hm1 hd0 hd1
    obtain ⟨b1, b2, b3, b4, b5⟩ := ih (nextDay (y, m, d)) a1 a2 a3 a4
    rw [Function.iterate_succ_apply]
    refine ⟨b1, b2, b3, b4, ?_⟩
    rw [b5, a5]
    push_cast
    ring

/-- The search finds the first date that satisfies `p`. -/
theorem daysUntilFirst_eq (p : Int × Int × Int → Bool) (k fuel : Nat) (c : Int × Int × Int)
    (hfuel : k < fuel) (hnot : ∀ j, j < k → p (nextDay^[j] c) = false)
    (hyes : p (nextDay^[k] c) = true) :
    daysUntilFirst p fuel c = some (k : Int) := by
  induction k generalizing fuel c with
  | zero =>
    obtain ⟨f, rfl⟩ : ∃ f, fuel = f + 1 := ⟨fuel - 1, by omega⟩
    simp only [Function.iterate_zero, id_eq] at hyes
    simp [daysUntilFirst, hyes]
  | succ n ih =>
    obtain ⟨f, rfl⟩ : ∃ f, fuel = f + 1 := ⟨fuel - 1, by omega⟩
    have h0 : p c = false := hnot 0 (by omega)
    have hrec := ih f (nextDay c) (by omega)
      (fun j hj => by
        have := hnot (j + 1) (by omega)
        rwa [Function.iterate_succ_apply] at this)
      (by rwa [Function.iterate_succ_apply] at hyes)
    simp [daysUntilFirst, h0, hrec]

set_option maxRecDepth 1000000 in
/-- At a whole number of days, up to 366, the float computation is exact. -/
theorem wholeDays_exact : ∀ k : Nat, k < 367 →
    wholeDays ((k * 86400000000000 : Nat) : Int) = (k : Int) := by
  decide

/-! ## C3: DaysUntilEvent and the next occurrence -/

theorem absDays_feb29 (y : Int) (h : isLeap y = false) : absDays y 3 1 = absDays y 2 29 := by
  simp [absDays, daysBefore, h]
  omega

theorem day_beyond_month (y0 y m d : Int) (hd1 : d ≤ daysIn m y0) (h : ¬ d ≤ daysIn m y) :
    m = 2 ∧ d = 29 ∧ isLeap y = false := by
  unfold daysIn at hd1 h
  by_cases hl : isLeap y = true
  · split_ifs at hd1 h <;> omega
  · have hf : isLeap y = false := by simpa using hl
    refine ⟨?_, ?_, hf⟩ <;> split_ifs at hd1 h <;> omega

/-- The stored month and day fall on the date whose day number is the day number
`time.Date` gives the stored month and day in year `y`; any date on which they fall
has the day number of the stored month and day in its own year. -/
theorem occursOn_absDays (m d : Int) (c : Int × Int × Int)
    (h : occursOn m d c = true) : absDays c.1 c.2.1 c.2.2 = absDays c.1 m d := by
  simp only [occursOn, sameMonthDay, Bool.or_eq_true, decide_eq_true_eq] at h
  rcases h with ⟨h1, h2⟩ | ⟨h1, h2, h3, h4, h5⟩
  · rw [h1, h2]
  · rw [h4, h5, h1, h2]
    exact absDays_feb29 c.1 h3

/-- The date on which `time.Date` places the stored month and day in year `y`. -/
theorem exists_occurrence (y0 y m d : Int) (hm0 : 1 ≤ m) (hm1 : m ≤ 12) (hd0 : 1 ≤ d)
    (hd1 : d ≤ daysIn m y0) :
    ∃ t : Int × Int × Int, 1 ≤ t.2.1 ∧ t.2.1 ≤ 12 ∧ 1 ≤ t.2.2 ∧ t.2.2 ≤ daysIn t.2.1 t.1 ∧
      absDays t.1 t.2.1 t.2.2 = absDays y m d ∧ occursOn m d t = true := by
  by_cases h : d ≤ daysIn m y
  · exact ⟨(y, m, d), hm0, hm1, hd0, h, rfl, by simp [occursOn, sameMonthDay]⟩
  · obtain ⟨e1, e2, e3⟩ := day_beyond_month y0 y m d hd1 h
    subst e1 e2
    refine ⟨(y, 3, 1), by norm_num, by norm_num, by norm_num, ?_, absDays_feb29 y e3, ?_⟩
    · have := daysIn_ge 3 y
      simp only []
      omega
    · simp [occursOn, sameMonthDay, e3]

/-- C3, amended. For a stored date that parses and an instant `now` at 00:00:00,
`DaysUntilEvent` returns the number of calendar days from the date of `now` to the
first date on or after it on which the stored month and day fall, where a stored
29 February falls on 1 March in a year that is not a leap year; the stored year plays
no part.  For a stored date other than 29 February that is the next date with the
stored month and day.  For "1970-03-15" at 00:00:00 on 2024-03-10 the value is 5.
Nothing is stated here for a later time of day. -/
theorem DaysUntilEvent_at_midnight (s : String) (date : Time)
    (hp : timeParseDate s = .ok date) (now : Time) (hv : now.Valid)
    (hmid : now.hour = 0 ∧ now.min = 0 ∧ now.sec = 0 ∧ now.nsec = 0) :
    (∃ k : Int,
      daysUntilFirst (occursOn date.month date.day) 367 (now.year, now.month, now.day) = some k ∧
      DaysUntilEvent s now = .ok k ∧
      (¬ (date.month = 2 ∧ date.day = 29) →
        daysUntilFirst (sameMonthDay date.month date.day) 367 (now.year, now.month, now.day) =
          some k)) ∧
    DaysUntilEvent "1970-03-15" ⟨2024, 3, 10, 0, 0, 0, 0⟩ = .ok 5 := by
  refine ⟨?_, by decide⟩
  obtain ⟨D, hcode, hDlt, hD⟩ := DaysUntilEvent_duration s date hp now hv
  obtain ⟨hm0, hm1, hd0, hd1⟩ := timeParseDate_ok s date hp
  obtain ⟨vm0, vm1, vd0, vd1, -⟩ := hv
  obtain ⟨h1, h2, h3, h4⟩ := hmid
  have habs : now.abs = absDays now.year now.month now.day * 86400000000000 := by
    simp only [Time.abs, h1, h2, h3, h4]
    ring
  rw [habs] at hD
  have hE := absDays_in_year now.year date.year date.month date.day hm0 hm1 hd0 hd1
  have hE' := absDays_in_year (now.year + 1) date.year date.month date.day hm0 hm1 hd0 hd1
  have hN := absDays_in_year now.year now.year now.month now.day vm0 vm1 vd0 vd1
  have hstep := absDays_year_step now.year date.month date.day
  -- the year in which the occurrence falls
  obtain ⟨ystar, hystar, hk0, hk1, hDk⟩ : ∃ ystar : Int,
      (ystar = now.year ∨ ystar = now.year + 1) ∧
      absDays now.year now.month now.day ≤ absDays ystar date.month date.day ∧
      ((ystar = now.year + 1) →
        absDays now.year date.month date.day < absDays now.year now.month now.day) ∧
      (D : Int) = (absDays ystar date.month date.day - absDays now.year now.month now.day) *
        86400000000000 := by
    by_cases hb : absDays now.year date.month date.day * 86400000000000 <
        absDays now.year now.month now.day * 86400000000000
    · rw [if_pos hb] at hD
      exact ⟨now.year + 1, Or.inr rfl, by omega, fun _ => by omega, by rw [hD]; ring⟩
    · rw [if_neg hb] at hD
      exact ⟨now.year, Or.inl rfl, by omega, fun h => by omega, by rw [hD]; ring⟩
  obtain ⟨k, hk⟩ : ∃ k : Nat, (k : Int) =
      absDays ystar date.month date.day - absDays now.year now.month now.day :=
    ⟨(absDays ystar date.month date.day - absDays now.year now.month now.day).toNat, by omega⟩
  have hk367 : k < 367 := by omega
  have hDnat : D = k * 86400000000000 := by
    have : (D : Int) = ((k * 86400000000000 : Nat) : Int) := by
      rw [hDk, ← hk]
      push_cast
      ring
    exact_mod_cast this
  have hvalue : DaysUntilEvent s now = .ok (k : Int) := by
    rw [hcode, hDnat, wholeDays_exact k hk367]
  -- the date of the occurrence, and the dates before it
  obtain ⟨t, t1, t2, t3, t4, t5, t6⟩ :=
    exists_occurrence date.year ystar date.month date.day hm0 hm1 hd0 hd1
  have hiter := fun j => iterate_nextDay_spec j (now.year, now.month, now.day) vm0 vm1 vd0 vd1
  have hyes : occursOn date.month date.day (nextDay^[k] (now.year, now.month, now.day)) = true := by
    obtain ⟨a1, a2, a3, a4, a5⟩ := hiter k
    have hsame := absDays_injective _ _ _ _ _ _ a1 a2 a3 a4 t1 t2 t3 t4 (by
      rw [a5, t5]
      simp only []
      omega)
    have : nextDay^[k] (now.year, now.month, now.day) = t := by
      apply Prod.ext
      · exact hsame.1
      · apply Prod.ext
        · exact hsame.2.1
        · exact hsame.2.2
    rw [this]
    exact t6
  have hnot : ∀ j, j < k →
      occursOn date.month date.day (nextDay^[j] (now.year, now.month, now.day)) = false := by
    intro j hj
    by_contra hcon
    have hocc : occursOn date.month date.day (nextDay^[j] (now.year, now.month, now.day)) = true := by
      simpa using hcon
    obtain ⟨a1, a2, a3, a4, a5⟩ := hiter j
    have hR := occursOn_absDays date.month date.day _ hocc
    rw [a5] at hR
    simp only [] at hR
    have hRin := absDays_in_year (nextDay^[j] (now.year, now.month, now.day)).1 date.year
      date.month date.day hm0 hm1 hd0 hd1
    generalize (nextDay^[j] (now.year, now.month, now.day)).1 = yj at hR hRin
    have hS1 := daysSinceEpoch_succ now.year
    rcases lt_trichotomy yj now.year with hlt | heq | hgt
    · have := daysSinceEpoch_mono (yj + 1) now.year (by omega)
      omega
    · subst heq
      rcases hystar with hy | hy
      · subst hy
        omega
      · have := hk1 hy
        omega
    · rcases eq_or_lt_of_le (show now.year + 1 ≤ yj by omega) with heq1 | hgt1
      · subst heq1
        rcases hystar with hy | hy
        · subst hy
          omega
        · subst hy
          omega
      · have := daysSinceEpoch_mono (now.year + 1 + 1) yj (by omega)
        rcases hystar with hy | hy
        · subst hy
          omega
        · subst hy
          omega
  refine ⟨(k : Int), daysUntilFirst_eq _ k 367 _ hk367 hnot hyes, hvalue, ?_⟩
  intro hne
  have hfun : sameMonthDay date.month date.day = occursOn date.month date.day := by
    funext c
    simp only [occursOn, Bool.or_eq_true, decide_eq_true_eq]
    have : decide (date.month = 2 ∧ date.day = 29 ∧ isLeap c.1 = false ∧ c.2.1 = 3 ∧ c.2.2 = 1) =
        false := by
      simp only [decide_eq_false_iff_not]
      intro h
      exact hne ⟨h.1, h.2.1⟩
    rw [this, Bool.or_false]
  rw [hfun]
  exact daysUntilFirst_eq _ k 367 _ hk367 hnot hyes

/-- C3 amended, at the stored date 29 February 2000 and 00:00:00 on 1 January 2023. -/
theorem DaysUntilEvent_at_midnight_witness :
    (timeParseDate "2000-02-29" = .ok ⟨2000, 2, 29, 0, 0, 0, 0⟩ ∧
      (⟨2023, 1, 1, 0, 0, 0, 0⟩ : Time).Valid) ∧
    ∃ k : Int,
      daysUntilFirst (occursOn 2 29) 367 (2023, 1, 1) = some k ∧
      DaysUntilEvent "2000-02-29" ⟨2023, 1, 1, 0, 0, 0, 0⟩ = .ok k ∧
      (¬ ((2 : Int) = 2 ∧ (29 : Int) = 29) →
        daysUntilFirst (sameMonthDay 2 29) 367 (2023, 1, 1) = some k) :=
  ⟨⟨by decide, by decide⟩,
    (DaysUntilEvent_at_midnight "2000-02-29" ⟨2000, 2, 29, 0, 0, 0, 0⟩ (by decide)
      ⟨2023, 1, 1, 0, 0, 0, 0⟩ (by decide) ⟨rfl, rfl, rfl, rfl⟩).1⟩

set_option maxRecDepth 1000000 in
/-- C3 as stated fails.  At 00:00:00 on 1 January 2023 the next 29 February is 424 days
ahead, and `DaysUntilEvent` returns 59 for the stored date "2000-02-29" (the days to
1 March 2023).  And at 10:00:00 on 10 March 2024 the next 15 March is 5 calendar days
ahead, and `DaysUntilEvent` returns 4 for the stored date "1970-03-15". -/
theorem DaysUntilEvent_not_next_occurrence :
    (daysUntilFirst (sameMonthDay 2 29) 3000 (2023, 1, 1) = some 424 ∧
      DaysUntilEvent "2000-02-29" ⟨2023, 1, 1, 0, 0, 0, 0⟩ = .ok 59) ∧
    (daysUntilFirst (sameMonthDay 3 15) 367 (2024, 3, 10) = some 5 ∧
      DaysUntilEvent "1970-03-15" ⟨2024, 3, 10, 10, 0, 0, 0⟩ = .ok 4) := by
  decide

/-! ## C2: an event that falls today -/

/-- C2 fails on the code.  For the stored date "1970-03-15", at 10:00:00 on 15 March
2024 `DaysUntilEvent` returns 364: midnight of 15 March 2024 is before `now`, so the
date is moved to 15 March 2025.  Only at 00:00:00 of that day the value is 0. -/
theorem DaysUntilEvent_on_the_day :
    DaysUntilEvent "1970-03-15" ⟨2024, 3, 15, 10, 0, 0, 0⟩ = .ok 364 ∧
    DaysUntilEvent "1970-03-15" ⟨2024, 3, 15, 0, 0, 0, 0⟩ = .ok 0 := by
  decide

/-! ## C7: the range of DaysUntilEvent -/

/-- C7 fails on the code.  For the stored date "2000-03-15", one nanosecond after
00:00:00 on 15 March 2023, the day of the event, midnight of that day is before `now`
and the occurrence is moved to 15 March 2024 (the defect of C2): the duration is 366
days less one nanosecond, `Hours()` rounds 8783.9999999999997 to the float64 8784, and
`DaysUntilEvent` returns 366, where the range of the claim ends at 365. -/
theorem DaysUntilEvent_reaches_366 :
    DaysUntilEvent "2000-03-15" ⟨2023, 3, 15, 0, 0, 0, 1⟩ = .ok 366 ∧
    ¬ (∀ n, DaysUntilEvent "2000-03-15" ⟨2023, 3, 15, 0, 0, 0, 1⟩ = .ok n → 0 ≤ n ∧ n < 366) := by
  have h : DaysUntilEvent "2000-03-15" ⟨2023, 3, 15, 0, 0, 0, 1⟩ = .ok 366 := by decide
  refine ⟨h, fun hall => ?_⟩
  have := hall 366 h
  omega

set_option maxRecDepth 1000000 in
/-- The instants around midnight of 15 March 2023 for the stored date "2000-03-15":
0 at midnight exactly, 366 up to three nanoseconds later, 365 from the fourth on; at one
nanosecond after midnight the event of the day before gives 365 and the event of the
day after gives 0. -/
theorem DaysUntilEvent_around_midnight :
    DaysUntilEvent "2000-03-15" ⟨2023, 3, 15, 0, 0, 0, 0⟩ = .ok 0 ∧
    DaysUntilEvent "2000-03-15" ⟨2023, 3, 15, 0, 0, 0, 3⟩ = .ok 366 ∧
    DaysUntilEvent "2000-03-15" ⟨2023, 3, 15, 0, 0, 0, 4⟩ = .ok 365 ∧
    DaysUntilEvent "2000-03-14" ⟨2023, 3, 15, 0, 0, 0, 1⟩ = .ok 365 ∧
    DaysUntilEvent "2000-03-16" ⟨2023, 3, 15, 0, 0, 0, 1⟩ = .ok 0 := by
  decide

/-- The whole-day count of a duration of less than 365 days is between 0 and 365. -/
theorem wholeDays_below_365 (D : Nat) (hD : D < 365 * 86400000000000) :
    0 ≤ wholeDays (D : Int) ∧ wholeDays (D : Int) ≤ 365 := by
  have hdiv : Int.tdiv (D : Int) 3600000000000 = ((D / 3600000000000 : Nat) : Int) := by
    rw [Int.tdiv_eq_ediv (by omega) (by omega)]
    norm_cast
  have hmod : Int.tmod (D : Int) 3600000000000 = ((D % 3600000000000 : Nat) : Int) := by
    rw [Int.tmod_eq_emod (by omega) (by omega)]
    norm_cast
  have hh : D / 3600000000000 ≤ 8759 := by omega
  have hn : D % 3600000000000 < 3600000000000 := Nat.mod_lt _ (by omega)
  have hval : wholeDays (D : Int) = ((
      (roundF64
        ((roundF64
          ((roundF64 (D / 3600000000000) 1).1 *
              (roundF64 ((roundF64 (D % 3600000000000) 1).1 * 2 ^ 11)
                ((roundF64 (D % 3600000000000) 1).2 * (3600000000000 * 2 ^ 11))).2 +
            (roundF64 ((roundF64 (D % 3600000000000) 1).1 * 2 ^ 11)
                ((roundF64 (D % 3600000000000) 1).2 * (3600000000000 * 2 ^ 11))).1 *
              (roundF64 (D / 3600000000000) 1).2)
          ((roundF64 (D / 3600000000000) 1).2 *
            (roundF64 ((roundF64 (D % 3600000000000) 1).1 * 2 ^ 11)
              ((roundF64 (D % 3600000000000) 1).2 * (3600000000000 * 2 ^ 11))).2)).1 * 2 ^ 48)
        ((roundF64
          ((roundF64 (D / 3600000000000) 1).1 *
              (roundF64 ((roundF64 (D % 3600000000000) 1).1 * 2 ^ 11)
                ((roundF64 (D % 3600000000000) 1).2 * (3600000000000 * 2 ^ 11))).2 +
            (roundF64 ((roundF64 (D % 3600000000000) 1).1 * 2 ^ 11)
                ((roundF64 (D % 3600000000000) 1).2 * (3600000000000 * 2 ^ 11))).1 *
              (roundF64 (D / 3600000000000) 1).2)
          ((roundF64 (D / 3600000000000) 1).2 *
            (roundF64 ((roundF64 (D % 3600000000000) 1).1 * 2 ^ 11)
              ((roundF64 (D % 3600000000000) 1).2 * (3600000000000 * 2 ^ 11))).2)).2 *
          (24 * 2 ^ 48))).1 /
      (roundF64
        ((roundF64
          ((roundF64 (D / 3600000000000) 1).1 *
              (roundF64 ((roundF64 (D % 3600000000000) 1).1 * 2 ^ 11)
                ((roundF64 (D % 3600000000000) 1).2 * (3600000000000 * 2 ^ 11))).2 +
            (roundF64 ((roundF64 (D % 3600000000000) 1).1 * 2 ^ 11)
                ((roundF64 (D % 3600000000000) 1).2 * (3600000000000 * 2 ^ 11))).1 *
              (roundF64 (D / 3600000000000) 1).2)
          ((roundF64 (D / 3600000000000) 1).2 *
            (roundF64 ((roundF64 (D % 3600000000000) 1).1 * 2 ^ 11)
              ((roundF64 (D % 3600000000000) 1).2 * (3600000000000 * 2 ^ 11))).2)).1 * 2 ^ 48)
        ((roundF64
          ((roundF64 (D / 3600000000000) 1).1 *
              (roundF64 ((roundF64 (D % 3600000000000) 1).1 * 2 ^ 11)
                ((roundF64 (D % 3600000000000) 1).2 * (3600000000000 * 2 ^ 11))).2 +
            (roundF64 ((roundF64 (D % 3600000000000) 1).1 * 2 ^ 11)
                ((roundF64 (D % 3600000000000) 1).2 * (3600000000000 * 2 ^ 11))).1 *
              (roundF64 (D / 3600000000000) 1).2)
          ((roundF64 (D / 3600000000000) 1).2 *
            (roundF64 ((roundF64 (D % 3600000000000) 1).1 * 2 ^ 11)
              ((roundF64 (D % 3600000000000) 1).2 * (3600000000000 * 2 ^ 11))).2)).2 *
          (24 * 2 ^ 48))).2 : Nat) : Int) := by
    simp only [wholeDays, durationHours, hdiv, hmod, F64_ofInt_hour, F64_ofInt_24,
      F64_ofInt_natCast, F64.div, F64.add, F64.toInt, Bool.xor_false, if_true,
      Bool.false_eq_true, if_false]
  obtain ⟨a, ha⟩ := roundF64_le (D / 3600000000000) 1 (D / 3600000000000) (by omega) (by omega)
    (by omega)
  obtain ⟨b, hb⟩ := roundF64_le (D % 3600000000000) 1 (D % 3600000000000) (by omega) (by omega)
    (by omega)
  generalize (roundF64 (D / 3600000000000) 1).1 = a1 at a hval
  generalize (roundF64 (D / 3600000000000) 1).2 = a2 at a ha hval
  generalize (roundF64 (D % 3600000000000) 1).1 = b1 at b hval
  generalize (roundF64 (D % 3600000000000) 1).2 = b2 at b hb hval
  have hb3 : b1 ≤ 3600000000000 * b2 :=
    Nat.le_trans b (Nat.mul_le_mul_right _ (Nat.le_of_lt hn))
  obtain ⟨hq, hq0⟩ := roundF64_le (b1 * 2 ^ 11) (b2 * (3600000000000 * 2 ^ 11)) 1
    (Nat.mul_pos hb (by norm_num))
    (by
      calc b1 * 2 ^ 11 ≤ 3600000000000 * b2 * 2 ^ 11 := Nat.mul_le_mul_right _ hb3
        _ = 1 * (b2 * (3600000000000 * 2 ^ 11)) := by ring)
    (by norm_num)
  generalize (roundF64 (b1 * 2 ^ 11) (b2 * (3600000000000 * 2 ^ 11))).1 = q1 at hq hval
  generalize (roundF64 (b1 * 2 ^ 11) (b2 * (3600000000000 * 2 ^ 11))).2 = q2 at hq hq0 hval
  obtain ⟨hs, hs0⟩ := roundF64_le (a1 * q2 + q1 * a2) (a2 * q2) 8760 (Nat.mul_pos ha hq0)
    (by
      have e1 : a1 * q2 ≤ 8759 * a2 * q2 :=
        Nat.mul_le_mul_right _ (Nat.le_trans a (Nat.mul_le_mul_right _ hh))
      have e2 : q1 * a2 ≤ 1 * q2 * a2 := Nat.mul_le_mul_right _ hq
      calc a1 * q2 + q1 * a2 ≤ 8759 * a2 * q2 + 1 * q2 * a2 := Nat.add_le_add e1 e2
        _ = 8760 * (a2 * q2) := by ring)
    (by norm_num)
  generalize (roundF64 (a1 * q2 + q1 * a2) (a2 * q2)).1 = s1 at hs hval
  generalize (roundF64 (a1 * q2 + q1 * a2) (a2 * q2)).2 = s2 at hs hs0 hval
  obtain ⟨hr, hr0⟩ := roundF64_le (s1 * 2 ^ 48) (s2 * (24 * 2 ^ 48)) 365
    (Nat.mul_pos hs0 (by norm_num))
    (by
      calc s1 * 2 ^ 48 ≤ 8760 * s2 * 2 ^ 48 := Nat.mul_le_mul_right _ hs
        _ = 365 * (s2 * (24 * 2 ^ 48)) := by ring)
    (by norm_num)
  rw [hval]
  constructor
  · exact Int.natCast_nonneg _
  · have : (roundF64 (s1 * 2 ^ 48) (s2 * (24 * 2 ^ 48))).1 /
        (roundF64 (s1 * 2 ^ 48) (s2 * (24 * 2 ^ 48))).2 ≤ 365 :=
      Nat.div_le_of_le_mul (by omega)
    exact_mod_cast this

/-- The whole-day count of a duration of at most 365 days is between 0 and 365. -/
theorem wholeDays_le_365 (D : Nat) (hD : D ≤ 365 * 86400000000000) :
    0 ≤ wholeDays (D : Int) ∧ wholeDays (D : Int) ≤ 365 := by
  by_cases h : D = 365 * 86400000000000
  · have e := wholeDays_exact 365 (by omega)
    rw [h, e]
    omega
  · exact wholeDays_below_365 D (by omega)

/-- Off the defect of C2 the range of C7 holds.  For a stored date that parses and a
valid instant `now` that is not after midnight on the day on which the stored month
and day fall in the year of `now` (another day, or 00:00:00 exactly), `DaysUntilEvent`
returns a value that is at least 0 and less than 366. -/
theorem DaysUntilEvent_below_366_off_the_day (s : String) (date : Time)
    (hp : timeParseDate s = .ok date) (now : Time) (hv : now.Valid)
    (hoff : absDays now.year now.month now.day ≠ absDays now.year date.month date.day ∨
      (now.hour = 0 ∧ now.min = 0 ∧ now.sec = 0 ∧ now.nsec = 0)) :
    ∃ n : Int, DaysUntilEvent s now = .ok n ∧ 0 ≤ n ∧ n < 366 := by
  obtain ⟨D, hcode, -, hD⟩ := DaysUntilEvent_duration s date hp now hv
  obtain ⟨hm0, hm1, hd0, hd1⟩ := timeParseDate_ok s date hp
  obtain ⟨vm0, vm1, vd0, vd1, vh0, vh1, vi0, vi1, vs0, vs1, vn0, vn1⟩ := hv
  have hE := absDays_in_year now.year date.year date.month date.day hm0 hm1 hd0 hd1
  have hN := absDays_in_year now.year now.year now.month now.day vm0 vm1 vd0 vd1
  have hstep := absDays_year_step now.year date.month date.day
  have hY := daysSinceEpoch_succ now.year
  have hleap : (if isLeap now.year = true then (366 : Int) else 365) ≤ 366 := by
    split_ifs <;> omega
  have habs : now.abs = ((absDays now.year now.month now.day * 86400 + now.hour * 3600 +
      now.min * 60 + now.sec) * 1000000000) + now.nsec := rfl
  have hle : D ≤ 365 * 86400000000000 := by
    generalize absDays now.year date.month date.day = E at *
    generalize absDays (now.year + 1) date.month date.day = E1 at *
    generalize absDays now.year now.month now.day = N at *
    generalize daysSinceEpoch now.year = S at *
    generalize daysSinceEpoch (now.year + 1) = S1 at *
    generalize (if isLeap now.year = true then (366 : Int) else 365) = L at *
    generalize now.abs = A at *
    by_cases hb : E * 86400000000000 < A
    · rw [if_pos hb] at hD
      rcases hoff with hne | ⟨h0, h1, h2, h3⟩
      · omega
      · omega
    · rw [if_neg hb] at hD
      omega
  obtain ⟨h0, h1⟩ := wholeDays_le_365 D hle
  exact ⟨wholeDays (D : Int), hcode, h0, by omega⟩

/-- At every valid instant, for every stored date that parses, `DaysUntilEvent` returns a
value, and that value is at least 0 and at most 366; the value 366 is the one the
defect produces on the day of the event. -/
theorem DaysUntilEvent_bounds (s : String) (date : Time) (hp : timeParseDate s = .ok date)
    (now : Time) (hv : now.Valid) :
    ∃ n : Int, DaysUntilEvent s now = .ok n ∧ 0 ≤ n ∧ n ≤ 366 := by
  obtain ⟨D, hcode, hDlt, -⟩ := DaysUntilEvent_duration s date hp now hv
  exact ⟨wholeDays (D : Int), hcode, wholeDays_bounds D hDlt⟩

/-- The bound at the stored date "2000-03-15", one nanosecond after 00:00:00 on
15 March 2023. -/
theorem DaysUntilEvent_bounds_witness :
    (timeParseDate "2000-03-15" = .ok ⟨2000, 3, 15, 0, 0, 0, 0⟩ ∧
      (⟨2023, 3, 15, 0, 0, 0, 1⟩ : Time).Valid) ∧
    ∃ n : Int, DaysUntilEvent "2000-03-15" ⟨2023, 3, 15, 0, 0, 0, 1⟩ = .ok n ∧ 0 ≤ n ∧ n ≤ 366 :=
  ⟨⟨by decide, by decide⟩,
    DaysUntilEvent_bounds "2000-03-15" ⟨2000, 3, 15, 0, 0, 0, 0⟩ (by decide)
      ⟨2023, 3, 15, 0, 0, 0, 1⟩ (by decide)⟩

/-! ## C11: ValidateTime -/

theorem digitChar_ne_colon : ∀ k : Nat, k < 10 → Nat.digitChar k ≠ ':' := by
  decide

theorem clockText_eq (h m : Int) (hh0 : 0 ≤ h) (hh1 : h < 100) (hm0 : 0 ≤ m) (hm1 : m < 100) :
    fmtPadInt 2 h ++ ":" ++ fmtPadInt 2 m = clockText h.toNat m.toNat := by
  rw [fmtPad2_int h hh0 hh1, fmtPad2_int m hm0 hm1]
  rfl

/-- What `ValidateTime` returns, by the checks in their order. -/
theorem ValidateTime_of_parts (s p0 p1 : String) (hs : stringsSplit s ':' = [p0, p1]) :
    ValidateTime s =
      match Atoi p0 with
      | .error _ => .error "неверный час (0-23)"
      | .ok hour =>
        if hour < 0 ∨ hour > 23 then .error "неверный час (0-23)"
        else
          match Atoi p1 with
          | .error _ => .error "неверная минута (0-59)"
          | .ok minute =>
            if minute < 0 ∨ minute > 59 then .error "неверная минута (0-59)"
            else .ok (clockText hour.toNat minute.toNat) := by
  unfold ValidateTime
  rw [hs]
  simp only []
  cases h0 : Atoi p0 with
  | error e => rfl
  | ok hour =>
    simp only []
    by_cases hh : hour < 0 ∨ hour > 23
    · simp only [if_pos hh]
    · simp only [if_neg hh]
      cases h1 : Atoi p1 with
      | error e => rfl
      | ok minute =>
        simp only []
        by_cases hm : minute < 0 ∨ minute > 59
        · simp only [if_pos hm]
        · simp only [if_neg hm]
          rw [clockText_eq hour minute (by omega) (by omega) (by omega) (by omega)]

theorem ValidateTime_of_not_two (s : String) (hs : (stringsSplit s ':').length ≠ 2) :
    ValidateTime s = .error "неверный формат времени, используйте ЧЧ:ММ" := by
  unfold ValidateTime
  rcases h : stringsSplit s ':' with _ | ⟨p0, _ | ⟨p1, _ | ⟨p2, rest⟩⟩⟩
  · rfl
  · rfl
  · rw [h] at hs
    exact absurd rfl hs
  · rfl

theorem split_clockText (h m : Nat) (hh : h < 100) (hm : m < 100) :
    stringsSplit (clockText h m) ':' =
      [String.mk [Nat.digitChar (h / 10), Nat.digitChar (h % 10)],
       String.mk [Nat.digitChar (m / 10), Nat.digitChar (m % 10)]] := by
  have a1 := digitChar_ne_colon (h / 10) (by omega)
  have a2 := digitChar_ne_colon (h % 10) (by omega)
  have a3 := digitChar_ne_colon (m / 10) (by omega)
  have a4 := digitChar_ne_colon (m % 10) (by omega)
  simp [stringsSplit, clockText, splitOnChar, a1, a2, a3, a4]

theorem ValidateTime_clockText (h m : Nat) (hh : h ≤ 23) (hm : m ≤ 59) :
    ValidateTime (clockText h m) = .ok (clockText h m) := by
  rw [ValidateTime_of_parts _ _ _ (split_clockText h m (by omega) (by omega)),
    Atoi_two_digits h (by omega), Atoi_two_digits m (by omega)]
  simp only []
  rw [if_neg (by omega), if_neg (by omega)]
  simp

/-- C11. `ValidateTime` succeeds with result `r` exactly when the input splits on ':'
into two parts that `Atoi` reads as integers `h` in 0..23 and `m` in 0..59; the result
is then the 5-character text `HH:MM` of `h` and `m`, both in two digits; and
`ValidateTime` applied to a result of its own returns that result. -/
theorem ValidateTime_ok_iff (s r : String) :
    (ValidateTime s = .ok r ↔
      ∃ p0 p1 : String, ∃ h m : Int,
        stringsSplit s ':' = [p0, p1] ∧ Atoi p0 = .ok h ∧ Atoi p1 = .ok m ∧
        0 ≤ h ∧ h ≤ 23 ∧ 0 ≤ m ∧ m ≤ 59 ∧
        r = clockText h.toNat m.toNat ∧ r.length = 5) ∧
    (ValidateTime s = .ok r → ValidateTime r = .ok r) := by
  have hfwd : ValidateTime s = .ok r →
      ∃ p0 p1 : String, ∃ h m : Int,
        stringsSplit s ':' = [p0, p1] ∧ Atoi p0 = .ok h ∧ Atoi p1 = .ok m ∧
        0 ≤ h ∧ h ≤ 23 ∧ 0 ≤ m ∧ m ≤ 59 ∧
        r = clockText h.toNat m.toNat ∧ r.length = 5 := by
    intro h
    by_cases h2 : (stringsSplit s ':').length = 2
    · rcases hs : stringsSplit s ':' with _ | ⟨p0, _ | ⟨p1, _ | ⟨p2, rest⟩⟩⟩
      · rw [hs] at h2; simp at h2
      · rw [hs] at h2; simp at h2
      · rw [ValidateTime_of_parts s p0 p1 hs] at h
        cases h0 : Atoi p0 with
        | error e => rw [h0] at h; simp at h
        | ok hour =>
          rw [h0] at h
          simp only [] at h
          by_cases hh : hour < 0 ∨ hour > 23
          · rw [if_pos hh] at h; simp at h
          · rw [if_neg hh] at h
            cases h1 : Atoi p1 with
            | error e => rw [h1] at h; simp at h
            | ok minute =>
              rw [h1] at h
              simp only [] at h
              by_cases hm : minute < 0 ∨ minute > 59
              · rw [if_pos hm] at h; simp at h
              · rw [if_neg hm] at h
                have hr : r = clockText hour.toNat minute.toNat := by
                  injection h with h
                  exact h.symm
                refine ⟨p0, p1, hour, minute, rfl, h0, h1, by omega, by omega, by omega,
                  by omega, hr, ?_⟩
                rw [hr]
                rfl
      · rw [hs] at h2; simp at h2
    · rw [ValidateTime_of_not_two s h2] at h
      simp at h
  refine ⟨⟨hfwd, ?_⟩, ?_⟩
  · rintro ⟨p0, p1, h, m, hs, h0, h1, hh0, hh1, hm0, hm1, hr, _⟩
    rw [ValidateTime_of_parts s p0 p1 hs, h0, h1]
    simp only []
    rw [if_neg (by omega), if_neg (by omega), hr]
  · intro hok
    obtain ⟨p0, p1, h, m, -, -, -, hh0, hh1, hm0, hm1, hr, -⟩ := hfwd hok
    rw [hr]
    exact ValidateTime_clockText h.toNat m.toNat (by omega) (by omega)

/-- C11 at the input "9:5", whose result is "09:05". -/
theorem ValidateTime_ok_iff_witness :
    ValidateTime "9:5" = .ok "09:05" ∧ ValidateTime "09:05" = .ok "09:05" :=
  ⟨by decide, (ValidateTime_ok_iff "9:5" "09:05").2 (by decide)⟩

/-! ## C20: a stored 29 February in a year that is not a leap year -/

theorem timeDate_feb29 (y : Int) (h : isLeap y = false) :
    timeDate y 2 29 = ⟨y, 3, 1, 0, 0, 0, 0⟩ := by
  have e : (29 : Int).toNat = 28 + 1 := by decide
  simp only [timeDate, e]
  simp [normalizeDay, daysIn, h]

theorem timeDate_mar1 (y : Int) : timeDate y 3 1 = ⟨y, 3, 1, 0, 0, 0, 0⟩ := by
  have e : (1 : Int).toNat = 0 + 1 := by decide
  simp only [timeDate, e]
  simp [normalizeDay, daysIn]

/-- C20. For a stored 29 February and an instant `now` in a year that is not a leap
year, not after 00:00 of 1 March of that year, `DaysUntilEvent` places the occurrence
on 1 March of that year: `time.Date` gives 1 March, and the result is the result for
a stored 1 March at the same `now`, the whole-day count of the duration from `now` to
00:00 of 1 March. -/
theorem DaysUntilEvent_feb29_nonleap (s1 s2 : String) (d1 d2 : Time)
    (hp1 : timeParseDate s1 = .ok d1) (h1 : d1.month = 2 ∧ d1.day = 29)
    (hp2 : timeParseDate s2 = .ok d2) (h2 : d2.month = 3 ∧ d2.day = 1)
    (now : Time) (hv : now.Valid) (hleap : isLeap now.year = false)
    (hnotafter : now.abs ≤ (⟨now.year, 3, 1, 0, 0, 0, 0⟩ : Time).abs) :
    timeDate now.year 2 29 = ⟨now.year, 3, 1, 0, 0, 0, 0⟩ ∧
    DaysUntilEvent s1 now = DaysUntilEvent s2 now ∧
    DaysUntilEvent s1 now =
      .ok (wholeDays ((⟨now.year, 3, 1, 0, 0, 0, 0⟩ : Time).abs - now.abs)) := by
  obtain ⟨vm0, vm1, vd0, vd1, vh0, vh1, vi0, vi1, vs0, vs1, vn0, vn1⟩ := hv
  have hN := absDays_in_year now.year now.year now.month now.day vm0 vm1 vd0 vd1
  have hnb : ¬ (⟨now.year, 3, 1, 0, 0, 0, 0⟩ : Time).abs < now.abs := by omega
  have hM : absDays now.year 3 1 = daysSinceEpoch now.year + 59 := by
    simp [absDays, daysBefore, hleap]
  have hval : ∀ (s : String) (d : Time), timeParseDate s = .ok d →
      timeDate now.year d.month d.day = ⟨now.year, 3, 1, 0, 0, 0, 0⟩ →
      DaysUntilEvent s now =
        .ok (wholeDays ((⟨now.year, 3, 1, 0, 0, 0, 0⟩ : Time).abs - now.abs)) := by
    intro s d hp hd
    simp only [DaysUntilEvent, hp, hd, Time.Before, decide_eq_true_eq, if_neg hnb, Time.Sub]
    have habs : now.abs = ((absDays now.year now.month now.day * 86400 + now.hour * 3600 +
        now.min * 60 + now.sec) * 1000000000) + now.nsec := rfl
    have hmar : (⟨now.year, 3, 1, 0, 0, 0, 0⟩ : Time).abs =
        absDays now.year 3 1 * 86400000000000 := by
      simp only [Time.abs]
      ring
    rw [if_neg (by omega), if_neg (by omega)]
  have e1 := hval s1 d1 hp1 (by rw [h1.1, h1.2]; exact timeDate_feb29 now.year hleap)
  have e2 := hval s2 d2 hp2 (by rw [h2.1, h2.2]; exact timeDate_mar1 now.year)
  exact ⟨timeDate_feb29 now.year hleap, by rw [e1, e2], e1⟩

/-- C20 at the stored dates "2000-02-29" and "1999-03-01", at 10:00:00 on 1 January
2023: both give 58. -/
theorem DaysUntilEvent_feb29_nonleap_witness :
    (timeParseDate "2000-02-29" = .ok ⟨2000, 2, 29, 0, 0, 0, 0⟩ ∧
      timeParseDate "1999-03-01" = .ok ⟨1999, 3, 1, 0, 0, 0, 0⟩ ∧
      (⟨2023, 1, 1, 10, 0, 0, 0⟩ : Time).Valid ∧ isLeap 2023 = false ∧
      (⟨2023, 1, 1, 10, 0, 0, 0⟩ : Time).abs ≤ (⟨2023, 3, 1, 0, 0, 0, 0⟩ : Time).abs) ∧
    DaysUntilEvent "2000-02-29" ⟨2023, 1, 1, 10, 0, 0, 0⟩ = .ok 58 ∧
    DaysUntilEvent "2000-02-29" ⟨2023, 1, 1, 10, 0, 0, 0⟩ =
      DaysUntilEvent "1999-03-01" ⟨2023, 1, 1, 10, 0, 0, 0⟩ :=
  ⟨by decide, by decide,
    (DaysUntilEvent_feb29_nonleap "2000-02-29" "1999-03-01" ⟨2000, 2, 29, 0, 0, 0, 0⟩
      ⟨1999, 3, 1, 0, 0, 0, 0⟩ (by decide) ⟨rfl, rfl⟩ (by decide) ⟨rfl, rfl⟩
      ⟨2023, 1, 1, 10, 0, 0, 0⟩ (by decide) (by decide) (by decide)).2.1⟩

/-! ## The state table as a function of the user -/

theorem statesGet_statesSet (m : List (Int × UserState)) (u u' : Int) (s : UserState) :
    statesGet (statesSet m u s) u' = if u' = u then some s else statesGet m u' := by
  induction m with
  | nil =>
    by_cases h : u' = u
    · simp [statesSet, statesGet, h]
    · have h2 : ¬ u = u' := fun e => h e.symm
      simp [statesSet, statesGet, h, h2]
  | cons p rest ih =>
    obtain ⟨k, v⟩ := p
    by_cases hk : k = u
    · by_cases h : u' = u
      · simp [statesSet, statesGet, hk, h]
      · have h2 : ¬ u = u' := fun e => h e.symm
        simp [statesSet, statesGet, hk, h, h2]
    · by_cases h : u' = u
      · subst h
        simp [statesSet, statesGet, hk, ih]
      · by_cases hk' : k = u'
        · subst hk'
          simp [statesSet, statesGet, hk, h]
        · simp [statesSet, statesGet, hk, hk', ih, h]

theorem dataGet_dataSet (d : List (String × Value)) (k k' : String) (v : Value) :
    dataGet (dataSet d k v) k' = if k' = k then some v else dataGet d k' := by
  induction d with
  | nil =>
    by_cases h : k' = k
    · simp [dataSet, dataGet, h]
    · have h2 : ¬ k = k' := fun e => h e.symm
      simp [dataSet, dataGet, h, h2]
  | cons p rest ih =>
    obtain ⟨a, w⟩ := p
    by_cases ha : a = k
    · by_cases h : k' = k
      · simp [dataSet, dataGet, ha, h]
      · have h2 : ¬ k = k' := fun e => h e.symm
        simp [dataSet, dataGet, ha, h, h2]
    · by_cases h : k' = k
      · subst h
        simp [dataSet, dataGet, ha, ih]
      · by_cases ha' : a = k'
        · subst ha'
          simp [dataSet, dataGet, ha, h]
        · simp [dataSet, dataGet, ha, ha', ih, h]

theorem GetUserState_fst (b : Bot) (u : Int) : (b.GetUserState u).1 = b.stateOf u := by
  unfold Bot.GetUserState Bot.stateOf
  cases statesGet b.UserStates u <;> rfl

theorem stateOf_GetUserState (b : Bot) (u u' : Int) :
    (b.GetUserState u).2.stateOf u' = b.stateOf u' := by
  unfold Bot.GetUserState Bot.stateOf
  cases h : statesGet b.UserStates u with
  | some s => rfl
  | none =>
    simp only [statesGet_statesSet]
    by_cases hu : u' = u
    · subst hu
      simp [h]
    · simp [hu]

theorem calls_GetUserState (b : Bot) (u : Int) : (b.GetUserState u).2.calls = b.calls := by
  unfold Bot.GetUserState
  cases statesGet b.UserStates u <;> rfl

theorem GetUserState_of_present (b : Bot) (u : Int) (h : (b.stateOf u).State ≠ StateDefault) :
    (b.GetUserState u).2 = b := by
  unfold Bot.GetUserState
  cases hs : statesGet b.UserStates u with
  | some s => rfl
  | none =>
    exfalso
    apply h
    simp [Bot.stateOf, hs]

theorem stateOf_SetUserState (b : Bot) (u u' : Int) (st : String) :
    (b.SetUserState u st).stateOf u' =
      if u' = u then ⟨st, (b.stateOf u).CurrentData⟩ else b.stateOf u' := by
  unfold Bot.SetUserState Bot.stateOf
  cases h : statesGet b.UserStates u with
  | some s =>
    simp only [statesGet_statesSet]
    by_cases hu : u' = u <;> simp [hu]
  | none =>
    simp only [statesGet_statesSet]
    by_cases hu : u' = u <;> simp [hu]

theorem calls_SetUserState (b : Bot) (u : Int) (st : String) :
    (b.SetUserState u st).calls = b.calls := by
  unfold Bot.SetUserState
  cases statesGet b.UserStates u <;> rfl

theorem stateOf_ResetUserState (b : Bot) (u u' : Int) :
    (b.ResetUserState u).stateOf u' =
      if u' = u then ⟨StateDefault, []⟩ else b.stateOf u' := by
  unfold Bot.ResetUserState Bot.stateOf
  simp only [statesGet_statesSet]
  by_cases hu : u' = u <;> simp [hu]

theorem calls_ResetUserState (b : Bot) (u : Int) : (b.ResetUserState u).calls = b.calls :=
  rfl

theorem stateOf_SaveUserData (b : Bot) (u u' : Int) (k : String) (v : Value) :
    (b.SaveUserData u k v).stateOf u' =
      if u' = u then ⟨(b.stateOf u).State, dataSet (b.stateOf u).CurrentData k v⟩
      else b.stateOf u' := by
  unfold Bot.SaveUserData Bot.stateOf
  cases h : statesGet b.UserStates u with
  | some s =>
    simp only [statesGet_statesSet]
    by_cases hu : u' = u <;> simp [hu]
  | none =>
    simp only [statesGet_statesSet]
    by_cases hu : u' = u <;> simp [hu]

theorem calls_SaveUserData (b : Bot) (u : Int) (k : String) (v : Value) :
    (b.SaveUserData u k v).calls = b.calls := by
  unfold Bot.SaveUserData
  cases statesGet b.UserStates u <;> rfl

theorem stateOf_call (b : Bot) (e : Effect) (u' : Int) : (b.call e).stateOf u' = b.stateOf u' :=
  rfl

theorem calls_call (b : Bot) (e : Effect) : (b.call e).calls = b.calls ++ [e] :=
  rfl

theorem stateOf_Send (b : Bot) (c : Int) (t : String) (k : List (List (String × String)))
    (u' : Int) : (b.Send c t k).stateOf u' = b.stateOf u' :=
  rfl

theorem calls_Send (b : Bot) (c : Int) (t : String) (k : List (List (String × String))) :
    (b.Send c t k).calls = b.calls ++ [.send c t k] :=
  rfl

theorem stateOf_SendMainMenu (b : Bot) (c u' : Int) :
    (b.SendMainMenu c).stateOf u' = b.stateOf u' :=
  rfl

theorem calls_SendMainMenu (b : Bot) (c : Int) :
    (b.SendMainMenu c).calls = b.calls ++ [.send c "Что вы хотите сделать?"
      [[("Добавить событие", "add_event"), ("Мои события", "list_events")],
       [("Настройки", "settings"), ("Помощь", "help")]]] :=
  rfl

/-! ## handleMessage, state by state -/

theorem handleText_title (db : DB) (b : Bot) (m : Message)
    (h : (b.stateOf m.FromID).State = StateAddEventTitle) :
    handleText db b m =
      .done (((b.SaveUserData m.FromID "title" (.str m.Text)).SetUserState m.FromID
        StateAddEventType).Send m.ChatID "Выберите тип события:"
        (EventTypes.map (fun eventType => [(eventType, "type:" ++ eventType)]))) := by
  have hp : (b.GetUserState m.FromID).2 = b :=
    GetUserState_of_present b _ (by rw [h]; decide)
  unfold handleText
  simp only [GetUserState_fst, hp, h]
  simp +decide only [StateAddEventTitle, if_true]

theorem handleText_date (db : DB) (b : Bot) (m : Message)
    (h : (b.stateOf m.FromID).State = StateAddEventDate) :
    handleText db b m =
      match FormatDate m.Text with
      | .error err =>
        .done (b.Send m.ChatID
          ("❌ " ++ err ++ ". Пожалуйста, введите дату в формате ДД.ММ.ГГГГ:") [])
      | .ok formattedDate =>
        .done (((b.SaveUserData m.FromID "event_date" (.str formattedDate)).SetUserState m.FromID
          StateAddEventNotify).Send m.ChatID
          "За сколько дней до события отправить напоминание? (введите число от 1 до 30):" []) := by
  have hp : (b.GetUserState m.FromID).2 = b :=
    GetUserState_of_present b _ (by rw [h]; decide)
  unfold handleText
  simp only [GetUserState_fst, hp, h]
  simp +decide only [StateAddEventTitle, StateAddEventDate, if_true, if_false]

theorem handleText_notify (db : DB) (b : Bot) (m : Message)
    (h : (b.stateOf m.FromID).State = StateAddEventNotify) :
    handleText db b m =
      match Atoi m.Text with
      | .error _ => .done (b.Send m.ChatID "❌ Пожалуйста, введите число от 1 до 30:" [])
      | .ok days =>
        if days < 1 ∨ days > 30 then
          .done (b.Send m.ChatID "❌ Пожалуйста, введите число от 1 до 30:" [])
        else
          .done (((b.SaveUserData m.FromID "notify_days" (.int days)).SetUserState m.FromID
            StateAddEventDesc).Send m.ChatID
            "Введите описание события (или отправьте /skip, чтобы пропустить):" []) := by
  have hp : (b.GetUserState m.FromID).2 = b :=
    GetUserState_of_present b _ (by rw [h]; decide)
  unfold handleText
  simp only [GetUserState_fst, hp, h]
  simp +decide only [StateAddEventTitle, StateAddEventDate, StateAddEventNotify, if_true, if_false]

theorem handleText_desc (db : DB) (b : Bot) (m : Message)
    (h : (b.stateOf m.FromID).State = StateAddEventDesc) :
    handleText db b m =
      let description := if m.Text = "/skip" then "" else m.Text
      let b1 := b.SaveUserData m.FromID "description" (.str description)
      let userData := (b1.stateOf m.FromID).CurrentData
      match db.GetUserByTelegramID m.FromID with
      | .error _ =>
        .done ((b1.Send m.ChatID "❌ Произошла ошибка при создании события." []).ResetUserState
          m.FromID)
      | .ok none => .crash b1
      | .ok (some user) =>
        match asString (dataGet userData "title"), asString (dataGet userData "type"),
              asString (dataGet userData "event_date"), asInt (dataGet userData "notify_days") with
        | some title, some eventType, some eventDate, some notifyDays =>
          let event : Event :=
            { ID := 0, UserID := user.ID, Title := title, EventType := eventType,
              EventDate := eventDate, NotifyDays := notifyDays, Description := description }
          match db.CreateEvent event with
          | .error _ =>
            .done (((b1.call (.createEvent event)).Send m.ChatID
              "❌ Произошла ошибка при сохранении события." []).ResetUserState m.FromID)
          | .ok _ =>
            .done ((((b1.call (.createEvent event)).Send m.ChatID
              (eventSummary "✅ Событие успешно добавлено!" event) []).ResetUserState
              m.FromID).SendMainMenu m.ChatID)
        | _, _, _, _ => .crash b1 := by
  have hp : (b.GetUserState m.FromID).2 = b :=
    GetUserState_of_present b _ (by rw [h]; decide)
  unfold handleText
  simp only [GetUserState_fst, hp, h]
  simp +decide only [StateAddEventTitle, StateAddEventDate, StateAddEventNotify,
    StateAddEventDesc, if_true, if_false]

theorem handleText_setNotifyTime (db : DB) (b : Bot) (m : Message)
    (h : (b.stateOf m.FromID).State = StateSetNotifyTime) :
    handleText db b m =
      match ValidateTime m.Text with
      | .error err =>
        .done (b.Send m.ChatID ("❌ " ++ err ++ ". Пожалуйста, введите время в формате ЧЧ:ММ:") [])
      | .ok formattedTime =>
        match db.GetUserByTelegramID m.FromID with
        | .error _ =>
          .done ((b.Send m.ChatID "❌ Произошла ошибка при обновлении настроек." []).ResetUserState
            m.FromID)
        | .ok none => .crash b
        | .ok (some user) =>
          match db.SetUserNotificationTime user.ID formattedTime with
          | .error _ =>
            .done (((b.call (.setUserNotificationTime user.ID formattedTime)).Send m.ChatID
              "❌ Произошла ошибка при сохранении настроек." []).ResetUserState m.FromID)
          | .ok _ =>
            .done ((((b.call (.setUserNotificationTime user.ID formattedTime)).Send m.ChatID
              ("✅ Время уведомлений установлено на " ++ formattedTime) []).ResetUserState
              m.FromID).SendMainMenu m.ChatID) := by
  have hp : (b.GetUserState m.FromID).2 = b :=
    GetUserState_of_present b _ (by rw [h]; decide)
  unfold handleText
  simp only [GetUserState_fst, hp, h]
  simp +decide only [StateAddEventTitle, StateAddEventDate, StateAddEventNotify,
    StateAddEventDesc, StateSetNotifyTime, if_true, if_false]

theorem handleText_editValue (db : DB) (b : Bot) (m : Message)
    (h : (b.stateOf m.FromID).State = StateEditEventValue) :
    handleText db b m =
      match asString (dataGet (b.stateOf m.FromID).CurrentData "field"),
            asInt64 (dataGet (b.stateOf m.FromID).CurrentData "event_id") with
      | some field, some eventID =>
        match db.GetEventByID eventID with
        | .error _ =>
          .done ((b.Send m.ChatID "❌ Произошла ошибка при редактировании события."
            []).ResetUserState m.FromID)
        | .ok eventPtr =>
          if field = "title" then
            match eventPtr with
            | none => .crash b
            | some event => saveEdited db b m.FromID m.ChatID { event with Title := m.Text }
          else if field = "date" then
            match FormatDate m.Text with
            | .error err =>
              .done (b.Send m.ChatID
                ("❌ " ++ err ++ ". Пожалуйста, введите дату в формате ДД.ММ.ГГГГ:") [])
            | .ok formattedDate =>
              match eventPtr with
              | none => .crash b
              | some event =>
                saveEdited db b m.FromID m.ChatID { event with EventDate := formattedDate }
          else if field = "notify_days" then
            match Atoi m.Text with
            | .error _ => .done (b.Send m.ChatID "❌ Пожалуйста, введите число от 1 до 30:" [])
            | .ok days =>
              if days < 1 ∨ days > 30 then
                .done (b.Send m.ChatID "❌ Пожалуйста, введите число от 1 до 30:" [])
              else
                match eventPtr with
                | none => .crash b
                | some event => saveEdited db b m.FromID m.ChatID { event with NotifyDays := days }
          else if field = "description" then
            match eventPtr with
            | none => .crash b
            | some event => saveEdited db b m.FromID m.ChatID { event with Description := m.Text }
          else
            match eventPtr with
            | none => .crash b
            | some event => saveEdited db b m.FromID m.ChatID event
      | _, _ => .crash b := by
  have hp : (b.GetUserState m.FromID).2 = b :=
    GetUserState_of_present b _ (by rw [h]; decide)
  unfold handleText
  simp only [GetUserState_fst, hp, h]
  simp +decide only [StateAddEventTitle, StateAddEventDate, StateAddEventNotify,
    StateAddEventDesc, StateSetNotifyTime, StateEditEventValue, if_true, if_false]

theorem handleText_other (db : DB) (b : Bot) (m : Message)
    (h1 : (b.stateOf m.FromID).State ≠ StateAddEventTitle)
    (h2 : (b.stateOf m.FromID).State ≠ StateAddEventDate)
    (h3 : (b.stateOf m.FromID).State ≠ StateAddEventNotify)
    (h4 : (b.stateOf m.FromID).State ≠ StateAddEventDesc)
    (h5 : (b.stateOf m.FromID).State ≠ StateSetNotifyTime)
    (h6 : (b.stateOf m.FromID).State ≠ StateEditEventValue) :
    handleText db b m =
      .done (((b.GetUserState m.FromID).2.ResetUserState m.FromID).SendMainMenu m.ChatID) := by
  unfold handleText
  simp only [GetUserState_fst, if_neg h1, if_neg h2, if_neg h3, if_neg h4, if_neg h5, if_neg h6]

/-! ## One update, seen from the record of one user: the proof -/

theorem sendEventsList_stateOf (db : DB) (now : Time) (b : Bot) (c u u' : Int) :
    (sendEventsList db now b c u).bot.stateOf u' = b.stateOf u' := by
  unfold sendEventsList
  split
  · rfl
  · rfl
  · split
    · rfl
    · split <;> rfl

theorem showSettings_stateOf (db : DB) (b : Bot) (c u u' : Int) :
    (showSettings db b c u).bot.stateOf u' = b.stateOf u' := by
  unfold showSettings
  split <;> rfl

theorem saveEdited_stateOf (db : DB) (b : Bot) (u c : Int) (event : Event) (u' : Int) :
    (saveEdited db b u c event).bot.stateOf u' =
      if u' = u then ⟨StateDefault, []⟩ else b.stateOf u' := by
  unfold saveEdited
  split <;>
    simp only [Outcome.bot, stateOf_ResetUserState, stateOf_Send, stateOf_call,
      stateOf_SendMainMenu]

theorem ite_same_cond {α : Type} (c : Prop) [Decidable c] (a b d : α) :
    (if c then a else if c then b else d) = if c then a else d := by
  split_ifs <;> rfl

theorem Trans_ite (b : Bot) (u u' : Int) (t : UserState) (h : Trans (b.stateOf u) t) :
    Trans (b.stateOf u') (if u' = u then t else b.stateOf u') := by
  split_ifs with hu
  · subst hu; exact h
  · exact Trans.same _

theorem saveEdited_trans (db : DB) (b b0 : Bot) (u c : Int) (event : Event) (u' : Int)
    (hb : ∀ v, b.stateOf v = b0.stateOf v) :
    Trans (b0.stateOf u') ((saveEdited db b u c event).bot.stateOf u') := by
  rw [saveEdited_stateOf, hb]
  exact Trans_ite b0 u u' _ (Trans.reset _)

theorem handleText_trans (db : DB) (b : Bot) (m : Message) (u' : Int) :
    Trans (b.stateOf u') ((handleText db b m).bot.stateOf u') := by
  by_cases h1 : (b.stateOf m.FromID).State = StateAddEventTitle
  · rw [handleText_title db b m h1]
    simp only [Outcome.bot, stateOf_ResetUserState, stateOf_Send, stateOf_call,
      stateOf_SendMainMenu, stateOf_SetUserState, stateOf_SaveUserData, stateOf_GetUserState,
      if_true, ite_same_cond]
    exact Trans_ite b _ u' _ (Trans.title _ _ h1)
  by_cases h2 : (b.stateOf m.FromID).State = StateAddEventDate
  · rw [handleText_date db b m h2]
    split
    · exact Trans.same _
    · simp only [Outcome.bot, stateOf_ResetUserState, stateOf_Send, stateOf_call,
      stateOf_SendMainMenu, stateOf_SetUserState, stateOf_SaveUserData, stateOf_GetUserState,
      if_true, ite_same_cond]
      exact Trans_ite b _ u' _ (Trans.date _ _ _ h2 (by assumption))
  by_cases h3 : (b.stateOf m.FromID).State = StateAddEventNotify
  · rw [handleText_notify db b m h3]
    split
    · exact Trans.same _
    · split
      · exact Trans.same _
      · simp only [Outcome.bot, stateOf_ResetUserState, stateOf_Send, stateOf_call,
      stateOf_SendMainMenu, stateOf_SetUserState, stateOf_SaveUserData, stateOf_GetUserState,
      if_true, ite_same_cond]
        exact Trans_ite b _ u' _ (Trans.notify _ _ h3 (by omega) (by omega))
  by_cases h4 : (b.stateOf m.FromID).State = StateAddEventDesc
  · rw [handleText_desc db b m h4]
    simp only []
    split
    · simp only [Outcome.bot, stateOf_ResetUserState, stateOf_Send, stateOf_call,
      stateOf_SendMainMenu, stateOf_SetUserState, stateOf_SaveUserData, stateOf_GetUserState,
      if_true, ite_same_cond]
      exact Trans_ite b _ u' _ (Trans.reset _)
    · simp only [Outcome.bot, stateOf_ResetUserState, stateOf_Send, stateOf_call,
      stateOf_SendMainMenu, stateOf_SetUserState, stateOf_SaveUserData, stateOf_GetUserState,
      if_true, ite_same_cond]
      exact Trans_ite b _ u' _ (Trans.desc _ _ h4)
    · split
      · split
        · simp only [Outcome.bot, stateOf_ResetUserState, stateOf_Send, stateOf_call,
      stateOf_SendMainMenu, stateOf_SetUserState, stateOf_SaveUserData, stateOf_GetUserState,
      if_true, ite_same_cond]
          exact Trans_ite b _ u' _ (Trans.reset _)
        · simp only [Outcome.bot, stateOf_ResetUserState, stateOf_Send, stateOf_call,
      stateOf_SendMainMenu, stateOf_SetUserState, stateOf_SaveUserData, stateOf_GetUserState,
      if_true, ite_same_cond]
          exact Trans_ite b _ u' _ (Trans.reset _)
      · simp only [Outcome.bot, stateOf_ResetUserState, stateOf_Send, stateOf_call,
      stateOf_SendMainMenu, stateOf_SetUserState, stateOf_SaveUserData, stateOf_GetUserState,
      if_true, ite_same_cond]
        exact Trans_ite b _ u' _ (Trans.desc _ _ h4)
  by_cases h5 : (b.stateOf m.FromID).State = StateSetNotifyTime
  · rw [handleText_setNotifyTime db b m h5]
    split
    · exact Trans.same _
    · split
      · simp only [Outcome.bot, stateOf_ResetUserState, stateOf_Send, stateOf_call,
      stateOf_SendMainMenu, stateOf_SetUserState, stateOf_SaveUserData, stateOf_GetUserState,
      if_true, ite_same_cond]
        exact Trans_ite b _ u' _ (Trans.reset _)
      · exact Trans.same _
      · split
        · simp only [Outcome.bot, stateOf_ResetUserState, stateOf_Send, stateOf_call,
      stateOf_SendMainMenu, stateOf_SetUserState, stateOf_SaveUserData, stateOf_GetUserState,
      if_true, ite_same_cond]
          exact Trans_ite b _ u' _ (Trans.reset _)
        · simp only [Outcome.bot, stateOf_ResetUserState, stateOf_Send, stateOf_call,
      stateOf_SendMainMenu, stateOf_SetUserState, stateOf_SaveUserData, stateOf_GetUserState,
      if_true, ite_same_cond]
          exact Trans_ite b _ u' _ (Trans.reset _)
  by_cases h6 : (b.stateOf m.FromID).State = StateEditEventValue
  · rw [handleText_editValue db b m h6]
    split
    · split
      · simp only [Outcome.bot, stateOf_ResetUserState, stateOf_Send, stateOf_call,
      stateOf_SendMainMenu, stateOf_SetUserState, stateOf_SaveUserData, stateOf_GetUserState,
      if_true, ite_same_cond]
        exact Trans_ite b _ u' _ (Trans.reset _)
      · split_ifs
        all_goals repeat' split
        all_goals first
          | exact Trans.same _
          | exact saveEdited_trans _ _ _ _ _ _ _ (fun _ => rfl)
    · exact Trans.same _
  · rw [handleText_other db b m h1 h2 h3 h4 h5 h6]
    simp only [Outcome.bot, stateOf_ResetUserState, stateOf_Send, stateOf_call,
      stateOf_SendMainMenu, stateOf_SetUserState, stateOf_SaveUserData, stateOf_GetUserState,
      if_true, ite_same_cond]
    exact Trans_ite b _ u' _ (Trans.reset _)
theorem sendEventsList_trans (db : DB) (now : Time) (b b0 : Bot) (c u u' : Int)
    (h : Trans (b0.stateOf u') (b.stateOf u')) :
    Trans (b0.stateOf u') ((sendEventsList db now b c u).bot.stateOf u') := by
  rw [sendEventsList_stateOf]; exact h

theorem showSettings_trans (db : DB) (b b0 : Bot) (c u u' : Int)
    (h : Trans (b0.stateOf u') (b.stateOf u')) :
    Trans (b0.stateOf u') ((showSettings db b c u).bot.stateOf u') := by
  rw [showSettings_stateOf]; exact h

theorem handleCommand_trans (db : DB) (now : Time) (b : Bot) (m : Message) (u' : Int) :
    Trans (b.stateOf u') ((handleCommand db now b m).bot.stateOf u') := by
  unfold handleCommand
  simp only []
  split_ifs with c1 c2 c3 c4 c5 c6 c7
  · simp only [Outcome.bot, stateOf_ResetUserState, stateOf_Send, stateOf_call,
      stateOf_SendMainMenu, stateOf_SetUserState, stateOf_SaveUserData, stateOf_GetUserState,
      if_true, ite_same_cond]
    exact Trans_ite b _ u' _ (Trans.reset _)
  · exact Trans.same _
  · simp only [Outcome.bot, stateOf_ResetUserState, stateOf_Send, stateOf_call,
      stateOf_SendMainMenu, stateOf_SetUserState, stateOf_SaveUserData, stateOf_GetUserState,
      if_true, ite_same_cond]
    exact Trans_ite b _ u' _ (Trans.addStart _)
  · exact sendEventsList_trans _ _ _ _ _ _ _ (Trans.same _)
  · exact showSettings_trans _ _ _ _ _ _ (Trans.same _)
  · have h := handleText_trans db (b.GetUserState m.FromID).2
      { MessageID := m.MessageID, FromID := m.FromID, UserName := m.UserName,
        FirstName := m.FirstName, LastName := m.LastName, ChatID := m.ChatID,
        Text := "", Entities := [] } u'
    rw [stateOf_GetUserState] at h
    exact h
  · simp only [Outcome.bot, stateOf_GetUserState]
    exact Trans.same _
  · exact Trans.same _

theorem handleCallbackQuery_trans (db : DB) (now : Time) (b : Bot) (q : CallbackQuery) (u' : Int) :
    Trans (b.stateOf u') ((handleCallbackQuery db now b q).bot.stateOf u') := by
  have hb : ∀ v, ((b.GetUserState q.FromID).2.call (.answerCallback q.ID)).stateOf v =
      b.stateOf v := fun v => by rw [stateOf_call, stateOf_GetUserState]
  unfold handleCallbackQuery
  simp only [GetUserState_fst]
  by_cases c1 : q.Data = "add_event"
  · rw [if_pos c1]
    simp only [Outcome.bot, stateOf_ResetUserState, stateOf_Send, stateOf_call,
      stateOf_SendMainMenu, stateOf_SetUserState, stateOf_SaveUserData, stateOf_GetUserState,
      if_true, ite_same_cond]
    exact Trans_ite b _ u' _ (Trans.addStart _)
  rw [if_neg c1]
  by_cases c2 : q.Data = "list_events"
  · rw [if_pos c2]
    exact sendEventsList_trans _ _ _ _ _ _ _ (by rw [hb]; exact Trans.same _)
  rw [if_neg c2]
  by_cases c3 : q.Data = "settings"
  · rw [if_pos c3]
    exact showSettings_trans _ _ _ _ _ _ (by rw [hb]; exact Trans.same _)
  rw [if_neg c3]
  by_cases c4 : q.Data = "help"
  · rw [if_pos c4]
    simp only [Outcome.bot, stateOf_ResetUserState, stateOf_Send, stateOf_call,
      stateOf_SendMainMenu, stateOf_SetUserState, stateOf_SaveUserData, stateOf_GetUserState,
      if_true, ite_same_cond]
    exact Trans.same _
  rw [if_neg c4]
  by_cases c5 : q.Data = "back_to_menu"
  · rw [if_pos c5]
    simp only [Outcome.bot, stateOf_ResetUserState, stateOf_Send, stateOf_call,
      stateOf_SendMainMenu, stateOf_SetUserState, stateOf_SaveUserData, stateOf_GetUserState,
      if_true, ite_same_cond]
    exact Trans_ite b _ u' _ (Trans.reset _)
  rw [if_neg c5]
  by_cases c6 : q.Data = "set_notify_time"
  · rw [if_pos c6]
    simp only [Outcome.bot, stateOf_ResetUserState, stateOf_Send, stateOf_call,
      stateOf_SendMainMenu, stateOf_SetUserState, stateOf_SaveUserData, stateOf_GetUserState,
      if_true, ite_same_cond]
    exact Trans_ite b _ u' _ (Trans.timeStart _)
  rw [if_neg c6]
  by_cases c7 : hasPrefixOf q.Data "type:" = true
  · rw [if_pos c7]
    split_ifs with hs
    · simp only [Outcome.bot, stateOf_ResetUserState, stateOf_Send, stateOf_call,
      stateOf_SendMainMenu, stateOf_SetUserState, stateOf_SaveUserData, stateOf_GetUserState,
      if_true, ite_same_cond]
      exact Trans_ite b _ u' _ (Trans.type _ _ hs)
    · simp only [Outcome.bot, stateOf_ResetUserState, stateOf_Send, stateOf_call,
      stateOf_SendMainMenu, stateOf_SetUserState, stateOf_SaveUserData, stateOf_GetUserState,
      if_true, ite_same_cond]
      exact Trans.same _
  rw [if_neg c7]
  by_cases c8 : hasPrefixOf q.Data "event:" = true
  · rw [if_pos c8]
    repeat' split
    all_goals
      simp only [Outcome.bot, stateOf_ResetUserState, stateOf_Send, stateOf_call,
      stateOf_SendMainMenu, stateOf_SetUserState, stateOf_SaveUserData, stateOf_GetUserState,
      if_true, ite_same_cond]
      exact Trans.same _
  rw [if_neg c8]
  by_cases c9 : hasPrefixOf q.Data "edit:" = true
  · rw [if_pos c9]
    repeat' split
    all_goals
      simp only [Outcome.bot, stateOf_ResetUserState, stateOf_Send, stateOf_call,
      stateOf_SendMainMenu, stateOf_SetUserState, stateOf_SaveUserData, stateOf_GetUserState,
      if_true, ite_same_cond]
      first
        | exact Trans.same _
        | exact Trans_ite b _ u' _ (Trans.edit _ _)
  rw [if_neg c9]
  by_cases c10 : hasPrefixOf q.Data "edit_field:" = true
  · rw [if_pos c10]
    split_ifs
    all_goals
      simp only [Outcome.bot, stateOf_ResetUserState, stateOf_Send, stateOf_call,
      stateOf_SendMainMenu, stateOf_SetUserState, stateOf_SaveUserData, stateOf_GetUserState,
      if_true, ite_same_cond]
      exact Trans_ite b _ u' _ (Trans.field _ _)
  rw [if_neg c10]
  by_cases c11 : hasPrefixOf q.Data "set_type:" = true
  · rw [if_pos c11]
    split_ifs
    · repeat' split
      all_goals first
        | exact saveEdited_trans _ _ _ _ _ _ _ hb
        | (simp only [Outcome.bot, stateOf_ResetUserState, stateOf_Send, stateOf_call,
      stateOf_SendMainMenu, stateOf_SetUserState, stateOf_SaveUserData, stateOf_GetUserState,
      if_true, ite_same_cond]
           first
             | exact Trans.same _
             | exact Trans_ite b _ u' _ (Trans.reset _))
    · simp only [Outcome.bot, stateOf_ResetUserState, stateOf_Send, stateOf_call,
      stateOf_SendMainMenu, stateOf_SetUserState, stateOf_SaveUserData, stateOf_GetUserState,
      if_true, ite_same_cond]
      exact Trans.same _
  rw [if_neg c11]
  by_cases c12 : hasPrefixOf q.Data "delete:" = true
  · rw [if_pos c12]
    repeat' split
    all_goals
      simp only [Outcome.bot, stateOf_ResetUserState, stateOf_Send, stateOf_call,
      stateOf_SendMainMenu, stateOf_SetUserState, stateOf_SaveUserData, stateOf_GetUserState,
      if_true, ite_same_cond]
      first
        | exact Trans.same _
        | exact Trans_ite b _ u' _ (Trans.delete _ _)
  rw [if_neg c12]
  by_cases c13 : hasPrefixOf q.Data "confirm_delete:" = true
  · rw [if_pos c13]
    repeat' split
    all_goals first
      | exact sendEventsList_trans _ _ _ _ _ _ _ (by
          rw [stateOf_Send, stateOf_call, hb]; exact Trans.same _)
      | (simp only [Outcome.bot, stateOf_ResetUserState, stateOf_Send, stateOf_call,
      stateOf_SendMainMenu, stateOf_SetUserState, stateOf_SaveUserData, stateOf_GetUserState,
      if_true, ite_same_cond]
         exact Trans.same _)
  rw [if_neg c13]
  simp only [Outcome.bot, stateOf_ResetUserState, stateOf_Send, stateOf_call,
      stateOf_SendMainMenu, stateOf_SetUserState, stateOf_SaveUserData, stateOf_GetUserState,
      if_true, ite_same_cond]
  exact Trans.same _

theorem handleUpdate_trans (db : DB) (now : Time) (b : Bot) (upd : Update) (u' : Int) :
    Trans (b.stateOf u') ((handleUpdate db now b upd).bot.stateOf u') := by
  cases upd with
  | message m =>
    simp only [handleUpdate, handleMessage]
    split_ifs
    · exact handleCommand_trans db now b m u'
    · exact handleText_trans db b m u'
  | callback q => exact handleCallbackQuery_trans db now b q u'

/-! ## Texts that fail validation -/

theorem handleMessage_text (db : DB) (now : Time) (b : Bot) (m : Message)
    (hc : m.IsCommand = false) : handleMessage db now b m = handleText db b m := by
  simp only [handleMessage, hc, Bool.false_eq_true, if_false]

theorem handleText_date_invalid (db : DB) (b : Bot) (m : Message) (err : String)
    (hs : (b.stateOf m.FromID).State = StateAddEventDate) (he : FormatDate m.Text = .error err) :
    handleText db b m =
      .done (b.Send m.ChatID
        ("❌ " ++ err ++ ". Пожалуйста, введите дату в формате ДД.ММ.ГГГГ:") []) := by
  rw [handleText_date db b m hs, he]

theorem handleText_notify_invalid (db : DB) (b : Bot) (m : Message)
    (hs : (b.stateOf m.FromID).State = StateAddEventNotify)
    (hn : ¬ ∃ n, Atoi m.Text = .ok n ∧ 1 ≤ n ∧ n ≤ 30) :
    handleText db b m = .done (b.Send m.ChatID "❌ Пожалуйста, введите число от 1 до 30:" []) := by
  rw [handleText_notify db b m hs]
  cases ha : Atoi m.Text with
  | error e => rfl
  | ok n =>
    have hr : n < 1 ∨ n > 30 := by
      by_contra hcon
      exact hn ⟨n, ha, by omega, by omega⟩
    simp only [if_pos hr]

theorem handleText_time_invalid (db : DB) (b : Bot) (m : Message) (err : String)
    (hs : (b.stateOf m.FromID).State = StateSetNotifyTime)
    (he : ValidateTime m.Text = .error err) :
    handleText db b m =
      .done (b.Send m.ChatID
        ("❌ " ++ err ++ ". Пожалуйста, введите время в формате ЧЧ:ММ:") []) := by
  rw [handleText_setNotifyTime db b m hs, he]

theorem handleText_editDate_invalid (db : DB) (b : Bot) (m : Message) (err : String)
    (eventID : Int) (eventPtr : Option Event)
    (hs : (b.stateOf m.FromID).State = StateEditEventValue)
    (hf : dataGet (b.stateOf m.FromID).CurrentData "field" = some (.str "date"))
    (hi : dataGet (b.stateOf m.FromID).CurrentData "event_id" = some (.int64 eventID))
    (hg : db.GetEventByID eventID = .ok eventPtr)
    (he : FormatDate m.Text = .error err) :
    handleText db b m =
      .done (b.Send m.ChatID
        ("❌ " ++ err ++ ". Пожалуйста, введите дату в формате ДД.ММ.ГГГГ:") []) := by
  rw [handleText_editValue db b m hs, hf, hi]
  simp +decide only [asString, asInt64, hg, if_true, if_false]
  rw [he]

theorem handleText_editNotify_invalid (db : DB) (b : Bot) (m : Message)
    (eventID : Int) (eventPtr : Option Event)
    (hs : (b.stateOf m.FromID).State = StateEditEventValue)
    (hf : dataGet (b.stateOf m.FromID).CurrentData "field" = some (.str "notify_days"))
    (hi : dataGet (b.stateOf m.FromID).CurrentData "event_id" = some (.int64 eventID))
    (hg : db.GetEventByID eventID = .ok eventPtr)
    (hn : ¬ ∃ n, Atoi m.Text = .ok n ∧ 1 ≤ n ∧ n ≤ 30) :
    handleText db b m = .done (b.Send m.ChatID "❌ Пожалуйста, введите число от 1 до 30:" []) := by
  rw [handleText_editValue db b m hs, hf, hi]
  simp +decide only [asString, asInt64, hg, if_true, if_false]
  cases ha : Atoi m.Text with
  | error e => rfl
  | ok n =>
    have hr : n < 1 ∨ n > 30 := by
      by_contra hcon
      exact hn ⟨n, ha, by omega, by omega⟩
    simp only [if_pos hr]

theorem handleText_button_state (db : DB) (b : Bot) (m : Message)
    (hs : (b.stateOf m.FromID).State = StateAddEventType ∨
      (b.stateOf m.FromID).State = StateEditEventField) :
    handleText db b m = .done ((b.ResetUserState m.FromID).SendMainMenu m.ChatID) := by
  have hp : (b.GetUserState m.FromID).2 = b :=
    GetUserState_of_present b _ (by rcases hs with h | h <;> rw [h] <;> decide)
  rw [handleText_other db b m (by rcases hs with h | h <;> rw [h] <;> decide)
    (by rcases hs with h | h <;> rw [h] <;> decide)
    (by rcases hs with h | h <;> rw [h] <;> decide)
    (by rcases hs with h | h <;> rw [h] <;> decide)
    (by rcases hs with h | h <;> rw [h] <;> decide)
    (by rcases hs with h | h <;> rw [h] <;> decide), hp]

/-! ## C12: a text that fails validation -/

/-- C12. A text message that is not a command and fails validation leaves the state
table as it was and adds exactly one call, the re-prompt, so the tag and the scratch
data of the user are unchanged and no store write is made: in `StateAddEventDate` when
`FormatDate` rejects the text (the re-prompt carries the reason `err`), in
`StateAddEventNotify` when the text is not an integer in 1..30, and in
`StateSetNotifyTime` when `ValidateTime` rejects the text (the re-prompt carries the
reason `err`). -/
theorem invalid_text_reprompts (db : DB) (now : Time) (b : Bot) (m : Message)
    (hc : m.IsCommand = false) :
    (∀ err, (b.stateOf m.FromID).State = StateAddEventDate → FormatDate m.Text = .error err →
      handleMessage db now b m =
        .done ⟨b.UserStates, b.calls ++
          [.send m.ChatID ("❌ " ++ err ++ ". Пожалуйста, введите дату в формате ДД.ММ.ГГГГ:") []]⟩) ∧
    ((b.stateOf m.FromID).State = StateAddEventNotify →
      (¬ ∃ n, Atoi m.Text = .ok n ∧ 1 ≤ n ∧ n ≤ 30) →
      handleMessage db now b m =
        .done ⟨b.UserStates, b.calls ++
          [.send m.ChatID "❌ Пожалуйста, введите число от 1 до 30:" []]⟩) ∧
    (∀ err, (b.stateOf m.FromID).State = StateSetNotifyTime → ValidateTime m.Text = .error err →
      handleMessage db now b m =
        .done ⟨b.UserStates, b.calls ++
          [.send m.ChatID ("❌ " ++ err ++ ". Пожалуйста, введите время в формате ЧЧ:ММ:") []]⟩) := by
  rw [handleMessage_text db now b m hc]
  refine ⟨fun err hs he => ?_, fun hs hn => ?_, fun err hs he => ?_⟩
  · exact handleText_date_invalid db b m err hs he
  · exact handleText_notify_invalid db b m hs hn
  · exact handleText_time_invalid db b m err hs he

set_option maxRecDepth 100000 in
/-- C12 at a rejected date in `StateAddEventDate`, at the lead time 31 in
`StateAddEventNotify` and at the time 24:00 in `StateSetNotifyTime`. -/
theorem invalid_text_reprompts_witness :
    handleMessage (Tables.mk [] []).toDB ⟨2024, 3, 10, 10, 0, 0, 0⟩
        ⟨[(7, ⟨StateAddEventDate, [("title", .str "t"), ("type", .str "Другое")]⟩)], []⟩
        (textMessage 7 8 "31.02.2024") =
      .done ⟨[(7, ⟨StateAddEventDate, [("title", .str "t"), ("type", .str "Другое")]⟩)],
        [.send 8 "❌ несуществующая дата. Пожалуйста, введите дату в формате ДД.ММ.ГГГГ:" []]⟩ ∧
    handleMessage (Tables.mk [] []).toDB ⟨2024, 3, 10, 10, 0, 0, 0⟩
        ⟨[(7, ⟨StateAddEventNotify, [("title", .str "t")]⟩)], []⟩
        (textMessage 7 8 "31") =
      .done ⟨[(7, ⟨StateAddEventNotify, [("title", .str "t")]⟩)],
        [.send 8 "❌ Пожалуйста, введите число от 1 до 30:" []]⟩ ∧
    handleMessage (Tables.mk [] []).toDB ⟨2024, 3, 10, 10, 0, 0, 0⟩
        ⟨[(7, ⟨StateSetNotifyTime, []⟩)], []⟩
        (textMessage 7 8 "24:00") =
      .done ⟨[(7, ⟨StateSetNotifyTime, []⟩)],
        [.send 8 "❌ неверный час (0-23). Пожалуйста, введите время в формате ЧЧ:ММ:" []]⟩ :=
  ⟨(invalid_text_reprompts (Tables.mk [] []).toDB ⟨2024, 3, 10, 10, 0, 0, 0⟩
      ⟨[(7, ⟨StateAddEventDate, [("title", .str "t"), ("type", .str "Другое")]⟩)], []⟩
      (textMessage 7 8 "31.02.2024") rfl).1 "несуществующая дата" (by decide) (by decide),
   (invalid_text_reprompts (Tables.mk [] []).toDB ⟨2024, 3, 10, 10, 0, 0, 0⟩
      ⟨[(7, ⟨StateAddEventNotify, [("title", .str "t")]⟩)], []⟩
      (textMessage 7 8 "31") rfl).2.1 (by decide)
      (by
        rintro ⟨n, hn, h1, h2⟩
        have h31 : Atoi (textMessage 7 8 "31").Text = .ok 31 := by decide
        rw [h31] at hn
        injection hn with hn
        omega),
   (invalid_text_reprompts (Tables.mk [] []).toDB ⟨2024, 3, 10, 10, 0, 0, 0⟩
      ⟨[(7, ⟨StateSetNotifyTime, []⟩)], []⟩
      (textMessage 7 8 "24:00") rfl).2.2 "неверный час (0-23)" (by decide) (by decide)⟩

/-! ## C13: an input that is invalid for the state -/

/-- C13 as stated fails: a text message that is not a command, received in
`StateAddEventType` or in `StateEditEventField`, takes the `default` branch of
`handleMessage`: the user is reset to `StateDefault`, so the resulting tag is not the
input tag, and the one message sent is the main menu. -/
theorem free_text_in_button_state_resets :
    handleUpdate (Tables.mk [] []).toDB ⟨2024, 3, 10, 10, 0, 0, 0⟩
        ⟨[(7, ⟨StateAddEventType, [("title", .str "t")]⟩)], []⟩
        (.message (textMessage 7 8 "hello")) =
      .done ⟨[(7, ⟨StateDefault, []⟩)],
        [.send 8 "Что вы хотите сделать?"
          [[("Добавить событие", "add_event"), ("Мои события", "list_events")],
           [("Настройки", "settings"), ("Помощь", "help")]]]⟩ ∧
    handleUpdate (Tables.mk [] []).toDB ⟨2024, 3, 10, 10, 0, 0, 0⟩
        ⟨[(7, ⟨StateEditEventField, [("event_id", .int64 5)]⟩)], []⟩
        (.message (textMessage 7 8 "hello")) =
      .done ⟨[(7, ⟨StateDefault, []⟩)],
        [.send 8 "Что вы хотите сделать?"
          [[("Добавить событие", "add_event"), ("Мои события", "list_events")],
           [("Настройки", "settings"), ("Помощь", "help")]]]⟩ ∧
    StateDefault ≠ StateAddEventType ∧ StateDefault ≠ StateEditEventField := by
  decide

/-- C13, amended. For a text message that is not a command: when the text fails the
validation of the state (`StateAddEventDate` with a text `FormatDate` rejects,
`StateAddEventNotify` with a text that is not an integer in 1..30, `StateSetNotifyTime`
with a text `ValidateTime` rejects, `StateEditEventValue` with the scratch entries typed,
the event lookup not in error and the field `date` or `notify_days` with such a text),
the state table is left as it was, so the resulting tag is the input tag, and exactly
one message is sent; in a state that expects a button (`StateAddEventType`,
`StateEditEventField`) the user is reset to `StateDefault` with empty scratch data, the
other users keep their records, and exactly one message, the main menu, is sent. -/
theorem invalid_text_outcome (db : DB) (now : Time) (b : Bot) (m : Message)
    (hc : m.IsCommand = false) :
    ((((b.stateOf m.FromID).State = StateAddEventDate ∧ ∃ err, FormatDate m.Text = .error err) ∨
      ((b.stateOf m.FromID).State = StateAddEventNotify ∧
        ¬ ∃ n, Atoi m.Text = .ok n ∧ 1 ≤ n ∧ n ≤ 30) ∨
      ((b.stateOf m.FromID).State = StateSetNotifyTime ∧
        ∃ err, ValidateTime m.Text = .error err) ∨
      ((b.stateOf m.FromID).State = StateEditEventValue ∧
        (∃ eventID eventPtr,
          dataGet (b.stateOf m.FromID).CurrentData "event_id" = some (.int64 eventID) ∧
          db.GetEventByID eventID = .ok eventPtr) ∧
        ((dataGet (b.stateOf m.FromID).CurrentData "field" = some (.str "date") ∧
            ∃ err, FormatDate m.Text = .error err) ∨
         (dataGet (b.stateOf m.FromID).CurrentData "field" = some (.str "notify_days") ∧
            ¬ ∃ n, Atoi m.Text = .ok n ∧ 1 ≤ n ∧ n ≤ 30)))) →
      ∃ text, handleMessage db now b m =
        .done ⟨b.UserStates, b.calls ++ [.send m.ChatID text []]⟩) ∧
    (((b.stateOf m.FromID).State = StateAddEventType ∨
      (b.stateOf m.FromID).State = StateEditEventField) →
      ∃ b1, handleMessage db now b m = .done b1 ∧
        b1.stateOf m.FromID = ⟨StateDefault, []⟩ ∧
        (∀ v, v ≠ m.FromID → b1.stateOf v = b.stateOf v) ∧
        b1.calls = b.calls ++
          [.send m.ChatID "Что вы хотите сделать?"
            [[("Добавить событие", "add_event"), ("Мои события", "list_events")],
             [("Настройки", "settings"), ("Помощь", "help")]]]) := by
  rw [handleMessage_text db now b m hc]
  constructor
  · rintro (⟨hs, err, he⟩ | ⟨hs, hn⟩ | ⟨hs, err, he⟩ | ⟨hs, ⟨eventID, eventPtr, hi, hg⟩,
      (⟨hf, err, he⟩ | ⟨hf, hn⟩)⟩)
    · exact ⟨_, handleText_date_invalid db b m err hs he⟩
    · exact ⟨_, handleText_notify_invalid db b m hs hn⟩
    · exact ⟨_, handleText_time_invalid db b m err hs he⟩
    · exact ⟨_, handleText_editDate_invalid db b m err eventID eventPtr hs hf hi hg he⟩
    · exact ⟨_, handleText_editNotify_invalid db b m eventID eventPtr hs hf hi hg hn⟩
  · intro hs
    refine ⟨_, handleText_button_state db b m hs, ?_, fun v hv => ?_, ?_⟩
    · rw [stateOf_SendMainMenu, stateOf_ResetUserState, if_pos rfl]
    · rw [stateOf_SendMainMenu, stateOf_ResetUserState, if_neg hv]
    · rfl

set_option maxRecDepth 100000 in
/-- C13 amended, at the date edit with the text "31.02.2024" and at a free text in
`StateAddEventType`. -/
theorem invalid_text_outcome_witness :
    (∃ text, handleMessage (Tables.mk [] [⟨5, 1, "t", "Другое", "2000-01-01", 3, ""⟩]).toDB
        ⟨2024, 3, 10, 10, 0, 0, 0⟩
        ⟨[(7, ⟨StateEditEventValue, [("event_id", .int64 5), ("field", .str "date")]⟩)], []⟩
        (textMessage 7 8 "31.02.2024") =
      .done ⟨[(7, ⟨StateEditEventValue, [("event_id", .int64 5), ("field", .str "date")]⟩)],
        [] ++ [.send 8 text []]⟩) ∧
    (∃ b1, handleMessage (Tables.mk [] []).toDB ⟨2024, 3, 10, 10, 0, 0, 0⟩
        ⟨[(7, ⟨StateAddEventType, [("title", .str "t")]⟩)], []⟩ (textMessage 7 8 "hello") =
          .done b1 ∧
        b1.stateOf 7 = ⟨StateDefault, []⟩ ∧
        (∀ v, v ≠ 7 → b1.stateOf v =
          (⟨[(7, ⟨StateAddEventType, [("title", .str "t")]⟩)], []⟩ : Bot).stateOf v) ∧
        b1.calls = [] ++
          [.send 8 "Что вы хотите сделать?"
            [[("Добавить событие", "add_event"), ("Мои события", "list_events")],
             [("Настройки", "settings"), ("Помощь", "help")]]]) :=
  ⟨(invalid_text_outcome (Tables.mk [] [⟨5, 1, "t", "Другое", "2000-01-01", 3, ""⟩]).toDB
      ⟨2024, 3, 10, 10, 0, 0, 0⟩
      ⟨[(7, ⟨StateEditEventValue, [("event_id", .int64 5), ("field", .str "date")]⟩)], []⟩
      (textMessage 7 8 "31.02.2024") rfl).1
      (Or.inr (Or.inr (Or.inr ⟨by decide, ⟨5, some ⟨5, 1, "t", "Другое", "2000-01-01", 3, ""⟩,
        by decide, by decide⟩, Or.inl ⟨by decide, "несуществующая дата", by decide⟩⟩))),
   (invalid_text_outcome (Tables.mk [] []).toDB ⟨2024, 3, 10, 10, 0, 0, 0⟩
      ⟨[(7, ⟨StateAddEventType, [("title", .str "t")]⟩)], []⟩ (textMessage 7 8 "hello") rfl).2
      (Or.inl (by decide))⟩

/-! ## Callback tokens with a payload -/

theorem hasPrefixOf_append (p t : String) : hasPrefixOf (p ++ t) p = true := by
  unfold hasPrefixOf
  rw [String.data_append]
  exact List.isPrefixOf_iff_prefix.mpr (List.prefix_append _ _)

theorem trimPrefixOf_append (p t : String) : trimPrefixOf (p ++ t) p = t := by
  unfold trimPrefixOf
  rw [if_pos (hasPrefixOf_append p t), String.data_append, List.drop_left]

theorem append_ne_literal (p t lit : String) (h : hasPrefixOf lit p = false) :
    p ++ t ≠ lit := by
  intro e
  rw [← e, hasPrefixOf_append] at h
  exact Bool.noConfusion h

theorem hasPrefixOf_append_false (p q t : String) (h1 : hasPrefixOf p q = false)
    (h2 : hasPrefixOf q p = false) : hasPrefixOf (p ++ t) q = false := by
  unfold hasPrefixOf at *
  rw [String.data_append]
  cases h : q.data.isPrefixOf (p.data ++ t.data) with
  | false => rfl
  | true =>
    have hq : q.data <+: p.data ++ t.data := List.isPrefixOf_iff_prefix.mp h
    have hp : p.data <+: p.data ++ t.data := List.prefix_append _ _
    rcases List.prefix_or_prefix_of_prefix hq hp with h3 | h3
    · rw [List.isPrefixOf_iff_prefix.mpr h3] at h1
      exact Bool.noConfusion h1
    · rw [List.isPrefixOf_iff_prefix.mpr h3] at h2
      exact Bool.noConfusion h2

theorem handleCallbackQuery_setType (db : DB) (now : Time) (b : Bot) (id : String) (u c : Int)
    (newType : String) :
    handleCallbackQuery db now b ⟨id, u, c, "set_type:" ++ newType⟩ =
      if (b.stateOf u).State = StateEditEventValue ∧
          dataGet (b.stateOf u).CurrentData "field" = some (.str "type") then
        match asInt64 (dataGet (b.stateOf u).CurrentData "event_id") with
        | none => .crash ((b.GetUserState u).2.call (.answerCallback id))
        | some eventID =>
          match db.GetEventByID eventID with
          | .error _ =>
            .done ((((b.GetUserState u).2.call (.answerCallback id)).Send c
              "❌ Произошла ошибка при редактировании события." []).ResetUserState u)
          | .ok none => .crash ((b.GetUserState u).2.call (.answerCallback id))
          | .ok (some event) =>
            saveEdited db ((b.GetUserState u).2.call (.answerCallback id)) u c
              { event with EventType := newType }
      else .done ((b.GetUserState u).2.call (.answerCallback id)) := by
  unfold handleCallbackQuery
  simp only [GetUserState_fst]
  rw [if_neg (append_ne_literal _ _ _ (by decide)),
    if_neg (append_ne_literal _ _ _ (by decide)),
    if_neg (append_ne_literal _ _ _ (by decide)),
    if_neg (append_ne_literal _ _ _ (by decide)),
    if_neg (append_ne_literal _ _ _ (by decide)),
    if_neg (append_ne_literal _ _ _ (by decide)),
    if_neg (by rw [hasPrefixOf_append_false _ _ _ (by decide) (by decide)]; decide),
    if_neg (by rw [hasPrefixOf_append_false _ _ _ (by decide) (by decide)]; decide),
    if_neg (by rw [hasPrefixOf_append_false _ _ _ (by decide) (by decide)]; decide),
    if_neg (by rw [hasPrefixOf_append_false _ _ _ (by decide) (by decide)]; decide),
    if_pos (hasPrefixOf_append _ _), trimPrefixOf_append]

theorem handleCallbackQuery_editField (db : DB) (now : Time) (b : Bot) (id : String) (u c : Int)
    (field : String) :
    handleCallbackQuery db now b ⟨id, u, c, "edit_field:" ++ field⟩ =
      .done (((((b.GetUserState u).2.call (.answerCallback id)).SaveUserData u "field"
          (.str field)).SetUserState u StateEditEventValue).Send c
        (if field = "title" then "Введите новое название события:"
         else if field = "type" then "Выберите новый тип события:"
         else if field = "date" then "Введите новую дату события в формате ДД.ММ.ГГГГ:"
         else if field = "notify_days" then
           "За сколько дней до события отправлять напоминание? (введите число от 1 до 30):"
         else if field = "description" then "Введите новое описание события:"
         else "Выберите поле для редактирования:")
        (if field = "type" then
          EventTypes.map (fun eventType => [(eventType, "set_type:" ++ eventType)])
         else [])) := by
  unfold handleCallbackQuery
  simp only [GetUserState_fst]
  rw [if_neg (append_ne_literal _ _ _ (by decide)),
    if_neg (append_ne_literal _ _ _ (by decide)),
    if_neg (append_ne_literal _ _ _ (by decide)),
    if_neg (append_ne_literal _ _ _ (by decide)),
    if_neg (append_ne_literal _ _ _ (by decide)),
    if_neg (append_ne_literal _ _ _ (by decide)),
    if_neg (by rw [hasPrefixOf_append_false _ _ _ (by decide) (by decide)]; decide),
    if_neg (by rw [hasPrefixOf_append_false _ _ _ (by decide) (by decide)]; decide),
    if_neg (by rw [hasPrefixOf_append_false _ _ _ (by decide) (by decide)]; decide),
    if_pos (hasPrefixOf_append _ _), trimPrefixOf_append]
  split_ifs <;> first | rfl | (subst_vars; simp_all)

/-! ## C17: a store call that fails -/

theorem saveEdited_error (db : DB) (b : Bot) (u c : Int) (event : Event) (err : String)
    (h : db.UpdateEvent event = .error err) :
    saveEdited db b u c event =
      .done (((b.call (.updateEvent event)).Send c
        "❌ Произошла ошибка при сохранении изменений." []).ResetUserState u) := by
  unfold saveEdited
  simp only [h]

theorem saveEdited_ok (db : DB) (b : Bot) (u c : Int) (event : Event)
    (h : db.UpdateEvent event = .ok ()) :
    saveEdited db b u c event =
      .done ((((b.call (.updateEvent event)).Send c
        (eventSummary "✅ Событие успешно обновлено!" event) []).ResetUserState u).SendMainMenu
        c) := by
  unfold saveEdited
  simp only [h]

theorem handleText_editValue_found (db : DB) (b : Bot) (m : Message) (field : String)
    (eventID : Int) (event : Event)
    (hs : (b.stateOf m.FromID).State = StateEditEventValue)
    (hf : dataGet (b.stateOf m.FromID).CurrentData "field" = some (.str field))
    (hi : dataGet (b.stateOf m.FromID).CurrentData "event_id" = some (.int64 eventID))
    (hg : db.GetEventByID eventID = .ok (some event))
    (hdate : field = "date" → ∃ d, FormatDate m.Text = .ok d)
    (hdays : field = "notify_days" → ∃ n, Atoi m.Text = .ok n ∧ 1 ≤ n ∧ n ≤ 30) :
    ∃ edited, handleText db b m = saveEdited db b m.FromID m.ChatID edited ∧
      (field = "title" → edited = { event with Title := m.Text }) ∧
      (field = "date" → FormatDate m.Text = .ok edited.EventDate ∧
        edited = { event with EventDate := edited.EventDate }) ∧
      (field = "notify_days" → Atoi m.Text = .ok edited.NotifyDays ∧
        edited = { event with NotifyDays := edited.NotifyDays }) ∧
      (field = "description" → edited = { event with Description := m.Text }) ∧
      (field ≠ "title" → field ≠ "date" → field ≠ "notify_days" → field ≠ "description" →
        edited = event) := by
  rw [handleText_editValue db b m hs, hf, hi]
  simp only [asString, asInt64, hg]
  by_cases h1 : field = "title"
  · subst h1
    refine ⟨_, by rw [if_pos rfl], fun _ => rfl, ?_, ?_, ?_, ?_⟩ <;> intro h <;>
      exact absurd h (by decide)
  rw [if_neg h1]
  by_cases h2 : field = "date"
  · subst h2
    obtain ⟨d, hd⟩ := hdate rfl
    rw [if_pos rfl, hd]
    refine ⟨_, rfl, ?_, fun _ => ⟨rfl, rfl⟩, ?_, ?_, ?_⟩ <;> intro h <;>
      first
        | exact absurd h (by decide)
        | (intro h'; exact absurd rfl h')
  rw [if_neg h2]
  by_cases h3 : field = "notify_days"
  · subst h3
    obtain ⟨n, hn, hn1, hn2⟩ := hdays rfl
    rw [if_pos rfl, hn]
    simp only []
    rw [if_neg (by omega)]
    refine ⟨_, rfl, ?_, ?_, fun _ => ⟨rfl, rfl⟩, ?_, ?_⟩ <;> intro h <;>
      first
        | exact absurd h (by decide)
        | (intro _ h'; exact absurd rfl h')
  rw [if_neg h3]
  by_cases h4 : field = "description"
  · subst h4
    rw [if_pos rfl]
    refine ⟨_, rfl, ?_, ?_, ?_, fun _ => rfl, ?_⟩ <;> intro h <;>
      first
        | exact absurd h (by decide)
        | (intro _ _ h'; exact absurd rfl h')
  rw [if_neg h4]
  exact ⟨_, rfl, fun h => absurd h h1, fun h => absurd h h2, fun h => absurd h h3,
    fun h => absurd h h4, fun _ _ _ _ => rfl⟩

theorem dataGet_after_description (d : List (String × Value)) (v : Value) (k : String)
    (hk : k ≠ "description") : dataGet (dataSet d "description" v) k = dataGet d k := by
  rw [dataGet_dataSet, if_neg hk]

theorem handleMessage_skip (db : DB) (now : Time) (b : Bot) (m : Message)
    (hk : m.Command = "skip") (hs : (b.stateOf m.FromID).State = StateAddEventDesc) :
    handleMessage db now b m =
      handleText db b
        { MessageID := m.MessageID, FromID := m.FromID, UserName := m.UserName,
          FirstName := m.FirstName, LastName := m.LastName, ChatID := m.ChatID,
          Text := "", Entities := [] } := by
  have hc : m.IsCommand = true := by
    cases h : m.IsCommand with
    | true => rfl
    | false =>
      rw [Message.Command, h] at hk
      simp only [Bool.false_eq_true, if_false] at hk
      exact absurd hk (by decide)
  have hp : (b.GetUserState m.FromID).2 = b := GetUserState_of_present b _ (by rw [hs]; decide)
  simp only [handleMessage, hc, if_true, handleCommand, hk, GetUserState_fst, hs, hp]
  simp +decide only [if_true, if_false]

theorem handleText_desc_lookup_error (db : DB) (b : Bot) (m : Message) (err : String)
    (hs : (b.stateOf m.FromID).State = StateAddEventDesc)
    (he : db.GetUserByTelegramID m.FromID = .error err) :
    ∃ b1, handleText db b m = .done b1 ∧
      b1.stateOf m.FromID = ⟨StateDefault, []⟩ ∧
      b1.calls = b.calls ++ [.send m.ChatID "❌ Произошла ошибка при создании события." []] := by
  rw [handleText_desc db b m hs]
  simp only [he]
  refine ⟨_, rfl, ?_, ?_⟩
  · rw [stateOf_ResetUserState, if_pos rfl]
  · rw [calls_ResetUserState, calls_Send, calls_SaveUserData]

theorem handleText_desc_create_error (db : DB) (b : Bot) (m : Message) (user : User)
    (title eventType eventDate : String) (notifyDays : Int) (err : String)
    (hs : (b.stateOf m.FromID).State = StateAddEventDesc)
    (hu : db.GetUserByTelegramID m.FromID = .ok (some user))
    (h1 : dataGet (b.stateOf m.FromID).CurrentData "title" = some (.str title))
    (h2 : dataGet (b.stateOf m.FromID).CurrentData "type" = some (.str eventType))
    (h3 : dataGet (b.stateOf m.FromID).CurrentData "event_date" = some (.str eventDate))
    (h4 : dataGet (b.stateOf m.FromID).CurrentData "notify_days" = some (.int notifyDays))
    (he : db.CreateEvent ⟨0, user.ID, title, eventType, eventDate, notifyDays,
      if m.Text = "/skip" then "" else m.Text⟩ = .error err) :
    ∃ b1, handleText db b m = .done b1 ∧
      b1.stateOf m.FromID = ⟨StateDefault, []⟩ ∧
      b1.calls = b.calls ++
        [.createEvent ⟨0, user.ID, title, eventType, eventDate, notifyDays,
            if m.Text = "/skip" then "" else m.Text⟩,
         .send m.ChatID "❌ Произошла ошибка при сохранении события." []] := by
  rw [handleText_desc db b m hs]
  simp only [hu, stateOf_SaveUserData, if_true, dataGet_after_description _ _ "title"
    (by decide), dataGet_after_description _ _ "type" (by decide),
    dataGet_after_description _ _ "event_date" (by decide),
    dataGet_after_description _ _ "notify_days" (by decide), h1, h2, h3, h4, asString, asInt,
    he]
  refine ⟨_, rfl, ?_, ?_⟩
  · rw [stateOf_ResetUserState, if_pos rfl]
  · rw [calls_ResetUserState, calls_Send, calls_call, calls_SaveUserData, List.append_assoc]
    rfl

/-- C17. A store call that fails with an error makes the handler send exactly one
message, the failure message, and reset the user to `StateDefault` with empty scratch
data; the calls made are those listed.  For a text message that is not a command: in
`StateAddEventDesc` when the user lookup fails and when `CreateEvent` fails; in
`StateSetNotifyTime` with a valid time when the user lookup fails and when
`SetUserNotificationTime` fails; in `StateEditEventValue` when `GetEventByID` fails and,
for a text valid for the field, when `UpdateEvent` fails.  For the callback
`set_type:`, taken in `StateEditEventValue` with the field `type`: when `GetEventByID`
fails and when `UpdateEvent` fails.  For the command `/skip` in `StateAddEventDesc`,
which runs the description step with the empty text: when the user lookup fails and
when `CreateEvent` fails. -/
theorem store_error_resets (db : DB) (now : Time) (b : Bot) :
    (∀ m : Message, m.IsCommand = false →
      (b.stateOf m.FromID).State = StateAddEventDesc →
      ((∀ err, db.GetUserByTelegramID m.FromID = .error err →
        ∃ b1, handleMessage db now b m = .done b1 ∧
          b1.stateOf m.FromID = ⟨StateDefault, []⟩ ∧
          b1.calls = b.calls ++
            [.send m.ChatID "❌ Произошла ошибка при создании события." []]) ∧
       (∀ user title eventType eventDate notifyDays err,
        db.GetUserByTelegramID m.FromID = .ok (some user) →
        dataGet (b.stateOf m.FromID).CurrentData "title" = some (.str title) →
        dataGet (b.stateOf m.FromID).CurrentData "type" = some (.str eventType) →
        dataGet (b.stateOf m.FromID).CurrentData "event_date" = some (.str eventDate) →
        dataGet (b.stateOf m.FromID).CurrentData "notify_days" = some (.int notifyDays) →
        db.CreateEvent ⟨0, user.ID, title, eventType, eventDate, notifyDays,
          if m.Text = "/skip" then "" else m.Text⟩ = .error err →
        ∃ b1, handleMessage db now b m = .done b1 ∧
          b1.stateOf m.FromID = ⟨StateDefault, []⟩ ∧
          b1.calls = b.calls ++
            [.createEvent ⟨0, user.ID, title, eventType, eventDate, notifyDays,
                if m.Text = "/skip" then "" else m.Text⟩,
             .send m.ChatID "❌ Произошла ошибка при сохранении события." []]))) ∧
    (∀ (m : Message) (formattedTime : String), m.IsCommand = false →
      (b.stateOf m.FromID).State = StateSetNotifyTime →
      ValidateTime m.Text = .ok formattedTime →
      ((∀ err, db.GetUserByTelegramID m.FromID = .error err →
        ∃ b1, handleMessage db now b m = .done b1 ∧
          b1.stateOf m.FromID = ⟨StateDefault, []⟩ ∧
          b1.calls = b.calls ++
            [.send m.ChatID "❌ Произошла ошибка при обновлении настроек." []]) ∧
       (∀ user err, db.GetUserByTelegramID m.FromID = .ok (some user) →
        db.SetUserNotificationTime user.ID formattedTime = .error err →
        ∃ b1, handleMessage db now b m = .done b1 ∧
          b1.stateOf m.FromID = ⟨StateDefault, []⟩ ∧
          b1.calls = b.calls ++
            [.setUserNotificationTime user.ID formattedTime,
             .send m.ChatID "❌ Произошла ошибка при сохранении настроек." []]))) ∧
    (∀ (m : Message) (field : String) (eventID : Int), m.IsCommand = false →
      (b.stateOf m.FromID).State = StateEditEventValue →
      dataGet (b.stateOf m.FromID).CurrentData "field" = some (.str field) →
      dataGet (b.stateOf m.FromID).CurrentData "event_id" = some (.int64 eventID) →
      ((∀ err, db.GetEventByID eventID = .error err →
        ∃ b1, handleMessage db now b m = .done b1 ∧
          b1.stateOf m.FromID = ⟨StateDefault, []⟩ ∧
          b1.calls = b.calls ++
            [.send m.ChatID "❌ Произошла ошибка при редактировании события." []]) ∧
       (∀ event, db.GetEventByID eventID = .ok (some event) →
        (field = "date" → ∃ d, FormatDate m.Text = .ok d) →
        (field = "notify_days" → ∃ n, Atoi m.Text = .ok n ∧ 1 ≤ n ∧ n ≤ 30) →
        (∀ e, ∃ err, db.UpdateEvent e = .error err) →
        ∃ b1 edited, handleMessage db now b m = .done b1 ∧
          b1.stateOf m.FromID = ⟨StateDefault, []⟩ ∧
          b1.calls = b.calls ++
            [.updateEvent edited,
             .send m.ChatID "❌ Произошла ошибка при сохранении изменений." []]))) ∧
    (∀ (id : String) (u c : Int) (newType : String) (eventID : Int),
      (b.stateOf u).State = StateEditEventValue →
      dataGet (b.stateOf u).CurrentData "field" = some (.str "type") →
      dataGet (b.stateOf u).CurrentData "event_id" = some (.int64 eventID) →
      ((∀ err, db.GetEventByID eventID = .error err →
        ∃ b1, handleCallbackQuery db now b ⟨id, u, c, "set_type:" ++ newType⟩ = .done b1 ∧
          b1.stateOf u = ⟨StateDefault, []⟩ ∧
          b1.calls = b.calls ++
            [.answerCallback id,
             .send c "❌ Произошла ошибка при редактировании события." []]) ∧
       (∀ event err, db.GetEventByID eventID = .ok (some event) →
        db.UpdateEvent { event with EventType := newType } = .error err →
        ∃ b1, handleCallbackQuery db now b ⟨id, u, c, "set_type:" ++ newType⟩ = .done b1 ∧
          b1.stateOf u = ⟨StateDefault, []⟩ ∧
          b1.calls = b.calls ++
            [.answerCallback id, .updateEvent { event with EventType := newType },
             .send c "❌ Произошла ошибка при сохранении изменений." []]))) ∧
    (∀ m : Message, m.Command = "skip" →
      (b.stateOf m.FromID).State = StateAddEventDesc →
      ((∀ err, db.GetUserByTelegramID m.FromID = .error err →
        ∃ b1, handleMessage db now b m = .done b1 ∧
          b1.stateOf m.FromID = ⟨StateDefault, []⟩ ∧
          b1.calls = b.calls ++
            [.send m.ChatID "❌ Произошла ошибка при создании события." []]) ∧
       (∀ user title eventType eventDate notifyDays err,
        db.GetUserByTelegramID m.FromID = .ok (some user) →
        dataGet (b.stateOf m.FromID).CurrentData "title" = some (.str title) →
        dataGet (b.stateOf m.FromID).CurrentData "type" = some (.str eventType) →
        dataGet (b.stateOf m.FromID).CurrentData "event_date" = some (.str eventDate) →
        dataGet (b.stateOf m.FromID).CurrentData "notify_days" = some (.int notifyDays) →
        db.CreateEvent ⟨0, user.ID, title, eventType, eventDate, notifyDays, ""⟩ = .error err →
        ∃ b1, handleMessage db now b m = .done b1 ∧
          b1.stateOf m.FromID = ⟨StateDefault, []⟩ ∧
          b1.calls = b.calls ++
            [.createEvent ⟨0, user.ID, title, eventType, eventDate, notifyDays, ""⟩,
             .send m.ChatID "❌ Произошла ошибка при сохранении события." []]))) := by
  refine ⟨fun m hc hs => ⟨fun err he => ?_, fun user title eventType eventDate notifyDays err
      hu h1 h2 h3 h4 he => ?_⟩,
    fun m formattedTime hc hs hv => ⟨fun err he => ?_, fun user err hu he => ?_⟩,
    fun m field eventID hc hs hf hi => ⟨fun err he => ?_, fun event hg hdate hdays hupd => ?_⟩,
    fun id u c newType eventID hs hf hi => ⟨fun err he => ?_, fun event err hg he => ?_⟩,
    fun m hk hs => ⟨fun err he => ?_, fun user title eventType eventDate notifyDays err
      hu h1 h2 h3 h4 he => ?_⟩⟩
  · rw [handleMessage_text db now b m hc]
    exact handleText_desc_lookup_error db b m err hs he
  · rw [handleMessage_text db now b m hc]
    exact handleText_desc_create_error db b m user title eventType eventDate notifyDays err
      hs hu h1 h2 h3 h4 he
  · rw [handleMessage_text db now b m hc, handleText_setNotifyTime db b m hs]
    simp only [hv, he]
    refine ⟨_, rfl, ?_, ?_⟩
    · rw [stateOf_ResetUserState, if_pos rfl]
    · rw [calls_ResetUserState, calls_Send]
  · rw [handleMessage_text db now b m hc, handleText_setNotifyTime db b m hs]
    simp only [hv, hu, he]
    refine ⟨_, rfl, ?_, ?_⟩
    · rw [stateOf_ResetUserState, if_pos rfl]
    · rw [calls_ResetUserState, calls_Send, calls_call, List.append_assoc]
      rfl
  · rw [handleMessage_text db now b m hc, handleText_editValue db b m hs, hf, hi]
    simp only [asString, asInt64, he]
    refine ⟨_, rfl, ?_, ?_⟩
    · rw [stateOf_ResetUserState, if_pos rfl]
    · rw [calls_ResetUserState, calls_Send]
  · obtain ⟨edited, hrun, -⟩ :=
      handleText_editValue_found db b m field eventID event hs hf hi hg hdate hdays
    obtain ⟨err, he⟩ := hupd edited
    rw [handleMessage_text db now b m hc, hrun, saveEdited_error db b _ _ edited err he]
    refine ⟨_, edited, rfl, ?_, ?_⟩
    · rw [stateOf_ResetUserState, if_pos rfl]
    · rw [calls_ResetUserState, calls_Send, calls_call, List.append_assoc]
      rfl
  · have hp : (b.GetUserState u).2 = b := GetUserState_of_present b _ (by rw [hs]; decide)
    rw [handleCallbackQuery_setType, if_pos ⟨hs, hf⟩, hi, hp]
    simp only [asInt64, he]
    refine ⟨_, rfl, ?_, ?_⟩
    · rw [stateOf_ResetUserState, if_pos rfl]
    · rw [calls_ResetUserState, calls_Send, calls_call, List.append_assoc]
      rfl
  · have hp : (b.GetUserState u).2 = b := GetUserState_of_present b _ (by rw [hs]; decide)
    rw [handleCallbackQuery_setType, if_pos ⟨hs, hf⟩, hi, hp]
    simp only [asInt64, hg]
    rw [saveEdited_error db _ _ _ _ err he]
    refine ⟨_, rfl, ?_, ?_⟩
    · rw [stateOf_ResetUserState, if_pos rfl]
    · rw [calls_ResetUserState, calls_Send, calls_call, calls_call, List.append_assoc,
        List.append_assoc]
      rfl
  · rw [handleMessage_skip db now b m hk hs]
    exact handleText_desc_lookup_error db b _ err hs he
  · rw [handleMessage_skip db now b m hk hs]
    exact handleText_desc_create_error db b
      { MessageID := m.MessageID, FromID := m.FromID, UserName := m.UserName,
        FirstName := m.FirstName, LastName := m.LastName, ChatID := m.ChatID,
        Text := "", Entities := [] } user title eventType eventDate notifyDays err
      hs hu h1 h2 h3 h4 he

set_option maxRecDepth 100000 in
/-- C17 at a store that fails every call (the description step, the callback
`set_type:` and the command `/skip`) and at a store that fails every write (the title
edit). -/
theorem store_error_resets_witness :
    (∃ b1, handleMessage failingStore ⟨2024, 3, 10, 10, 0, 0, 0⟩
        ⟨[(7, ⟨StateAddEventDesc, [("title", .str "t")]⟩)], []⟩ (textMessage 7 8 "d") =
          .done b1 ∧
        b1.stateOf 7 = ⟨StateDefault, []⟩ ∧
        b1.calls = [] ++ [.send 8 "❌ Произошла ошибка при создании события." []]) ∧
    (∃ b1 edited,
        handleMessage (readOnlyStore ⟨[], [⟨5, 1, "t", "Другое", "2000-01-01", 3, ""⟩]⟩)
          ⟨2024, 3, 10, 10, 0, 0, 0⟩
          ⟨[(7, ⟨StateEditEventValue, [("event_id", .int64 5), ("field", .str "title")]⟩)], []⟩
          (textMessage 7 8 "new") = .done b1 ∧
        b1.stateOf 7 = ⟨StateDefault, []⟩ ∧
        b1.calls = [] ++
          [.updateEvent edited, .send 8 "❌ Произошла ошибка при сохранении изменений." []]) ∧
    (∃ b1, handleCallbackQuery failingStore ⟨2024, 3, 10, 10, 0, 0, 0⟩
        ⟨[(7, ⟨StateEditEventValue, [("event_id", .int64 5), ("field", .str "type")]⟩)], []⟩
        ⟨"q", 7, 8, "set_type:" ++ "Другое"⟩ = .done b1 ∧
        b1.stateOf 7 = ⟨StateDefault, []⟩ ∧
        b1.calls = [] ++
          [.answerCallback "q", .send 8 "❌ Произошла ошибка при редактировании события." []]) ∧
    (∃ b1, handleMessage failingStore ⟨2024, 3, 10, 10, 0, 0, 0⟩
        ⟨[(7, ⟨StateAddEventDesc, [("title", .str "t")]⟩)], []⟩ (commandMessage 7 8 "/skip") =
          .done b1 ∧
        b1.stateOf 7 = ⟨StateDefault, []⟩ ∧
        b1.calls = [] ++ [.send 8 "❌ Произошла ошибка при создании события." []]) :=
  ⟨((store_error_resets failingStore ⟨2024, 3, 10, 10, 0, 0, 0⟩
      ⟨[(7, ⟨StateAddEventDesc, [("title", .str "t")]⟩)], []⟩).1
      (textMessage 7 8 "d") rfl (by decide)).1 "store error" rfl,
   ((store_error_resets (readOnlyStore ⟨[], [⟨5, 1, "t", "Другое", "2000-01-01", 3, ""⟩]⟩)
      ⟨2024, 3, 10, 10, 0, 0, 0⟩
      ⟨[(7, ⟨StateEditEventValue, [("event_id", .int64 5), ("field", .str "title")]⟩)],
        []⟩).2.2.1
      (textMessage 7 8 "new") "title" 5 rfl (by decide) (by decide) (by decide)).2
      ⟨5, 1, "t", "Другое", "2000-01-01", 3, ""⟩ (by decide)
      (fun h => absurd h (by decide)) (fun h => absurd h (by decide))
      (fun _ => ⟨"store error", rfl⟩),
   ((store_error_resets failingStore ⟨2024, 3, 10, 10, 0, 0, 0⟩
      ⟨[(7, ⟨StateEditEventValue, [("event_id", .int64 5), ("field", .str "type")]⟩)],
        []⟩).2.2.2.1
      "q" 7 8 "Другое" 5 (by decide) (by decide) (by decide)).1 "store error" rfl,
   ((store_error_resets failingStore ⟨2024, 3, 10, 10, 0, 0, 0⟩
      ⟨[(7, ⟨StateAddEventDesc, [("title", .str "t")]⟩)], []⟩).2.2.2.2
      (commandMessage 7 8 "/skip") (by decide) (by decide)).1 "store error" rfl⟩

/-! ## C18: the title text -/

set_option maxRecDepth 1000000 in
/-- C18 as stated fails: no handler tests the title for emptiness.  The add
flow run with the empty text as title creates an event whose title is empty, and the
title edit with the empty text writes an event whose title is empty. -/
theorem empty_title_is_stored :
    ((runUpdates NewBot
        [((oneEventTables "2000-01-01" 3).toDB, ⟨2024, 3, 10, 10, 0, 0, 0⟩,
            .message (commandMessage 1 1 "/add")),
         ((oneEventTables "2000-01-01" 3).toDB, ⟨2024, 3, 10, 10, 0, 0, 0⟩,
            .message (textMessage 1 1 "")),
         ((oneEventTables "2000-01-01" 3).toDB, ⟨2024, 3, 10, 10, 0, 0, 0⟩,
            .callback ⟨"q", 1, 1, "type:Другое"⟩),
         ((oneEventTables "2000-01-01" 3).toDB, ⟨2024, 3, 10, 10, 0, 0, 0⟩,
            .message (textMessage 1 1 "15.03.1970")),
         ((oneEventTables "2000-01-01" 3).toDB, ⟨2024, 3, 10, 10, 0, 0, 0⟩,
            .message (textMessage 1 1 "3")),
         ((oneEventTables "2000-01-01" 3).toDB, ⟨2024, 3, 10, 10, 0, 0, 0⟩,
            .message (commandMessage 1 1 "/skip"))]).getLast?.map
        (fun out => out.bot.calls.filter isCreateEvent)) =
      some [.createEvent ⟨0, 1, "", "Другое", "1970-03-15", 3, ""⟩] ∧
    (handleUpdate (oneEventTables "2000-01-01" 3).toDB ⟨2024, 3, 10, 10, 0, 0, 0⟩
        ⟨[(1, ⟨StateEditEventValue, [("event_id", .int64 10), ("field", .str "title")]⟩)], []⟩
        (.message (textMessage 1 1 ""))).bot.calls.head? =
      some (.updateEvent ⟨10, 1, "", "День рождения", "2000-01-01", 3, ""⟩) := by
  decide

theorem saveEdited_calls (db : DB) (b : Bot) (u c : Int) (event : Event) :
    ∃ rest, (saveEdited db b u c event).bot.calls = b.calls ++ .updateEvent event :: rest ∧
      ∀ e ∈ rest, ∃ chatID text keyboard, e = .send chatID text keyboard := by
  cases h : db.UpdateEvent event with
  | error err =>
    rw [saveEdited_error db b u c event err h]
    refine ⟨[.send c "❌ Произошла ошибка при сохранении изменений." []], ?_, ?_⟩
    · simp only [Outcome.bot, calls_ResetUserState, calls_Send, calls_call, List.append_assoc,
        List.singleton_append]
    · intro e he
      rw [List.mem_singleton] at he
      exact ⟨_, _, _, he⟩
  | ok r =>
    rw [saveEdited_ok db b u c event h]
    refine ⟨[.send c (eventSummary "✅ Событие успешно обновлено!" event) [],
      .send c "Что вы хотите сделать?"
        [[("Добавить событие", "add_event"), ("Мои события", "list_events")],
         [("Настройки", "settings"), ("Помощь", "help")]]], ?_, ?_⟩
    · simp only [Outcome.bot, calls_SendMainMenu, calls_ResetUserState, calls_Send, calls_call,
        List.append_assoc, List.singleton_append, List.cons_append, List.nil_append]
    · intro e he
      simp only [List.mem_cons, List.mem_singleton, List.not_mem_nil, or_false] at he
      rcases he with he | he <;> exact ⟨_, _, _, he⟩

/-- C18, amended. For a text message that is not a command, the text is taken as the
title whatever it is, the empty text included: in `StateAddEventTitle` it is stored
under `title` and the user moves to `StateAddEventType`; in `StateEditEventValue` with
the field `title` and the event found, `UpdateEvent` is called with the event whose
title is the text, and the remaining calls are messages. -/
theorem title_text_is_unchecked (db : DB) (now : Time) (b : Bot) (m : Message)
    (hc : m.IsCommand = false) :
    ((b.stateOf m.FromID).State = StateAddEventTitle →
      ∃ b1, handleMessage db now b m = .done b1 ∧
        b1.stateOf m.FromID =
          ⟨StateAddEventType, dataSet (b.stateOf m.FromID).CurrentData "title" (.str m.Text)⟩) ∧
    (∀ eventID event, (b.stateOf m.FromID).State = StateEditEventValue →
      dataGet (b.stateOf m.FromID).CurrentData "field" = some (.str "title") →
      dataGet (b.stateOf m.FromID).CurrentData "event_id" = some (.int64 eventID) →
      db.GetEventByID eventID = .ok (some event) →
      ∃ rest, (handleMessage db now b m).bot.calls =
          b.calls ++ .updateEvent { event with Title := m.Text } :: rest ∧
        ∀ e ∈ rest, ∃ chatID text keyboard, e = .send chatID text keyboard) := by
  rw [handleMessage_text db now b m hc]
  refine ⟨fun hs => ?_, fun eventID event hs hf hi hg => ?_⟩
  · rw [handleText_title db b m hs]
    refine ⟨_, rfl, ?_⟩
    simp only [stateOf_Send, stateOf_SetUserState, stateOf_SaveUserData, if_true]
  · obtain ⟨edited, hrun, htitle, -⟩ :=
      handleText_editValue_found db b m "title" eventID event hs hf hi hg
        (fun h => absurd h (by decide)) (fun h => absurd h (by decide))
    rw [hrun, htitle rfl]
    exact saveEdited_calls db b _ _ _

set_option maxRecDepth 100000 in
/-- C18 amended, at the empty text in `StateAddEventTitle` and in the title edit of
event 10. -/
theorem title_text_is_unchecked_witness :
    (∃ b1, handleMessage (oneEventTables "2000-01-01" 3).toDB ⟨2024, 3, 10, 10, 0, 0, 0⟩
        ⟨[(1, ⟨StateAddEventTitle, []⟩)], []⟩ (textMessage 1 1 "") = .done b1 ∧
      b1.stateOf 1 = ⟨StateAddEventType, dataSet [] "title" (.str "")⟩) ∧
    (∃ rest, (handleMessage (oneEventTables "2000-01-01" 3).toDB ⟨2024, 3, 10, 10, 0, 0, 0⟩
        ⟨[(1, ⟨StateEditEventValue, [("event_id", .int64 10), ("field", .str "title")]⟩)], []⟩
        (textMessage 1 1 "")).bot.calls =
          [] ++ .updateEvent ⟨10, 1, "", "День рождения", "2000-01-01", 3, ""⟩ :: rest ∧
        ∀ e ∈ rest, ∃ chatID text keyboard, e = .send chatID text keyboard) :=
  ⟨(title_text_is_unchecked (oneEventTables "2000-01-01" 3).toDB ⟨2024, 3, 10, 10, 0, 0, 0⟩
      ⟨[(1, ⟨StateAddEventTitle, []⟩)], []⟩ (textMessage 1 1 "") rfl).1 (by decide),
   (title_text_is_unchecked (oneEventTables "2000-01-01" 3).toDB ⟨2024, 3, 10, 10, 0, 0, 0⟩
      ⟨[(1, ⟨StateEditEventValue, [("event_id", .int64 10), ("field", .str "title")]⟩)], []⟩
      (textMessage 1 1 "") rfl).2 10 ⟨10, 1, "title", "День рождения", "2000-01-01", 3, ""⟩
      (by decide) (by decide) (by decide) (by decide)⟩

/-! ## C15: an event the store does not have -/

set_option maxRecDepth 1000000 in
/-- C15 fails on the code, which departs from its own sibling handlers.  With no
event 5 in the store, the callbacks `event:5` and `edit:5` answer with the not-found
message and leave the state table as it was; the text step of `StateEditEventValue` and
the callback `set_type:` assign to a field of the nil `*Event` that `GetEventByID`
returned and panic: no message is sent. -/
theorem absent_event_in_edit_panics :
    handleUpdate (Tables.mk [] []).toDB ⟨2024, 3, 10, 10, 0, 0, 0⟩
        ⟨[(7, ⟨StateDefault, []⟩)], []⟩ (.callback ⟨"q", 7, 8, "event:5"⟩) =
      .done ⟨[(7, ⟨StateDefault, []⟩)],
        [.answerCallback "q", .send 8 "❌ Событие не найдено." []]⟩ ∧
    handleUpdate (Tables.mk [] []).toDB ⟨2024, 3, 10, 10, 0, 0, 0⟩
        ⟨[(7, ⟨StateDefault, []⟩)], []⟩ (.callback ⟨"q", 7, 8, "edit:5"⟩) =
      .done ⟨[(7, ⟨StateDefault, []⟩)],
        [.answerCallback "q", .send 8 "❌ Событие не найдено." []]⟩ ∧
    handleUpdate (Tables.mk [] []).toDB ⟨2024, 3, 10, 10, 0, 0, 0⟩
        ⟨[(7, ⟨StateEditEventValue, [("event_id", .int64 5), ("field", .str "title")]⟩)], []⟩
        (.message (textMessage 7 8 "new")) =
      .crash ⟨[(7, ⟨StateEditEventValue, [("event_id", .int64 5), ("field", .str "title")]⟩)],
        []⟩ ∧
    handleUpdate (Tables.mk [] []).toDB ⟨2024, 3, 10, 10, 0, 0, 0⟩
        ⟨[(7, ⟨StateEditEventValue, [("event_id", .int64 5), ("field", .str "type")]⟩)], []⟩
        (.callback ⟨"q", 7, 8, "set_type:Другое"⟩) =
      .crash ⟨[(7, ⟨StateEditEventValue, [("event_id", .int64 5), ("field", .str "type")]⟩)],
        [.answerCallback "q"]⟩ := by
  decide

/-! ## C14: the edit of the type and the edit of the title -/

set_option maxRecDepth 1000000 in
/-- C14 as stated fails: the token `edit_field:type` moves the user to
`StateEditEventValue` like every other field token, and the token `set_type:` does
nothing unless the user is in `StateEditEventValue`: sent in `StateEditEventField` it
writes nothing and leaves the state as it was. -/
theorem type_edit_visits_edit_value :
    handleUpdate (oneEventTables "2000-01-01" 3).toDB ⟨2024, 3, 10, 10, 0, 0, 0⟩
        ⟨[(1, ⟨StateEditEventField, [("event_id", .int64 10)]⟩)], []⟩
        (.callback ⟨"q", 1, 1, "edit_field:type"⟩) =
      .done ⟨[(1, ⟨StateEditEventValue, [("event_id", .int64 10), ("field", .str "type")]⟩)],
        [.answerCallback "q",
         .send 1 "Выберите новый тип события:"
          (EventTypes.map (fun eventType => [(eventType, "set_type:" ++ eventType)]))]⟩ ∧
    handleUpdate (oneEventTables "2000-01-01" 3).toDB ⟨2024, 3, 10, 10, 0, 0, 0⟩
        ⟨[(1, ⟨StateEditEventField, [("event_id", .int64 10)]⟩)], []⟩
        (.callback ⟨"q", 1, 1, "set_type:Другое"⟩) =
      .done ⟨[(1, ⟨StateEditEventField, [("event_id", .int64 10)]⟩)], [.answerCallback "q"]⟩ := by
  decide

theorem runUpdates_two (b b1 b2 : Bot) (db1 db2 : DB) (now1 now2 : Time) (u1 u2 : Update)
    (h1 : handleUpdate db1 now1 b u1 = .done b1) (h2 : handleUpdate db2 now2 b1 u2 = .done b2) :
    runUpdates b [(db1, now1, u1), (db2, now2, u2)] = [.done b1, .done b2] := by
  simp only [runUpdates, h1, h2]

theorem scratch_after_field (d : List (String × Value)) (field : String) (eventID : Int)
    (hi : dataGet d "event_id" = some (.int64 eventID)) :
    dataGet (dataSet d "field" (.str field)) "field" = some (.str field) ∧
    dataGet (dataSet d "field" (.str field)) "event_id" = some (.int64 eventID) := by
  rw [dataGet_dataSet, dataGet_dataSet, if_pos rfl, if_neg (by decide)]
  exact ⟨rfl, hi⟩

/-- C14, amended. From `StateEditEventField` with the event `eventID` selected, the
token `edit_field:type` moves the user to `StateEditEventValue`; the token `set_type:`
that follows, with the event found and the write accepted, calls `UpdateEvent` with
the event carrying the new type and resets the user to `StateDefault` with empty
scratch data.  The token `edit_field:title` moves the user to `StateEditEventValue` too;
the text that follows calls `UpdateEvent` with the event carrying the text as title
and resets the user in the same way. -/
theorem edit_type_and_edit_title (db1 db2 : DB) (now1 now2 : Time) (b : Bot) (u c : Int)
    (q1 q2 newType : String) (m : Message) (eventID : Int) (event : Event)
    (hs : (b.stateOf u).State = StateEditEventField)
    (hi : dataGet (b.stateOf u).CurrentData "event_id" = some (.int64 eventID))
    (hg : db2.GetEventByID eventID = .ok (some event))
    (hw : ∀ e, db2.UpdateEvent e = .ok ())
    (hc : m.IsCommand = false) (hu : m.FromID = u) :
    (∃ b1 b2,
      runUpdates b
          [(db1, now1, .callback ⟨q1, u, c, "edit_field:" ++ "type"⟩),
           (db2, now2, .callback ⟨q2, u, c, "set_type:" ++ newType⟩)] =
        [.done b1, .done b2] ∧
      (b1.stateOf u).State = StateEditEventValue ∧
      b2.stateOf u = ⟨StateDefault, []⟩ ∧
      b2.calls = b1.calls ++
        [.answerCallback q2, .updateEvent { event with EventType := newType },
         .send c (eventSummary "✅ Событие успешно обновлено!"
            { event with EventType := newType }) [],
         .send c "Что вы хотите сделать?"
          [[("Добавить событие", "add_event"), ("Мои события", "list_events")],
           [("Настройки", "settings"), ("Помощь", "help")]]]) ∧
    (∃ b1 b2,
      runUpdates b
          [(db1, now1, .callback ⟨q1, u, c, "edit_field:" ++ "title"⟩),
           (db2, now2, .message m)] =
        [.done b1, .done b2] ∧
      (b1.stateOf u).State = StateEditEventValue ∧
      b2.stateOf u = ⟨StateDefault, []⟩ ∧
      b2.calls = b1.calls ++
        [.updateEvent { event with Title := m.Text },
         .send m.ChatID (eventSummary "✅ Событие успешно обновлено!"
            { event with Title := m.Text }) [],
         .send m.ChatID "Что вы хотите сделать?"
          [[("Добавить событие", "add_event"), ("Мои события", "list_events")],
           [("Настройки", "settings"), ("Помощь", "help")]]]) := by
  have hp : (b.GetUserState u).2 = b := GetUserState_of_present b _ (by rw [hs]; decide)
  subst hu
  constructor
  · have h1 := handleCallbackQuery_editField db1 now1 b q1 m.FromID c "type"
    rw [hp] at h1
    generalize hb1 : (((b.call (.answerCallback q1)).SaveUserData m.FromID "field"
      (.str "type")).SetUserState m.FromID StateEditEventValue).Send c
        (if "type" = "title" then "Введите новое название события:"
         else if "type" = "type" then "Выберите новый тип события:"
         else if "type" = "date" then "Введите новую дату события в формате ДД.ММ.ГГГГ:"
         else if "type" = "notify_days" then
           "За сколько дней до события отправлять напоминание? (введите число от 1 до 30):"
         else if "type" = "description" then "Введите новое описание события:"
         else "Выберите поле для редактирования:")
        (if "type" = "type" then
          EventTypes.map (fun eventType => [(eventType, "set_type:" ++ eventType)])
         else []) = b1 at h1
    have hst : b1.stateOf m.FromID =
        ⟨StateEditEventValue, dataSet (b.stateOf m.FromID).CurrentData "field" (.str "type")⟩ := by
      rw [← hb1]
      simp only [stateOf_Send, stateOf_SetUserState, stateOf_SaveUserData, stateOf_call, if_true]
    have hsc := scratch_after_field (b.stateOf m.FromID).CurrentData "type" eventID hi
    have hs1 : (b1.stateOf m.FromID).State = StateEditEventValue := by rw [hst]
    have hp1 : (b1.GetUserState m.FromID).2 = b1 :=
      GetUserState_of_present b1 _ (by rw [hs1]; decide)
    have h2 := handleCallbackQuery_setType db2 now2 b1 q2 m.FromID c newType
    rw [if_pos ⟨hs1, by rw [hst]; exact hsc.1⟩, hp1] at h2
    have hid : dataGet (b1.stateOf m.FromID).CurrentData "event_id" = some (.int64 eventID) := by
      rw [hst]; exact hsc.2
    rw [hid] at h2
    simp only [asInt64, hg] at h2
    rw [saveEdited_ok db2 _ _ _ _ (hw _)] at h2
    refine ⟨b1, _, runUpdates_two _ _ _ _ _ _ _ _ _ h1 h2, hs1, ?_, ?_⟩
    · rw [stateOf_SendMainMenu, stateOf_ResetUserState, if_pos rfl]
    · simp only [calls_SendMainMenu, calls_ResetUserState, calls_Send, calls_call,
        List.append_assoc, List.singleton_append, List.cons_append, List.nil_append]
  · have h1 := handleCallbackQuery_editField db1 now1 b q1 m.FromID c "title"
    rw [hp] at h1
    generalize hb1 : (((b.call (.answerCallback q1)).SaveUserData m.FromID "field"
      (.str "title")).SetUserState m.FromID StateEditEventValue).Send c
        (if "title" = "title" then "Введите новое название события:"
         else if "title" = "type" then "Выберите новый тип события:"
         else if "title" = "date" then "Введите новую дату события в формате ДД.ММ.ГГГГ:"
         else if "title" = "notify_days" then
           "За сколько дней до события отправлять напоминание? (введите число от 1 до 30):"
         else if "title" = "description" then "Введите новое описание события:"
         else "Выберите поле для редактирования:")
        (if "title" = "type" then
          EventTypes.map (fun eventType => [(eventType, "set_type:" ++ eventType)])
         else []) = b1 at h1
    have hst : b1.stateOf m.FromID =
        ⟨StateEditEventValue, dataSet (b.stateOf m.FromID).CurrentData "field" (.str "title")⟩ := by
      rw [← hb1]
      simp only [stateOf_Send, stateOf_SetUserState, stateOf_SaveUserData, stateOf_call, if_true]
    have hsc := scratch_after_field (b.stateOf m.FromID).CurrentData "title" eventID hi
    have hs1 : (b1.stateOf m.FromID).State = StateEditEventValue := by rw [hst]
    obtain ⟨edited, hrun, htitle, -⟩ :=
      handleText_editValue_found db2 b1 m "title" eventID event hs1 (by rw [hst]; exact hsc.1)
        (by rw [hst]; exact hsc.2) hg
        (fun h => absurd h (by decide)) (fun h => absurd h (by decide))
    rw [htitle rfl, saveEdited_ok db2 _ _ _ _ (hw _)] at hrun
    refine ⟨b1, _, runUpdates_two _ _ _ _ _ _ _ _ _ h1
      ((handleMessage_text db2 now2 b1 m hc).trans hrun), hs1, ?_, ?_⟩
    · rw [stateOf_SendMainMenu, stateOf_ResetUserState, if_pos rfl]
    · simp only [calls_SendMainMenu, calls_ResetUserState, calls_Send, calls_call,
        List.append_assoc, List.singleton_append, List.cons_append, List.nil_append]

set_option maxRecDepth 100000 in
/-- C14 amended, at event 10 of user 1: the type edit to "Другое" and the title edit to
"New title". -/
theorem edit_type_and_edit_title_witness :
    (∃ b1 b2,
      runUpdates ⟨[(1, ⟨StateEditEventField, [("event_id", .int64 10)]⟩)], []⟩
          [((oneEventTables "2000-01-01" 3).toDB, ⟨2024, 3, 10, 10, 0, 0, 0⟩,
              .callback ⟨"q1", 1, 1, "edit_field:" ++ "type"⟩),
           ((oneEventTables "2000-01-01" 3).toDB, ⟨2024, 3, 10, 10, 1, 0, 0⟩,
              .callback ⟨"q2", 1, 1, "set_type:" ++ "Другое"⟩)] =
        [.done b1, .done b2] ∧
      (b1.stateOf 1).State = StateEditEventValue ∧
      b2.stateOf 1 = ⟨StateDefault, []⟩ ∧
      b2.calls = b1.calls ++
        [.answerCallback "q2",
         .updateEvent ⟨10, 1, "title", "Другое", "2000-01-01", 3, ""⟩,
         .send 1 (eventSummary "✅ Событие успешно обновлено!"
            ⟨10, 1, "title", "Другое", "2000-01-01", 3, ""⟩) [],
         .send 1 "Что вы хотите сделать?"
          [[("Добавить событие", "add_event"), ("Мои события", "list_events")],
           [("Настройки", "settings"), ("Помощь", "help")]]]) ∧
    (∃ b1 b2,
      runUpdates ⟨[(1, ⟨StateEditEventField, [("event_id", .int64 10)]⟩)], []⟩
          [((oneEventTables "2000-01-01" 3).toDB, ⟨2024, 3, 10, 10, 0, 0, 0⟩,
              .callback ⟨"q1", 1, 1, "edit_field:" ++ "title"⟩),
           ((oneEventTables "2000-01-01" 3).toDB, ⟨2024, 3, 10, 10, 1, 0, 0⟩,
              .message (textMessage 1 1 "New title"))] =
        [.done b1, .done b2] ∧
      (b1.stateOf 1).State = StateEditEventValue ∧
      b2.stateOf 1 = ⟨StateDefault, []⟩ ∧
      b2.calls = b1.calls ++
        [.updateEvent ⟨10, 1, "New title", "День рождения", "2000-01-01", 3, ""⟩,
         .send 1 (eventSummary "✅ Событие успешно обновлено!"
            ⟨10, 1, "New title", "День рождения", "2000-01-01", 3, ""⟩) [],
         .send 1 "Что вы хотите сделать?"
          [[("Добавить событие", "add_event"), ("Мои события", "list_events")],
           [("Настройки", "settings"), ("Помощь", "help")]]]) :=
  edit_type_and_edit_title (oneEventTables "2000-01-01" 3).toDB
    (oneEventTables "2000-01-01" 3).toDB ⟨2024, 3, 10, 10, 0, 0, 0⟩ ⟨2024, 3, 10, 10, 1, 0, 0⟩
    ⟨[(1, ⟨StateEditEventField, [("event_id", .int64 10)]⟩)], []⟩ 1 1 "q1" "q2" "Другое"
    (textMessage 1 1 "New title") 10 ⟨10, 1, "title", "День рождения", "2000-01-01", 3, ""⟩
    (by decide) (by decide) (by decide) (fun _ => rfl) rfl rfl

/-! ## C16: the events written keep the invariant -/

theorem FormatDate_real (text r : String) (h : FormatDate text = .ok r) : RealDate r := by
  by_cases h3 : (stringsSplit text '.').length = 3
  · rcases hs : stringsSplit text '.' with _ | ⟨p0, _ | ⟨p1, _ | ⟨p2, _ | ⟨p3, rest⟩⟩⟩⟩
    · rw [hs] at h3; simp at h3
    · rw [hs] at h3; simp at h3
    · rw [hs] at h3; simp at h3
    · rw [FormatDate_of_parts text p0 p1 p2 hs] at h
      cases h0 : Atoi p0 with
      | error e => rw [h0] at h; simp at h
      | ok d =>
        rw [h0] at h
        simp only [] at h
        by_cases hd : d < 1 ∨ d > 31
        · rw [if_pos hd] at h; simp at h
        · rw [if_neg hd] at h
          cases h1 : Atoi p1 with
          | error e => rw [h1] at h; simp at h
          | ok m =>
            rw [h1] at h
            simp only [] at h
            by_cases hm : m < 1 ∨ m > 12
            · rw [if_pos hm] at h; simp at h
            · rw [if_neg hm] at h
              cases h2 : Atoi p2 with
              | error e => rw [h2] at h; simp at h
              | ok y =>
                rw [h2] at h
                simp only [] at h
                by_cases hy : y < 1900 ∨ y > 2100
                · rw [if_pos hy] at h; simp at h
                · rw [if_neg hy] at h
                  by_cases hex : daysIn m y < d
                  · rw [if_pos hex] at h; simp at h
                  · rw [if_neg hex] at h
                    have hr : r = isoDateText y.toNat m.toNat d.toNat := by
                      injection h with h
                      exact h.symm
                    have e1 : ((y.toNat : Nat) : Int) = y := Int.toNat_of_nonneg (by omega)
                    have e2 : ((m.toNat : Nat) : Int) = m := Int.toNat_of_nonneg (by omega)
                    have e3 : ((d.toNat : Nat) : Int) = d := Int.toNat_of_nonneg (by omega)
                    refine ⟨y.toNat, by omega, m.toNat, by omega, d.toNat, by omega, by omega,
                      by omega, ?_, hr⟩
                    rw [e1, e2, e3]
                    omega
    · rw [hs] at h3; simp at h3
  · rw [FormatDate_of_not_three text h3] at h
    simp at h

theorem good_call (b : Bot) (x : Effect) (h : GoodCalls b) (hx : GoodCall x) :
    GoodCalls (b.call x) := by
  intro e he
  rcases List.mem_append.mp he with he | he
  · exact h e he
  · rw [List.mem_singleton] at he
    rw [he]; exact hx

theorem good_Send (b : Bot) (c : Int) (t : String) (k : List (List (String × String)))
    (h : GoodCalls b) : GoodCalls (b.Send c t k) :=
  good_call b _ h trivial

theorem good_SendMainMenu (b : Bot) (c : Int) (h : GoodCalls b) : GoodCalls (b.SendMainMenu c) :=
  good_call b _ h trivial

theorem good_ResetUserState (b : Bot) (u : Int) (h : GoodCalls b) :
    GoodCalls (b.ResetUserState u) := h

theorem good_SetUserState (b : Bot) (u : Int) (st : String) (h : GoodCalls b) :
    GoodCalls (b.SetUserState u st) := by
  unfold GoodCalls
  rw [calls_SetUserState]
  exact h

theorem good_SaveUserData (b : Bot) (u : Int) (k : String) (v : Value) (h : GoodCalls b) :
    GoodCalls (b.SaveUserData u k v) := by
  unfold GoodCalls
  rw [calls_SaveUserData]
  exact h

theorem good_GetUserState (b : Bot) (u : Int) (h : GoodCalls b) :
    GoodCalls (b.GetUserState u).2 := by
  unfold GoodCalls
  rw [calls_GetUserState]
  exact h

theorem sendEventsList_good (db : DB) (now : Time) (b : Bot) (c u : Int) (h : GoodCalls b) :
    GoodCalls (sendEventsList db now b c u).bot := by
  unfold sendEventsList
  split
  · exact good_Send _ _ _ _ h
  · exact h
  · split
    · exact good_Send _ _ _ _ h
    · split <;> exact good_Send _ _ _ _ h

theorem showSettings_good (db : DB) (b : Bot) (c u : Int) (h : GoodCalls b) :
    GoodCalls (showSettings db b c u).bot := by
  unfold showSettings
  split
  · exact good_Send _ _ _ _ h
  · exact h
  · exact good_Send _ _ _ _ h

theorem saveEdited_good (db : DB) (b : Bot) (u c : Int) (event : Event)
    (h : GoodCalls b) (hev : GoodEvent event) : GoodCalls (saveEdited db b u c event).bot := by
  unfold saveEdited
  split
  · exact good_ResetUserState _ _ (good_Send _ _ _ _ (good_call _ _ h hev))
  · exact good_SendMainMenu _ _
      (good_ResetUserState _ _ (good_Send _ _ _ _ (good_call _ _ h hev)))

theorem GoodScratch_dataSet (d : List (String × Value)) (k : String) (v : Value)
    (h : GoodScratch d) (h1 : k ≠ "event_date") (h2 : k ≠ "notify_days") :
    GoodScratch (dataSet d k v) := by
  unfold GoodScratch
  rw [dataGet_dataSet, dataGet_dataSet, if_neg (Ne.symm h1), if_neg (Ne.symm h2)]
  exact h

theorem handleText_good (db : DB) (b : Bot) (m : Message)
    (hdb : ∀ id e, db.GetEventByID id = .ok (some e) → GoodEvent e)
    (hs : GoodScratch (b.stateOf m.FromID).CurrentData)
    (h : GoodCalls b) : GoodCalls (handleText db b m).bot := by
  by_cases h1 : (b.stateOf m.FromID).State = StateAddEventTitle
  · rw [handleText_title db b m h1]
    exact good_Send _ _ _ _ (good_SetUserState _ _ _ (good_SaveUserData _ _ _ _ h))
  by_cases h2 : (b.stateOf m.FromID).State = StateAddEventDate
  · rw [handleText_date db b m h2]
    split
    · exact good_Send _ _ _ _ h
    · exact good_Send _ _ _ _ (good_SetUserState _ _ _ (good_SaveUserData _ _ _ _ h))
  by_cases h3 : (b.stateOf m.FromID).State = StateAddEventNotify
  · rw [handleText_notify db b m h3]
    split
    · exact good_Send _ _ _ _ h
    · split
      · exact good_Send _ _ _ _ h
      · exact good_Send _ _ _ _ (good_SetUserState _ _ _ (good_SaveUserData _ _ _ _ h))
  by_cases h4 : (b.stateOf m.FromID).State = StateAddEventDesc
  · rw [handleText_desc db b m h4]
    simp only []
    have hb1 := good_SaveUserData b m.FromID "description"
      (.str (if m.Text = "/skip" then "" else m.Text)) h
    have hs1 : GoodScratch ((b.SaveUserData m.FromID "description"
        (.str (if m.Text = "/skip" then "" else m.Text))).stateOf m.FromID).CurrentData := by
      rw [stateOf_SaveUserData, if_pos rfl]
      exact GoodScratch_dataSet _ _ _ hs (by decide) (by decide)
    split
    · exact good_ResetUserState _ _ (good_Send _ _ _ _ hb1)
    · exact hb1
    · split
      · rename_i title eventType eventDate notifyDays e1 e2 e3 e4
        have hev : ∀ userID, GoodEvent ⟨0, userID, title, eventType, eventDate, notifyDays,
            if m.Text = "/skip" then "" else m.Text⟩ :=
          fun _ => ⟨(hs1.2 _ e4).1, (hs1.2 _ e4).2, hs1.1 _ e3⟩
        split
        · exact good_ResetUserState _ _ (good_Send _ _ _ _ (good_call _ _ hb1 (hev _)))
        · exact good_SendMainMenu _ _
            (good_ResetUserState _ _ (good_Send _ _ _ _ (good_call _ _ hb1 (hev _))))
      · exact hb1
  by_cases h5 : (b.stateOf m.FromID).State = StateSetNotifyTime
  · rw [handleText_setNotifyTime db b m h5]
    split
    · exact good_Send _ _ _ _ h
    · split
      · exact good_ResetUserState _ _ (good_Send _ _ _ _ h)
      · exact h
      · split
        · exact good_ResetUserState _ _ (good_Send _ _ _ _ (good_call _ _ h trivial))
        · exact good_SendMainMenu _ _
            (good_ResetUserState _ _ (good_Send _ _ _ _ (good_call _ _ h trivial)))
  by_cases h6 : (b.stateOf m.FromID).State = StateEditEventValue
  · rw [handleText_editValue db b m h6]
    split
    · split
      · exact good_ResetUserState _ _ (good_Send _ _ _ _ h)
      · rename_i eventPtr hg
        have hgood : ∀ event, eventPtr = some event → GoodEvent event := by
          intro event he
          rw [he] at hg
          exact hdb _ _ hg
        split_ifs
        · split
          · exact h
          · rename_i event
            exact saveEdited_good _ _ _ _ _ h
              ⟨(hgood event rfl).1, (hgood event rfl).2.1, (hgood event rfl).2.2⟩
        · split
          · exact good_Send _ _ _ _ h
          · rename_i formattedDate hf
            split
            · exact h
            · rename_i event
              exact saveEdited_good _ _ _ _ _ h
                ⟨(hgood event rfl).1, (hgood event rfl).2.1, FormatDate_real _ _ hf⟩
        · split
          · exact good_Send _ _ _ _ h
          · split_ifs with hr
            · exact good_Send _ _ _ _ h
            · split
              · exact h
              · rename_i event
                exact saveEdited_good _ _ _ _ _ h
                  ⟨by simp only []; omega, by simp only []; omega, (hgood event rfl).2.2⟩
        · split
          · exact h
          · rename_i event
            exact saveEdited_good _ _ _ _ _ h
              ⟨(hgood event rfl).1, (hgood event rfl).2.1, (hgood event rfl).2.2⟩
        · split
          · exact h
          · rename_i event
            exact saveEdited_good _ _ _ _ _ h (hgood event rfl)
    · exact h
  · rw [handleText_other db b m h1 h2 h3 h4 h5 h6]
    exact good_SendMainMenu _ _ (good_ResetUserState _ _ (good_GetUserState _ _ h))

theorem handleCommand_good (db : DB) (now : Time) (b : Bot) (m : Message)
    (hdb : ∀ id e, db.GetEventByID id = .ok (some e) → GoodEvent e)
    (hs : GoodScratch (b.stateOf m.FromID).CurrentData)
    (h : GoodCalls b) : GoodCalls (handleCommand db now b m).bot := by
  unfold handleCommand
  simp only []
  split_ifs with c1 c2 c3 c4 c5 c6 c7
  · exact good_SendMainMenu _ _
      (good_ResetUserState _ _ (good_Send _ _ _ _ (good_call _ _ h trivial)))
  · exact good_Send _ _ _ _ h
  · exact good_Send _ _ _ _ (good_SetUserState _ _ _ h)
  · exact sendEventsList_good _ _ _ _ _ h
  · exact showSettings_good _ _ _ _ h
  · exact handleText_good db (b.GetUserState m.FromID).2
      { MessageID := m.MessageID, FromID := m.FromID, UserName := m.UserName,
        FirstName := m.FirstName, LastName := m.LastName, ChatID := m.ChatID,
        Text := "", Entities := [] } hdb (by rw [stateOf_GetUserState]; exact hs)
      (good_GetUserState _ _ h)
  · exact good_GetUserState _ _ h
  · exact good_Send _ _ _ _ h

theorem handleCallbackQuery_good (db : DB) (now : Time) (b : Bot) (q : CallbackQuery)
    (hdb : ∀ id e, db.GetEventByID id = .ok (some e) → GoodEvent e)
    (h : GoodCalls b) : GoodCalls (handleCallbackQuery db now b q).bot := by
  have hb : GoodCalls ((b.GetUserState q.FromID).2.call (.answerCallback q.ID)) :=
    good_call _ _ (good_GetUserState _ _ h) trivial
  unfold handleCallbackQuery
  simp only [GetUserState_fst]
  by_cases c1 : q.Data = "add_event"
  · rw [if_pos c1]
    exact good_Send _ _ _ _ (good_SetUserState _ _ _ hb)
  rw [if_neg c1]
  by_cases c2 : q.Data = "list_events"
  · rw [if_pos c2]
    exact sendEventsList_good _ _ _ _ _ hb
  rw [if_neg c2]
  by_cases c3 : q.Data = "settings"
  · rw [if_pos c3]
    exact showSettings_good _ _ _ _ hb
  rw [if_neg c3]
  by_cases c4 : q.Data = "help"
  · rw [if_pos c4]
    exact good_Send _ _ _ _ hb
  rw [if_neg c4]
  by_cases c5 : q.Data = "back_to_menu"
  · rw [if_pos c5]
    exact good_SendMainMenu _ _ (good_ResetUserState _ _ hb)
  rw [if_neg c5]
  by_cases c6 : q.Data = "set_notify_time"
  · rw [if_pos c6]
    exact good_Send _ _ _ _ (good_SetUserState _ _ _ hb)
  rw [if_neg c6]
  by_cases c7 : hasPrefixOf q.Data "type:" = true
  · rw [if_pos c7]
    split_ifs with hs
    · exact good_Send _ _ _ _ (good_SetUserState _ _ _ (good_SaveUserData _ _ _ _ hb))
    · exact hb
  rw [if_neg c7]
  by_cases c8 : hasPrefixOf q.Data "event:" = true
  · rw [if_pos c8]
    repeat' split
    all_goals first
      | exact hb
      | exact good_Send _ _ _ _ hb
  rw [if_neg c8]
  by_cases c9 : hasPrefixOf q.Data "edit:" = true
  · rw [if_pos c9]
    repeat' split
    all_goals first
      | exact hb
      | exact good_Send _ _ _ _ hb
      | exact good_Send _ _ _ _ (good_SetUserState _ _ _ (good_SaveUserData _ _ _ _ hb))
  rw [if_neg c9]
  by_cases c10 : hasPrefixOf q.Data "edit_field:" = true
  · rw [if_pos c10]
    split_ifs
    all_goals
      exact good_Send _ _ _ _ (good_SetUserState _ _ _ (good_SaveUserData _ _ _ _ hb))
  rw [if_neg c10]
  by_cases c11 : hasPrefixOf q.Data "set_type:" = true
  · rw [if_pos c11]
    split_ifs
    · split
      · exact hb
      · split
        · exact good_ResetUserState _ _ (good_Send _ _ _ _ hb)
        · exact hb
        · rename_i event hg
          exact saveEdited_good _ _ _ _ _ hb
            ⟨(hdb _ _ hg).1, (hdb _ _ hg).2.1, (hdb _ _ hg).2.2⟩
    · exact hb
  rw [if_neg c11]
  by_cases c12 : hasPrefixOf q.Data "delete:" = true
  · rw [if_pos c12]
    repeat' split
    all_goals first
      | exact hb
      | exact good_Send _ _ _ _ (good_SaveUserData _ _ _ _ hb)
  rw [if_neg c12]
  by_cases c13 : hasPrefixOf q.Data "confirm_delete:" = true
  · rw [if_pos c13]
    repeat' split
    all_goals first
      | exact hb
      | exact good_Send _ _ _ _ (good_call _ _ hb trivial)
      | exact sendEventsList_good _ _ _ _ _ (good_Send _ _ _ _ (good_call _ _ hb trivial))
  rw [if_neg c13]
  exact hb

theorem handleUpdate_good (db : DB) (now : Time) (b : Bot) (upd : Update)
    (hdb : ∀ id e, db.GetEventByID id = .ok (some e) → GoodEvent e)
    (hs : ∀ u, GoodScratch (b.stateOf u).CurrentData)
    (h : GoodCalls b) : GoodCalls (handleUpdate db now b upd).bot := by
  cases upd with
  | message m =>
    simp only [handleUpdate, handleMessage]
    split_ifs
    · exact handleCommand_good db now b m hdb (hs _) h
    · exact handleText_good db b m hdb (hs _) h
  | callback q => exact handleCallbackQuery_good db now b q hdb h

theorem Trans_GoodScratch (s t : UserState) (h : Trans s t) (hs : GoodScratch s.CurrentData) :
    GoodScratch t.CurrentData := by
  cases h with
  | same => exact hs
  | reset => exact ⟨fun s h => by simp [dataGet, asString] at h,
      fun n h => by simp [dataGet, asInt] at h⟩
  | addStart => exact hs
  | timeStart => exact hs
  | title text h => exact GoodScratch_dataSet _ _ _ hs (by decide) (by decide)
  | type eventType h => exact GoodScratch_dataSet _ _ _ hs (by decide) (by decide)
  | date text formattedDate h hd =>
    refine ⟨fun s hs' => ?_, fun n hn => ?_⟩
    · rw [dataGet_dataSet, if_pos rfl] at hs'
      simp only [asString, Option.some.injEq] at hs'
      rw [← hs']
      exact FormatDate_real _ _ hd
    · rw [dataGet_dataSet, if_neg (by decide)] at hn
      exact hs.2 n hn
  | notify days h h1 h2 =>
    refine ⟨fun s hs' => ?_, fun n hn => ?_⟩
    · rw [dataGet_dataSet, if_neg (by decide)] at hs'
      exact hs.1 s hs'
    · rw [dataGet_dataSet, if_pos rfl] at hn
      simp only [asInt, Option.some.injEq] at hn
      rw [← hn]
      exact ⟨h1, h2⟩
  | desc description h => exact GoodScratch_dataSet _ _ _ hs (by decide) (by decide)
  | edit eventID => exact GoodScratch_dataSet _ _ _ hs (by decide) (by decide)
  | field f => exact GoodScratch_dataSet _ _ _ hs (by decide) (by decide)
  | delete eventID => exact GoodScratch_dataSet _ _ _ hs (by decide) (by decide)

theorem runUpdates_invariant (P : Bot → Prop) (inputs : List (DB × Time × Update))
    (hstep : ∀ x ∈ inputs, ∀ b, P b → P (handleUpdate x.1 x.2.1 b x.2.2).bot) :
    ∀ b, P b → ∀ out ∈ runUpdates b inputs, P out.bot := by
  induction inputs with
  | nil =>
    intro b _ out hout
    simp [runUpdates] at hout
  | cons x rest ih =>
    intro b hb out hout
    obtain ⟨db, now, upd⟩ := x
    have h1 := hstep (db, now, upd) (List.mem_cons_self _ _) b hb
    simp only [runUpdates] at hout
    cases hh : handleUpdate db now b upd with
    | done b1 =>
      rw [hh] at hout h1
      simp only [List.mem_cons] at hout
      rcases hout with hout | hout
      · rw [hout]; exact h1
      · exact ih (fun y hy => hstep y (List.mem_cons_of_mem _ hy)) b1 h1 out hout
    | crash b1 =>
      rw [hh] at hout h1
      simp only [List.mem_singleton] at hout
      rw [hout]; exact h1

theorem GoodScratch_nil : GoodScratch [] :=
  ⟨fun s h => by simp [dataGet, asString] at h, fun n h => by simp [dataGet, asInt] at h⟩

theorem oneEventTables_GetEventByID (eventDate : String) (notifyDays id : Int) (e : Event)
    (h : (oneEventTables eventDate notifyDays).toDB.GetEventByID id = .ok (some e)) :
    e = ⟨10, 1, "title", "День рождения", eventDate, notifyDays, ""⟩ := by
  simp only [oneEventTables, Tables.toDB, Tables.GetEventByID, List.find?] at h
  split at h
  · injection h with h
    injection h with h
    exact h.symm
  · simp at h

/-- C16. Starting from the empty state table, with stores whose `GetEventByID` returns
only events that keep the invariant (a lead time in 1..30 and a real calendar date in
the form `YYYY-MM-DD`), after any sequence of updates every event passed to
`CreateEvent` or to `UpdateEvent` has a lead time in 1..30 and an event date that is a
real calendar date in the form `YYYY-MM-DD`. -/
theorem written_events_keep_invariant (inputs : List (DB × Time × Update))
    (hstore : ∀ x ∈ inputs, ∀ id e, x.1.GetEventByID id = .ok (some e) → GoodEvent e) :
    ∀ out ∈ runUpdates NewBot inputs, ∀ event,
      (.createEvent event ∈ out.bot.calls ∨ .updateEvent event ∈ out.bot.calls) →
      1 ≤ event.NotifyDays ∧ event.NotifyDays ≤ 30 ∧ RealDate event.EventDate := by
  have hinv := runUpdates_invariant
    (fun b => GoodCalls b ∧ ∀ u, GoodScratch (b.stateOf u).CurrentData) inputs
    (fun x hx b hb => ⟨handleUpdate_good x.1 x.2.1 b x.2.2 (hstore x hx) hb.2 hb.1,
      fun u => Trans_GoodScratch _ _ (handleUpdate_trans x.1 x.2.1 b x.2.2 u) (hb.2 u)⟩)
    NewBot ⟨fun e he => by simp [NewBot] at he, fun u => GoodScratch_nil⟩
  intro out hout event hev
  rcases hev with hev | hev
  · exact (hinv out hout).1 _ hev
  · exact (hinv out hout).1 _ hev

set_option maxRecDepth 1000000 in
/-- C16 at the date edit of event 10 from the empty state table: the callbacks `edit:10`
and `edit_field:date`, then the text "29.02.2024"; the event written has the date
"2024-02-29" and the lead time 3. -/
theorem written_events_keep_invariant_witness :
    (Outcome.done
        ⟨[(1, ⟨StateDefault, []⟩)],
         [.answerCallback "q1",
          .send 1 "Что вы хотите изменить?"
            [[("🔤 Название", "edit_field:title"), ("🏷 Тип", "edit_field:type")],
             [("📅 Дата", "edit_field:date"), ("🔔 Дни напоминания", "edit_field:notify_days")],
             [("📝 Описание", "edit_field:description"), ("⬅️ Назад", "event:10")]],
          .answerCallback "q2",
          .send 1 "Введите новую дату события в формате ДД.ММ.ГГГГ:" [],
          .updateEvent ⟨10, 1, "title", "День рождения", "2024-02-29", 3, ""⟩,
          .send 1 (eventSummary "✅ Событие успешно обновлено!"
            ⟨10, 1, "title", "День рождения", "2024-02-29", 3, ""⟩) [],
          .send 1 "Что вы хотите сделать?"
            [[("Добавить событие", "add_event"), ("Мои события", "list_events")],
             [("Настройки", "settings"), ("Помощь", "help")]]]⟩ ∈
      runUpdates NewBot
        [((oneEventTables "2000-01-01" 3).toDB, ⟨2024, 3, 10, 10, 0, 0, 0⟩,
            .callback ⟨"q1", 1, 1, "edit:10"⟩),
         ((oneEventTables "2000-01-01" 3).toDB, ⟨2024, 3, 10, 10, 0, 0, 0⟩,
            .callback ⟨"q2", 1, 1, "edit_field:date"⟩),
         ((oneEventTables "2000-01-01" 3).toDB, ⟨2024, 3, 10, 10, 0, 0, 0⟩,
            .message (textMessage 1 1 "29.02.2024"))]) ∧
    (1 ≤ (3 : Int) ∧ (3 : Int) ≤ 30 ∧ RealDate "2024-02-29") := by
  have hmem : (Outcome.done
        ⟨[(1, ⟨StateDefault, []⟩)],
         [.answerCallback "q1",
          .send 1 "Что вы хотите изменить?"
            [[("🔤 Название", "edit_field:title"), ("🏷 Тип", "edit_field:type")],
             [("📅 Дата", "edit_field:date"), ("🔔 Дни напоминания", "edit_field:notify_days")],
             [("📝 Описание", "edit_field:description"), ("⬅️ Назад", "event:10")]],
          .answerCallback "q2",
          .send 1 "Введите новую дату события в формате ДД.ММ.ГГГГ:" [],
          .updateEvent ⟨10, 1, "title", "День рождения", "2024-02-29", 3, ""⟩,
          .send 1 (eventSummary "✅ Событие успешно обновлено!"
            ⟨10, 1, "title", "День рождения", "2024-02-29", 3, ""⟩) [],
          .send 1 "Что вы хотите сделать?"
            [[("Добавить событие", "add_event"), ("Мои события", "list_events")],
             [("Настройки", "settings"), ("Помощь", "help")]]]⟩ : Outcome) ∈
      runUpdates NewBot
        [((oneEventTables "2000-01-01" 3).toDB, ⟨2024, 3, 10, 10, 0, 0, 0⟩,
            .callback ⟨"q1", 1, 1, "edit:10"⟩),
         ((oneEventTables "2000-01-01" 3).toDB, ⟨2024, 3, 10, 10, 0, 0, 0⟩,
            .callback ⟨"q2", 1, 1, "edit_field:date"⟩),
         ((oneEventTables "2000-01-01" 3).toDB, ⟨2024, 3, 10, 10, 0, 0, 0⟩,
            .message (textMessage 1 1 "29.02.2024"))] := by
    decide
  refine ⟨hmem, written_events_keep_invariant _ ?_ _ hmem
    ⟨10, 1, "title", "День рождения", "2024-02-29", 3, ""⟩ (Or.inr (by decide))⟩
  intro x hx id e he
  simp only [List.mem_cons, List.mem_singleton, List.not_mem_nil, or_false] at hx
  have hgood : GoodEvent ⟨10, 1, "title", "День рождения", "2000-01-01", 3, ""⟩ :=
    ⟨by decide, by decide, 2000, by omega, 1, by omega, 1, by omega, by decide⟩
  rcases hx with hx | hx | hx <;> subst hx <;>
    rw [oneEventTables_GetEventByID _ _ _ _ he] <;> exact hgood

/-! ## C19: the scratch data of a user in the default state -/

set_option maxRecDepth 1000000 in
/-- C19 as stated fails: the callback `delete:` stores `delete_event_id` with
`SaveUserData` and does not touch the tag, so from the empty state table the user ends
in `StateDefault` with scratch data that is not empty. -/
theorem delete_token_fills_default_scratch :
    handleUpdate (Tables.mk [] []).toDB ⟨2024, 3, 10, 10, 0, 0, 0⟩ NewBot
        (.callback ⟨"q", 7, 8, "delete:5"⟩) =
      .done ⟨[(7, ⟨StateDefault, [("delete_event_id", .int64 5)]⟩)],
        [.answerCallback "q",
         .send 8 "❓ Вы уверены, что хотите удалить это событие? Это действие нельзя отменить."
          [[("✅ Да, удалить", "confirm_delete:5"), ("❌ Нет, отменить", "event:5")]]]⟩ := by
  decide

theorem Trans_default (s t : UserState) (h : Trans s t) (ht : t.State = StateDefault) :
    t.CurrentData = [] ∨
      (s.State = StateDefault ∧
        (t.CurrentData = s.CurrentData ∨
          ∃ eventID, t.CurrentData = dataSet s.CurrentData "delete_event_id" (.int64 eventID))) := by
  cases h with
  | same => exact Or.inr ⟨ht, Or.inl rfl⟩
  | reset => exact Or.inl rfl
  | addStart =>
    simp only [] at ht
    exact absurd ht (by decide)
  | timeStart =>
    simp only [] at ht
    exact absurd ht (by decide)
  | title text h =>
    simp only [] at ht
    exact absurd ht (by decide)
  | type eventType h =>
    simp only [] at ht
    exact absurd ht (by decide)
  | date text formattedDate h hd =>
    simp only [] at ht
    exact absurd ht (by decide)
  | notify days h h1 h2 =>
    simp only [] at ht
    exact absurd ht (by decide)
  | desc description h =>
    simp only [] at ht
    rw [h] at ht
    exact absurd ht (by decide)
  | edit eventID =>
    simp only [] at ht
    exact absurd ht (by decide)
  | field f =>
    simp only [] at ht
    exact absurd ht (by decide)
  | delete eventID => exact Or.inr ⟨ht, Or.inr ⟨eventID, rfl⟩⟩

theorem default_only_delete_id_step (db : DB) (now : Time) (b : Bot) (upd : Update)
    (hb : ∀ v k, (b.stateOf v).State = StateDefault →
      dataGet (b.stateOf v).CurrentData k ≠ none → k = "delete_event_id") :
    ∀ v k, ((handleUpdate db now b upd).bot.stateOf v).State = StateDefault →
      dataGet ((handleUpdate db now b upd).bot.stateOf v).CurrentData k ≠ none →
      k = "delete_event_id" := by
  intro v k ht hk
  rcases Trans_default _ _ (handleUpdate_trans db now b upd v) ht with h | ⟨hs, h | ⟨id, h⟩⟩
  · rw [h] at hk
    exact absurd rfl hk
  · rw [h] at hk
    exact hb v k hs hk
  · rw [h, dataGet_dataSet] at hk
    by_cases hkk : k = "delete_event_id"
    · exact hkk
    · rw [if_neg hkk] at hk
      exact hb v k hs hk

/-- C19, amended. After any update from any prior configuration, a user whose resulting
tag is `StateDefault` has empty scratch data, or was in `StateDefault` before and has
the scratch data of before, with at most the entry `delete_event_id` set by the
callback `delete:`.  So in every configuration reached from the empty state table a
user in `StateDefault` has no scratch entry other than `delete_event_id`. -/
theorem default_scratch_holds_only_delete_id (db : DB) (now : Time) (b : Bot) (upd : Update)
    (u : Int) (inputs : List (DB × Time × Update)) :
    (((handleUpdate db now b upd).bot.stateOf u).State = StateDefault →
      ((handleUpdate db now b upd).bot.stateOf u).CurrentData = [] ∨
      ((b.stateOf u).State = StateDefault ∧
        (((handleUpdate db now b upd).bot.stateOf u).CurrentData = (b.stateOf u).CurrentData ∨
          ∃ eventID, ((handleUpdate db now b upd).bot.stateOf u).CurrentData =
            dataSet (b.stateOf u).CurrentData "delete_event_id" (.int64 eventID)))) ∧
    (∀ out ∈ runUpdates NewBot inputs, ∀ v k, (out.bot.stateOf v).State = StateDefault →
      dataGet (out.bot.stateOf v).CurrentData k ≠ none → k = "delete_event_id") := by
  refine ⟨Trans_default _ _ (handleUpdate_trans db now b upd u), ?_⟩
  exact runUpdates_invariant
    (fun b => ∀ v k, (b.stateOf v).State = StateDefault →
      dataGet (b.stateOf v).CurrentData k ≠ none → k = "delete_event_id") inputs
    (fun x _ b hb => default_only_delete_id_step x.1 x.2.1 b x.2.2 hb) NewBot
    (fun v k _ hk => absurd rfl hk)

set_option maxRecDepth 1000000 in
/-- C19 amended, at the callback `back_to_menu` received in `StateAddEventDate`: the
user ends in `StateDefault`, with empty scratch data. -/
theorem default_scratch_holds_only_delete_id_witness :
    ((handleUpdate (Tables.mk [] []).toDB ⟨2024, 3, 10, 10, 0, 0, 0⟩
        ⟨[(7, ⟨StateAddEventDate, [("title", .str "t"), ("type", .str "Другое")]⟩)], []⟩
        (.callback ⟨"q", 7, 8, "back_to_menu"⟩)).bot.stateOf 7).CurrentData = [] ∨
      (((⟨[(7, ⟨StateAddEventDate, [("title", .str "t"), ("type", .str "Другое")]⟩)], []⟩ :
          Bot).stateOf 7).State = StateDefault ∧
        (((handleUpdate (Tables.mk [] []).toDB ⟨2024, 3, 10, 10, 0, 0, 0⟩
            ⟨[(7, ⟨StateAddEventDate, [("title", .str "t"), ("type", .str "Другое")]⟩)], []⟩
            (.callback ⟨"q", 7, 8, "back_to_menu"⟩)).bot.stateOf 7).CurrentData =
          ((⟨[(7, ⟨StateAddEventDate, [("title", .str "t"), ("type", .str "Другое")]⟩)], []⟩ :
            Bot).stateOf 7).CurrentData ∨
          ∃ eventID, ((handleUpdate (Tables.mk [] []).toDB ⟨2024, 3, 10, 10, 0, 0, 0⟩
              ⟨[(7, ⟨StateAddEventDate, [("title", .str "t"), ("type", .str "Другое")]⟩)], []⟩
              (.callback ⟨"q", 7, 8, "back_to_menu"⟩)).bot.stateOf 7).CurrentData =
            dataSet ((⟨[(7, ⟨StateAddEventDate, [("title", .str "t"),
              ("type", .str "Другое")]⟩)], []⟩ : Bot).stateOf 7).CurrentData
              "delete_event_id" (.int64 eventID))) :=
  (default_scratch_holds_only_delete_id (Tables.mk [] []).toDB ⟨2024, 3, 10, 10, 0, 0, 0⟩
    ⟨[(7, ⟨StateAddEventDate, [("title", .str "t"), ("type", .str "Другое")]⟩)], []⟩
    (.callback ⟨"q", 7, 8, "back_to_menu"⟩) 7 []).1 (by decide)

/-! ## C21: the scratch data in the description step -/

theorem holdsString_set_self (d : List (String × Value)) (k v : String) :
    holdsString (dataSet d k (.str v)) k = true := by
  unfold holdsString
  rw [dataGet_dataSet, if_pos rfl]
  rfl

theorem holdsInt_set_self (d : List (String × Value)) (k : String) (n : Int) :
    holdsInt (dataSet d k (.int n)) k = true := by
  unfold holdsInt
  rw [dataGet_dataSet, if_pos rfl]
  rfl

theorem holdsString_set_other (d : List (String × Value)) (k k' : String) (v : Value)
    (h : k' ≠ k) : holdsString (dataSet d k v) k' = holdsString d k' := by
  unfold holdsString
  rw [dataGet_dataSet, if_neg h]

theorem holdsInt_set_other (d : List (String × Value)) (k k' : String) (v : Value)
    (h : k' ≠ k) : holdsInt (dataSet d k v) k' = holdsInt d k' := by
  unfold holdsInt
  rw [dataGet_dataSet, if_neg h]

theorem holdsString_iff (d : List (String × Value)) (k : String) :
    holdsString d k = true ↔ ∃ s, dataGet d k = some (.str s) := by
  unfold holdsString
  cases h : dataGet d k with
  | none => simp [asString]
  | some v => cases v <;> simp [asString]

theorem holdsInt_iff (d : List (String × Value)) (k : String) :
    holdsInt d k = true ↔ ∃ n, dataGet d k = some (.int n) := by
  unfold holdsInt
  cases h : dataGet d k with
  | none => simp [asInt]
  | some v => cases v <;> simp [asInt]

/-- Adding an entry under a key the add flow does not read keeps what it has collected,
when the tag stays. -/
theorem AddFlowTyped_keep (s : UserState) (k : String) (v : Value) (hs : AddFlowTyped s)
    (h1 : "title" ≠ k) (h2 : "type" ≠ k) (h3 : "event_date" ≠ k) (h4 : "notify_days" ≠ k) :
    AddFlowTyped ⟨s.State, dataSet s.CurrentData k v⟩ := by
  unfold AddFlowTyped
  simp only [holdsString_set_other _ _ _ _ h1, holdsString_set_other _ _ _ _ h2,
    holdsString_set_other _ _ _ _ h3, holdsInt_set_other _ _ _ _ h4]
  exact hs

/-- A tag outside the add flow asks for nothing. -/
theorem AddFlowTyped_outside (tag : String) (d : List (String × Value))
    (h1 : tag ≠ StateAddEventType) (h2 : tag ≠ StateAddEventDate)
    (h3 : tag ≠ StateAddEventNotify) (h4 : tag ≠ StateAddEventDesc) :
    AddFlowTyped ⟨tag, d⟩ :=
  ⟨fun h => absurd h h1, fun h => absurd h h2, fun h => absurd h h3, fun h => absurd h h4⟩

theorem AddFlowTyped_mk (tag : String) (d : List (String × Value))
    (h1 : tag = StateAddEventType → holdsString d "title" = true)
    (h2 : tag = StateAddEventDate → holdsString d "title" = true ∧ holdsString d "type" = true)
    (h3 : tag = StateAddEventNotify →
      holdsString d "title" = true ∧ holdsString d "type" = true ∧
      holdsString d "event_date" = true)
    (h4 : tag = StateAddEventDesc →
      holdsString d "title" = true ∧ holdsString d "type" = true ∧
      holdsString d "event_date" = true ∧ holdsInt d "notify_days" = true) :
    AddFlowTyped ⟨tag, d⟩ :=
  ⟨h1, h2, h3, h4⟩

theorem Trans_AddFlowTyped (s t : UserState) (h : Trans s t) (hs : AddFlowTyped s) :
    AddFlowTyped t := by
  cases h with
  | same => exact hs
  | reset => exact AddFlowTyped_outside _ _ (by decide) (by decide) (by decide) (by decide)
  | addStart => exact AddFlowTyped_outside _ _ (by decide) (by decide) (by decide) (by decide)
  | timeStart => exact AddFlowTyped_outside _ _ (by decide) (by decide) (by decide) (by decide)
  | title text h =>
    exact AddFlowTyped_mk StateAddEventType _ (fun _ => holdsString_set_self _ _ _)
      (fun h' => absurd h' (by decide)) (fun h' => absurd h' (by decide))
      (fun h' => absurd h' (by decide))
  | type eventType h =>
    refine AddFlowTyped_mk StateAddEventDate _ (fun h' => absurd h' (by decide))
      (fun _ => ⟨?_, holdsString_set_self _ _ _⟩)
      (fun h' => absurd h' (by decide)) (fun h' => absurd h' (by decide))
    rw [holdsString_set_other _ _ _ _ (by decide)]
    exact hs.1 h
  | date text formattedDate h hd =>
    refine AddFlowTyped_mk StateAddEventNotify _ (fun h' => absurd h' (by decide))
      (fun h' => absurd h' (by decide))
      (fun _ => ⟨?_, ?_, holdsString_set_self _ _ _⟩) (fun h' => absurd h' (by decide))
    · rw [holdsString_set_other _ _ _ _ (by decide)]
      exact (hs.2.1 h).1
    · rw [holdsString_set_other _ _ _ _ (by decide)]
      exact (hs.2.1 h).2
  | notify days h h1 h2 =>
    refine AddFlowTyped_mk StateAddEventDesc _ (fun h' => absurd h' (by decide))
      (fun h' => absurd h' (by decide))
      (fun h' => absurd h' (by decide)) (fun _ => ⟨?_, ?_, ?_, holdsInt_set_self _ _ _⟩)
    · rw [holdsString_set_other _ _ _ _ (by decide)]
      exact (hs.2.2.1 h).1
    · rw [holdsString_set_other _ _ _ _ (by decide)]
      exact (hs.2.2.1 h).2.1
    · rw [holdsString_set_other _ _ _ _ (by decide)]
      exact (hs.2.2.1 h).2.2
  | desc description h =>
    exact AddFlowTyped_keep s _ _ hs (by decide) (by decide) (by decide) (by decide)
  | edit eventID =>
    exact AddFlowTyped_outside _ _ (by decide) (by decide) (by decide) (by decide)
  | field f => exact AddFlowTyped_outside _ _ (by decide) (by decide) (by decide) (by decide)
  | delete eventID =>
    exact AddFlowTyped_keep s _ _ hs (by decide) (by decide) (by decide) (by decide)

theorem AddFlowTyped_reachable (inputs : List (DB × Time × Update)) :
    ∀ out ∈ runUpdates NewBot inputs, ∀ u, AddFlowTyped (out.bot.stateOf u) :=
  runUpdates_invariant (fun b => ∀ u, AddFlowTyped (b.stateOf u)) inputs
    (fun x _ b hb u => Trans_AddFlowTyped _ _ (handleUpdate_trans x.1 x.2.1 b x.2.2 u) (hb u))
    NewBot
    (fun _ => AddFlowTyped_outside _ _ (by decide) (by decide) (by decide) (by decide))

/-- In `StateAddEventDesc` with the four entries typed and the sender known to the
store, the description step returns: no type assertion fails. -/
theorem handleText_desc_returns (db : DB) (b : Bot) (m : Message) (user : User)
    (title eventType eventDate : String) (notifyDays : Int)
    (hs : (b.stateOf m.FromID).State = StateAddEventDesc)
    (hu : db.GetUserByTelegramID m.FromID = .ok (some user))
    (h1 : dataGet (b.stateOf m.FromID).CurrentData "title" = some (.str title))
    (h2 : dataGet (b.stateOf m.FromID).CurrentData "type" = some (.str eventType))
    (h3 : dataGet (b.stateOf m.FromID).CurrentData "event_date" = some (.str eventDate))
    (h4 : dataGet (b.stateOf m.FromID).CurrentData "notify_days" = some (.int notifyDays)) :
    ∃ b1, handleText db b m = .done b1 ∧
      .createEvent ⟨0, user.ID, title, eventType, eventDate, notifyDays,
        if m.Text = "/skip" then "" else m.Text⟩ ∈ b1.calls := by
  rw [handleText_desc db b m hs]
  simp only [hu, stateOf_SaveUserData, if_true, dataGet_after_description _ _ "title"
    (by decide), dataGet_after_description _ _ "type" (by decide),
    dataGet_after_description _ _ "event_date" (by decide),
    dataGet_after_description _ _ "notify_days" (by decide), h1, h2, h3, h4, asString, asInt]
  cases db.CreateEvent ⟨0, user.ID, title, eventType, eventDate, notifyDays,
      if m.Text = "/skip" then "" else m.Text⟩ with
  | error e =>
    refine ⟨_, rfl, ?_⟩
    simp [calls_ResetUserState, calls_Send, calls_call]
  | ok r =>
    refine ⟨_, rfl, ?_⟩
    simp [calls_SendMainMenu, calls_ResetUserState, calls_Send, calls_call]

/-- C21. In every configuration reached from the empty state table by any sequence of
updates, a user in `StateAddEventDesc` has scratch entries `title`, `type` and
`event_date` holding strings and `notify_days` holding an `int`; so the description
step, for a text message that is not a command or for the command `/skip`, with the
sender known to the store, fails none of its four type assertions: it returns, having
called `CreateEvent` with these four values. -/
theorem add_description_scratch_is_typed (inputs : List (DB × Time × Update)) :
    ∀ out ∈ runUpdates NewBot inputs, ∀ u, (out.bot.stateOf u).State = StateAddEventDesc →
      ∃ (title eventType eventDate : String) (notifyDays : Int),
        dataGet (out.bot.stateOf u).CurrentData "title" = some (.str title) ∧
        dataGet (out.bot.stateOf u).CurrentData "type" = some (.str eventType) ∧
        dataGet (out.bot.stateOf u).CurrentData "event_date" = some (.str eventDate) ∧
        dataGet (out.bot.stateOf u).CurrentData "notify_days" = some (.int notifyDays) ∧
        ∀ (db : DB) (now : Time) (m : Message) (user : User),
          m.FromID = u → (m.IsCommand = false ∨ m.Command = "skip") →
          db.GetUserByTelegramID u = .ok (some user) →
          ∃ b1 description, handleMessage db now out.bot m = .done b1 ∧
            .createEvent ⟨0, user.ID, title, eventType, eventDate, notifyDays, description⟩ ∈
              b1.calls := by
  intro out hout u hs
  obtain ⟨h1, h2, h3, h4⟩ := (AddFlowTyped_reachable inputs out hout u).2.2.2 hs
  obtain ⟨title, h1⟩ := (holdsString_iff _ _).mp h1
  obtain ⟨eventType, h2⟩ := (holdsString_iff _ _).mp h2
  obtain ⟨eventDate, h3⟩ := (holdsString_iff _ _).mp h3
  obtain ⟨notifyDays, h4⟩ := (holdsInt_iff _ _).mp h4
  refine ⟨title, eventType, eventDate, notifyDays, h1, h2, h3, h4, ?_⟩
  intro db now m user hm hkind hu
  subst hm
  rcases hkind with hc | hk
  · rw [handleMessage_text db now out.bot m hc]
    obtain ⟨b1, hrun, hmem⟩ :=
      handleText_desc_returns db out.bot m user title eventType eventDate notifyDays
        hs hu h1 h2 h3 h4
    exact ⟨b1, _, hrun, hmem⟩
  · rw [handleMessage_skip db now out.bot m hk hs]
    obtain ⟨b1, hrun, hmem⟩ :=
      handleText_desc_returns db out.bot
        { MessageID := m.MessageID, FromID := m.FromID, UserName := m.UserName,
          FirstName := m.FirstName, LastName := m.LastName, ChatID := m.ChatID,
          Text := "", Entities := [] } user title eventType eventDate notifyDays
        hs hu h1 h2 h3 h4
    exact ⟨b1, _, hrun, hmem⟩

set_option maxRecDepth 1000000 in
/-- C21 at the add flow of user 1 up to the lead time: the user is in
`StateAddEventDesc` with the four entries typed. -/
theorem add_description_scratch_is_typed_witness :
    (Outcome.done
        ⟨[(1, ⟨StateAddEventDesc,
            [("title", .str "Mom's Birthday"), ("type", .str "Другое"),
             ("event_date", .str "1970-03-15"), ("notify_days", .int 3)]⟩)],
         [.send 1 "Введите название события:" [],
          .send 1 "Выберите тип события:"
            (EventTypes.map (fun eventType => [(eventType, "type:" ++ eventType)])),
          .answerCallback "q",
          .send 1 "Введите дату события в формате ДД.ММ.ГГГГ:" [],
          .send 1
            "За сколько дней до события отправить напоминание? (введите число от 1 до 30):" [],
          .send 1 "Введите описание события (или отправьте /skip, чтобы пропустить):" []]⟩ ∈
      runUpdates NewBot
        [((oneEventTables "2000-01-01" 3).toDB, ⟨2024, 3, 10, 10, 0, 0, 0⟩,
            .message (commandMessage 1 1 "/add")),
         ((oneEventTables "2000-01-01" 3).toDB, ⟨2024, 3, 10, 10, 0, 0, 0⟩,
            .message (textMessage 1 1 "Mom's Birthday")),
         ((oneEventTables "2000-01-01" 3).toDB, ⟨2024, 3, 10, 10, 0, 0, 0⟩,
            .callback ⟨"q", 1, 1, "type:Другое"⟩),
         ((oneEventTables "2000-01-01" 3).toDB, ⟨2024, 3, 10, 10, 0, 0, 0⟩,
            .message (textMessage 1 1 "15.03.1970")),
         ((oneEventTables "2000-01-01" 3).toDB, ⟨2024, 3, 10, 10, 0, 0, 0⟩,
            .message (textMessage 1 1 "3"))]) ∧
    ∃ (title eventType eventDate : String) (notifyDays : Int) (b1 : Bot) (description : String),
      handleMessage (oneEventTables "2000-01-01" 3).toDB ⟨2024, 3, 10, 10, 0, 0, 0⟩
          ⟨[(1, ⟨StateAddEventDesc,
              [("title", .str "Mom's Birthday"), ("type", .str "Другое"),
               ("event_date", .str "1970-03-15"), ("notify_days", .int 3)]⟩)],
           [.send 1 "Введите название события:" [],
            .send 1 "Выберите тип события:"
              (EventTypes.map (fun eventType => [(eventType, "type:" ++ eventType)])),
            .answerCallback "q",
            .send 1 "Введите дату события в формате ДД.ММ.ГГГГ:" [],
            .send 1
              "За сколько дней до события отправить напоминание? (введите число от 1 до 30):" [],
            .send 1 "Введите описание события (или отправьте /skip, чтобы пропустить):" []]⟩
          (commandMessage 1 1 "/skip") = .done b1 ∧
        .createEvent ⟨0, 1, title, eventType, eventDate, notifyDays, description⟩ ∈ b1.calls := by
  have hmem : (Outcome.done
        ⟨[(1, ⟨StateAddEventDesc,
            [("title", .str "Mom's Birthday"), ("type", .str "Другое"),
             ("event_date", .str "1970-03-15"), ("notify_days", .int 3)]⟩)],
         [.send 1 "Введите название события:" [],
          .send 1 "Выберите тип события:"
            (EventTypes.map (fun eventType => [(eventType, "type:" ++ eventType)])),
          .answerCallback "q",
          .send 1 "Введите дату события в формате ДД.ММ.ГГГГ:" [],
          .send 1
            "За сколько дней до события отправить напоминание? (введите число от 1 до 30):" [],
          .send 1 "Введите описание события (или отправьте /skip, чтобы пропустить):" []]⟩ :
          Outcome) ∈
      runUpdates NewBot
        [((oneEventTables "2000-01-01" 3).toDB, ⟨2024, 3, 10, 10, 0, 0, 0⟩,
            .message (commandMessage 1 1 "/add")),
         ((oneEventTables "2000-01-01" 3).toDB, ⟨2024, 3, 10, 10, 0, 0, 0⟩,
            .message (textMessage 1 1 "Mom's Birthday")),
         ((oneEventTables "2000-01-01" 3).toDB, ⟨2024, 3, 10, 10, 0, 0, 0⟩,
            .callback ⟨"q", 1, 1, "type:Другое"⟩),
         ((oneEventTables "2000-01-01" 3).toDB, ⟨2024, 3, 10, 10, 0, 0, 0⟩,
            .message (textMessage 1 1 "15.03.1970")),
         ((oneEventTables "2000-01-01" 3).toDB, ⟨2024, 3, 10, 10, 0, 0, 0⟩,
            .message (textMessage 1 1 "3"))] := by
    decide
  obtain ⟨title, eventType, eventDate, notifyDays, -, -, -, -, hrun⟩ :=
    add_description_scratch_is_typed _ _ hmem 1 (by decide)
  obtain ⟨b1, description, h1, h2⟩ :=
    hrun (oneEventTables "2000-01-01" 3).toDB ⟨2024, 3, 10, 10, 0, 0, 0⟩
      (commandMessage 1 1 "/skip") ⟨1, 1, "u", "U", "", "00:00"⟩ rfl (Or.inr (by decide))
      (by decide)
  exact ⟨hmem, title, eventType, eventDate, notifyDays, b1, description, h1, h2⟩

/-! ## C22: the scratch data in the value step of the edit flow -/

set_option maxRecDepth 1000000 in
/-- C22 fails on the code.  The case `edit_field:` of `handleCallbackQuery` has no test
of the state, unlike the cases `type:` and `set_type:`: from the empty state table the
token `edit_field:title` moves the user to `StateEditEventValue` with the scratch entry
`field` and no `event_id`.  The text that follows fails the type assertion
`CurrentData["event_id"].(int64)` and panics; after the token `edit_field:type`, so does
the callback `set_type:`. -/
theorem field_token_reaches_edit_value_without_event :
    runUpdates NewBot
        [((oneEventTables "2000-01-01" 3).toDB, ⟨2024, 3, 10, 10, 0, 0, 0⟩,
            .callback ⟨"q1", 1, 1, "edit_field:title"⟩),
         ((oneEventTables "2000-01-01" 3).toDB, ⟨2024, 3, 10, 10, 0, 0, 0⟩,
            .message (textMessage 1 1 "New title"))] =
      [.done ⟨[(1, ⟨StateEditEventValue, [("field", .str "title")]⟩)],
         [.answerCallback "q1", .send 1 "Введите новое название события:" []]⟩,
       .crash ⟨[(1, ⟨StateEditEventValue, [("field", .str "title")]⟩)],
         [.answerCallback "q1", .send 1 "Введите новое название события:" []]⟩] ∧
    runUpdates NewBot
        [((oneEventTables "2000-01-01" 3).toDB, ⟨2024, 3, 10, 10, 0, 0, 0⟩,
            .callback ⟨"q1", 1, 1, "edit_field:type"⟩),
         ((oneEventTables "2000-01-01" 3).toDB, ⟨2024, 3, 10, 10, 0, 0, 0⟩,
            .callback ⟨"q2", 1, 1, "set_type:Другое"⟩)] =
      [.done ⟨[(1, ⟨StateEditEventValue, [("field", .str "type")]⟩)],
         [.answerCallback "q1",
          .send 1 "Выберите новый тип события:"
            (EventTypes.map (fun eventType => [(eventType, "set_type:" ++ eventType)]))]⟩,
       .crash ⟨[(1, ⟨StateEditEventValue, [("field", .str "type")]⟩)],
         [.answerCallback "q1",
          .send 1 "Выберите новый тип события:"
            (EventTypes.map (fun eventType => [(eventType, "set_type:" ++ eventType)])),
          .answerCallback "q2"]⟩] ∧
    dataGet [("field", Value.str "title")] "event_id" = none := by
  decide

theorem Trans_field_typed (s t : UserState) (h : Trans s t)
    (hs : s.State = StateEditEventValue → holdsString s.CurrentData "field" = true) :
    t.State = StateEditEventValue → holdsString t.CurrentData "field" = true := by
  cases h with
  | same => exact hs
  | reset => exact fun h' => absurd (show StateDefault = StateEditEventValue from h') (by decide)
  | addStart =>
    exact fun h' => absurd (show StateAddEventTitle = StateEditEventValue from h') (by decide)
  | timeStart =>
    exact fun h' => absurd (show StateSetNotifyTime = StateEditEventValue from h') (by decide)
  | title text h =>
    exact fun h' => absurd (show StateAddEventType = StateEditEventValue from h') (by decide)
  | type eventType h =>
    exact fun h' => absurd (show StateAddEventDate = StateEditEventValue from h') (by decide)
  | date text formattedDate h hd =>
    exact fun h' => absurd (show StateAddEventNotify = StateEditEventValue from h') (by decide)
  | notify days h h1 h2 =>
    exact fun h' => absurd (show StateAddEventDesc = StateEditEventValue from h') (by decide)
  | desc description h =>
    intro h'
    rw [holdsString_set_other _ _ _ _ (by decide)]
    exact hs h'
  | edit eventID =>
    exact fun h' => absurd (show StateEditEventField = StateEditEventValue from h') (by decide)
  | field f => exact fun _ => holdsString_set_self _ _ _
  | delete eventID =>
    intro h'
    rw [holdsString_set_other _ _ _ _ (by decide)]
    exact hs h'

/-- The part of C22 that holds: in every configuration reached from the empty state
table, a user in `StateEditEventValue` has the scratch entry `field` holding a string. -/
theorem edit_value_holds_field (inputs : List (DB × Time × Update)) :
    ∀ out ∈ runUpdates NewBot inputs, ∀ u, (out.bot.stateOf u).State = StateEditEventValue →
      ∃ field, dataGet (out.bot.stateOf u).CurrentData "field" = some (.str field) := by
  intro out hout u hs
  exact (holdsString_iff _ _).mp
    (runUpdates_invariant
      (fun b => ∀ u, (b.stateOf u).State = StateEditEventValue →
        holdsString (b.stateOf u).CurrentData "field" = true) inputs
      (fun x _ b hb u => Trans_field_typed _ _ (handleUpdate_trans x.1 x.2.1 b x.2.2 u) (hb u))
      NewBot (fun _ h' => absurd (show StateDefault = StateEditEventValue from h') (by decide))
      out hout u hs)

/-! ## C23: a sender the store does not know -/

set_option maxRecDepth 1000000 in
/-- C23 fails on the code.  With no user 7 in the store, `GetUserByTelegramID` returns
no user and no error; the description step, the time step with a valid time, the
event list and the settings view test only the error and then read a field of the nil
`*User`: each panics before any message is sent and before any store write.  The loop
of `CheckAndSendNotifications` does test `user == nil` and skips the event. -/
theorem unknown_sender_panics :
    (Tables.mk [] []).toDB.GetUserByTelegramID 7 = .ok none ∧
    handleUpdate (Tables.mk [] []).toDB ⟨2024, 3, 10, 10, 0, 0, 0⟩
        ⟨[(7, ⟨StateAddEventDesc,
            [("title", .str "t"), ("type", .str "Другое"), ("event_date", .str "1970-03-15"),
             ("notify_days", .int 3)]⟩)], []⟩
        (.message (textMessage 7 8 "d")) =
      .crash ⟨[(7, ⟨StateAddEventDesc,
            [("title", .str "t"), ("type", .str "Другое"), ("event_date", .str "1970-03-15"),
             ("notify_days", .int 3), ("description", .str "d")]⟩)], []⟩ ∧
    handleUpdate (Tables.mk [] []).toDB ⟨2024, 3, 10, 10, 0, 0, 0⟩
        ⟨[(7, ⟨StateSetNotifyTime, []⟩)], []⟩ (.message (textMessage 7 8 "09:00")) =
      .crash ⟨[(7, ⟨StateSetNotifyTime, []⟩)], []⟩ ∧
    handleUpdate (Tables.mk [] []).toDB ⟨2024, 3, 10, 10, 0, 0, 0⟩ NewBot
        (.message (commandMessage 7 8 "/list")) = .crash NewBot ∧
    handleUpdate (Tables.mk [] []).toDB ⟨2024, 3, 10, 10, 0, 0, 0⟩ NewBot
        (.message (commandMessage 7 8 "/settings")) = .crash NewBot ∧
    handleUpdate (Tables.mk [] []).toDB ⟨2024, 3, 10, 10, 0, 0, 0⟩ NewBot
        (.callback ⟨"q", 7, 8, "list_events"⟩) =
      .crash ⟨[(7, ⟨StateDefault, []⟩)], [.answerCallback "q"]⟩ ∧
    handleUpdate (Tables.mk [] []).toDB ⟨2024, 3, 10, 10, 0, 0, 0⟩ NewBot
        (.callback ⟨"q", 7, 8, "settings"⟩) =
      .crash ⟨[(7, ⟨StateDefault, []⟩)], [.answerCallback "q"]⟩ ∧
    checkEvent (Tables.mk [] []).toDB ⟨2024, 3, 10, 10, 0, 0, 0⟩
      ⟨10, 7, "t", "Другое", "1970-03-10", 3, ""⟩ = [] := by
  decide

end ReminderBot
